import Mathlib

/-!
# NI-DAQmx ANSI C examples: a shallow embedding

The examples are short sequences of calls into the NI-DAQmx driver.  The driver
is not part of the repository, so it is modelled as an oracle: a function that,
given the log of everything the program did so far and the next call, produces
the reply (status code and out-parameters).  Every program below threads the
log explicitly, so a run is observable as its list of events.

Integer widths: `uInt32` counters are `Nat` reduced modulo `2^32` where the
source increments them; `int32` status codes are `Int`.
-/

namespace DAQmx

/-- Task handle of `NIDAQmx.h`; `0` is the null handle the examples test against. -/
abbrev TaskHandle := Nat

/-- An IEEE-754 binary64 value, carried by its bit pattern.  The examples only
pass such values through to the driver, they never compute with them in the
parts modelled here. -/
structure float64 where
  bits : Nat
deriving DecidableEq, Repr

/-- Literal `-10.0`. -/
def f64_neg10 : float64 := ⟨0xC024000000000000⟩
/-- Literal `10.0`. -/
def f64_10 : float64 := ⟨0x4024000000000000⟩
/-- Literal `0.50`. -/
def f64_0_5 : float64 := ⟨0x3FE0000000000000⟩
/-- Literal `1.00`. -/
def f64_1 : float64 := ⟨0x3FF0000000000000⟩
/-- Literal `1000.0`. -/
def f64_1000 : float64 := ⟨0x408F400000000000⟩
/-- Literal `5000.0`. -/
def f64_5000 : float64 := ⟨0x40B3880000000000⟩
/-- Literal `10000.0`. -/
def f64_10000 : float64 := ⟨0x40C3880000000000⟩
/-- Literal `10000000.0`. -/
def f64_10000000 : float64 := ⟨0x416312D000000000⟩

/-! Constants of `NIDAQmx.h` used by the examples. -/

def DAQmx_Val_Cfg_Default : Int := -1
def DAQmx_Val_Volts : Int := 10348
def DAQmx_Val_Rising : Int := 10280
def DAQmx_Val_FiniteSamps : Int := 10178
def DAQmx_Val_ContSamps : Int := 10123
def DAQmx_Val_GroupByChannel : Int := 0
def DAQmx_Val_Acquired_Into_Buffer : Int := 1
def DAQmx_Val_ChanForAllLines : Int := 1
def DAQmx_Val_Seconds : Int := 10364
def DAQmx_Val_Low : Int := 10214
def DAQmx_Val_CSeriesModule : Int := 14659
def DAQmx_Val_SCXIModule : Int := 14660

/-- Largest value of a `uInt32`. -/
def UINT32_MAX : Nat := 4294967295

/-- The value an `int32` holds after an addition, taken modulo `2^32`. -/
def wrapInt32 (x : Int) : Int := (x + 2147483648) % 4294967296 - 2147483648

/-- Macro `DAQmxFailed(error)` of `NIDAQmx.h`: a status is failing when negative. -/
def DAQmxFailed (error : Int) : Bool := decide (error < 0)

/-- The driver entry points the examples call, with their in-parameters.
Out-parameters are part of the `Reply`; parameters the examples always pass as
`NULL` (custom scale name, `reserved`, unused out-pointers, callback data) and the
callback function pointers are left out. -/
inductive Call
  | DAQmxCreateTask (taskName : String)
  | DAQmxCreateAIVoltageChan (taskHandle : TaskHandle) (physicalChannel nameToAssignToChannel : String)
      (terminalConfig : Int) (minVal maxVal : float64) (units : Int)
  | DAQmxCreateAOVoltageChan (taskHandle : TaskHandle) (physicalChannel nameToAssignToChannel : String)
      (minVal maxVal : float64) (units : Int)
  | DAQmxCreateDOChan (taskHandle : TaskHandle) (lines nameToAssignToLines : String) (lineGrouping : Int)
  | DAQmxCreateCOPulseChanTime (taskHandle : TaskHandle) (counter nameToAssignToChannel : String)
      (units idleState : Int) (initialDelay lowTime highTime : float64)
  | DAQmxCfgSampClkTiming (taskHandle : TaskHandle) (source : String) (rate : float64)
      (activeEdge sampleMode : Int) (sampsPerChan : Nat)
  | DAQmxCfgDigEdgeStartTrig (taskHandle : TaskHandle) (triggerSource : String) (triggerEdge : Int)
  | DAQmxSetStartTrigRetriggerable (taskHandle : TaskHandle) (data : Nat)
  | DAQmxGetMasterTimebaseSrc (taskHandle : TaskHandle) (bufferSize : Nat)
  | DAQmxGetMasterTimebaseRate (taskHandle : TaskHandle)
  | DAQmxSetMasterTimebaseSrc (taskHandle : TaskHandle) (data : String)
  | DAQmxSetMasterTimebaseRate (taskHandle : TaskHandle) (data : float64)
  | DAQmxGetRefClkSrc (taskHandle : TaskHandle) (bufferSize : Nat)
  | DAQmxGetRefClkRate (taskHandle : TaskHandle)
  | DAQmxSetRefClkSrc (taskHandle : TaskHandle) (data : String)
  | DAQmxSetRefClkRate (taskHandle : TaskHandle) (data : float64)
  | DAQmxSetSampClkTimebaseSrc (taskHandle : TaskHandle) (data : String)
  | DAQmxSetSyncPulseSrc (taskHandle : TaskHandle) (data : String)
  | DAQmxGetTaskNumDevices (taskHandle : TaskHandle)
  | DAQmxGetNthTaskDevice (taskHandle : TaskHandle) (index : Nat) (bufferSize : Nat)
  | DAQmxGetDevProductCategory (device : String)
  | DAQmxRegisterEveryNSamplesEvent (taskHandle : TaskHandle) (everyNsamplesEventType : Int)
      (nSamples : Nat) (options : Nat)
  | DAQmxRegisterDoneEvent (taskHandle : TaskHandle) (options : Nat)
  | DAQmxStartTask (taskHandle : TaskHandle)
  | DAQmxStopTask (taskHandle : TaskHandle)
  | DAQmxClearTask (taskHandle : TaskHandle)
  | DAQmxWaitUntilTaskDone (taskHandle : TaskHandle) (timeToWait : float64)
  | DAQmxReadAnalogF64 (taskHandle : TaskHandle) (numSampsPerChan : Int) (timeout : float64)
      (fillMode : Int) (arraySizeInSamps : Nat)
  | DAQmxWriteAnalogF64 (taskHandle : TaskHandle) (numSampsPerChan : Int) (autoStart : Nat)
      (timeout : float64) (dataLayout : Int) (writeArray : List float64)
  | DAQmxWriteAnalogScalarF64 (taskHandle : TaskHandle) (autoStart : Nat) (timeout : float64)
      (value : float64)
  | DAQmxWriteDigitalLines (taskHandle : TaskHandle) (numSampsPerChan : Int) (autoStart : Nat)
      (timeout : float64) (dataLayout : Int) (writeArray : List Nat)
  | DAQmxGetExtendedErrorInfo (bufferSize : Nat)
deriving DecidableEq, Repr

/-- What a driver call hands back: the returned status and the values it stored
through its out-parameters (only the fields a given call has are read). -/
structure Reply where
  /-- returned `int32` status -/
  status : Int
  /-- `TaskHandle *taskHandle` of `DAQmxCreateTask` -/
  taskHandle : TaskHandle := 0
  /-- `uInt32 *data` -/
  u32 : Nat := 0
  /-- `int32 *data`, `int32 *sampsPerChanRead` -/
  i32 : Int := 0
  /-- `char buffer[]`, as the NUL-terminated string it holds -/
  str : String := ""
  /-- `float64 *data` -/
  f64 : float64 := ⟨0⟩
deriving DecidableEq, Repr

/-- One observable step of a run, in program order. -/
inductive Event
  | call (c : Call) (r : Reply)
  | printf (text : String)
  | getchar
deriving DecidableEq, Repr

/-- The driver: its reply to a call may depend on everything that happened before. -/
abbrev Driver := List Event → Call → Reply

/-- `strcpy(dst, src)`: the destination afterwards holds `src`. -/
def strcpy (_dst src : String) : String := src

/-- `strcat(dst, src)`. -/
def strcat (dst src : String) : String := dst ++ src

/-- Whether a product category is one of the two module categories the helper skips. -/
def isModuleCategory (productCategory : Int) : Bool :=
  !(productCategory != DAQmx_Val_CSeriesModule && productCategory != DAQmx_Val_SCXIModule)

/-- Return of `GetTerminalNameWithDevPrefix`: `ret = some (error, triggerName)` when
the function returned, with the content of the caller's buffer; `none` when the
loop was still running when the fuel ran out.  `trace` is the log afterwards. -/
structure HelperRun where
  ret : Option (Int × String)
  trace : List Event
deriving DecidableEq, Repr

/-- Program state of an example: the log, the `error` variable of the running
function and the example's variables. -/
structure St (V : Type) where
  trace : List Event
  error : Int
  vars : V

/-- Where control is after a statement: at the next statement, at the label
`Error` (a `DAQmxErrChk` jumped), or still inside a loop when the fuel ran out. -/
inductive Flow (V : Type)
  | next (s : St V)
  | Error (s : St V)
  | hang (s : St V)

/-- The state carried by a flow. -/
def Flow.state {V : Type} : Flow V → St V
  | .next s => s
  | .Error s => s
  | .hang s => s

/-- A statement of a function body that uses `DAQmxErrChk`. -/
abbrev Stmt (V : Type) := St V → Flow V

/-- Statements in sequence: the rest runs only when control reaches it. -/
def run {V : Type} : List (Stmt V) → Stmt V
  | [], s => .next s
  | stmt :: rest, s =>
    match stmt s with
    | .next s1 => run rest s1
    | .Error s1 => .Error s1
    | .hang s1 => .hang s1

/-- Continues with `k` when control fell through. -/
def Flow.andThen {V : Type} (f : Flow V) (k : St V → Flow V) : Flow V :=
  match f with
  | .next s => k s
  | .Error s => .Error s
  | .hang s => .hang s

/-- Appends one event to the log. -/
def emit {V : Type} (e : Event) (s : St V) : St V :=
  { s with trace := s.trace ++ [e] }

/-- A driver call whose status is not looked at (`functionCall;`); `store` writes the
out-parameters into the variables. -/
def call {V : Type} (d : Driver) (c : Call) (store : Reply → V → V) (s : St V) : St V :=
  let r := d s.trace c
  { s with trace := s.trace ++ [Event.call c r], vars := store r s.vars }

/-- Macro `DAQmxErrChk(functionCall)`:
`if( DAQmxFailed(error=(functionCall)) ) goto Error; else`, for a driver call. -/
def DAQmxErrChk {V : Type} (d : Driver) (c : V → Call) (store : Reply → V → V) : Stmt V := fun s =>
  let r := d s.trace (c s.vars)
  let s1 : St V := { trace := s.trace ++ [Event.call (c s.vars) r], error := r.status, vars := store r s.vars }
  if DAQmxFailed s1.error then .Error s1 else .next s1

/-- No out-parameter to store. -/
def keep {V : Type} : Reply → V → V := fun _ v => v

/-- Statement `printf(...)` with the formatted text. -/
def printf {V : Type} (text : V → String) : Stmt V := fun s =>
  .next (emit (Event.printf (text s.vars)) s)

/-- Statement `getchar();`. -/
def getchar {V : Type} : Stmt V := fun s => .next (emit Event.getchar s)

/-- How `main` ended: `ret = some r` when it returned `r`, `none` when it was still
running when the fuel ran out; `final` is the state at that point. -/
structure Exit (V : Type) where
  ret : Option Int
  final : St V

/-- The code from the label `Error` on is reached by falling through or by `goto`. -/
def atError {V : Type} (cleanup : St V → St V) : Flow V → Exit V
  | .next s => ⟨some 0, cleanup s⟩
  | .Error s => ⟨some 0, cleanup s⟩
  | .hang s => ⟨none, s⟩

/-- The driver calls of a log, in order. -/
def calls : List Event → List (Call × Reply)
  | [] => []
  | Event.call c r :: rest => (c, r) :: calls rest
  | _ :: rest => calls rest

/-- An event that is not a driver call with a failing status. -/
def Event.ok : Event → Bool
  | .call _ r => !DAQmxFailed r.status
  | _ => true

/-- A test driver: every call returns status `0`, except the call issued when the log
has length `failAt`, which returns `-1` and stores nothing.  `DAQmxCreateTask` hands
out a fresh non-zero handle; the enumeration queries are answered from a device
table (name and product category per device, the same table for every task). -/
def simDriver (devs : List (String × Int)) (failAt : Option Nat) : Driver := fun trace c =>
  if failAt = some trace.length then { status := -1 } else
  match c with
  | .DAQmxCreateTask _ => { status := 0, taskHandle := trace.length + 1 }
  | .DAQmxGetTaskNumDevices _ => { status := 0, u32 := devs.length }
  | .DAQmxGetNthTaskDevice _ i _ => { status := 0, str := ((devs.get? (i - 1)).map Prod.fst).getD "" }
  | .DAQmxGetDevProductCategory dev =>
    { status := 0, i32 := ((devs.find? (fun p => p.1 == dev)).map Prod.snd).getD 0 }
  | _ => { status := 0 }

/-! ### ContinuousAI.c -/

namespace ContinuousAI

/-- The `while( i<=numDevices )` loop of `GetTerminalNameWithDevPrefix` (lines 198-206).
`i` is a `uInt32`, so `i++` wraps. -/
def GetTerminalNameWithDevPrefix.loop (d : Driver) (taskHandle : TaskHandle) (terminalName : String)
    (numDevices : Nat) : Nat → Nat → Int → String → List Event → HelperRun
  | fuel, i, error, triggerName, trace =>
    if i ≤ numDevices then
      match fuel with
      | 0 => ⟨none, trace⟩
      | fuel + 1 =>
        -- DAQmxErrChk (DAQmxGetNthTaskDevice(taskHandle,i++,device,256));
        let c1 := Call.DAQmxGetNthTaskDevice taskHandle i 256
        let r1 := d trace c1
        let trace := trace ++ [Event.call c1 r1]
        let i := (i + 1) % (UINT32_MAX + 1)
        let error := r1.status
        if DAQmxFailed error then ⟨some (error, triggerName), trace⟩ else
        let device := r1.str
        -- DAQmxErrChk (DAQmxGetDevProductCategory(device,&productCategory));
        let c2 := Call.DAQmxGetDevProductCategory device
        let r2 := d trace c2
        let trace := trace ++ [Event.call c2 r2]
        let error := r2.status
        if DAQmxFailed error then ⟨some (error, triggerName), trace⟩ else
        let productCategory := r2.i32
        if productCategory != DAQmx_Val_CSeriesModule && productCategory != DAQmx_Val_SCXIModule then
          -- *triggerName++ = '/'; strcat(strcat(strcpy(triggerName,device),"/"),terminalName); break;
          ⟨some (error, "/" ++ strcat (strcat (strcpy (triggerName.drop 1) device) "/") terminalName), trace⟩
        else
          GetTerminalNameWithDevPrefix.loop d taskHandle terminalName numDevices fuel i error triggerName trace
    else ⟨some (error, triggerName), trace⟩

/-- `GetTerminalNameWithDevPrefix(taskHandle, terminalName, triggerName)` (lines 190-210);
`triggerName` is the content of the caller's buffer on entry. -/
def GetTerminalNameWithDevPrefix (d : Driver) (fuel : Nat) (taskHandle : TaskHandle)
    (terminalName triggerName : String) (trace : List Event) : HelperRun :=
  -- DAQmxErrChk (DAQmxGetTaskNumDevices(taskHandle,&numDevices));
  let c0 := Call.DAQmxGetTaskNumDevices taskHandle
  let r0 := d trace c0
  let trace := trace ++ [Event.call c0 r0]
  let error := r0.status
  if DAQmxFailed error then ⟨some (error, triggerName), trace⟩ else
  let numDevices := r0.u32
  GetTerminalNameWithDevPrefix.loop d taskHandle terminalName numDevices fuel 1 error triggerName trace

/-- The file-scope handles, the automatic variables of `main` and the two static
counters of `EveryNCallback`. -/
structure Vars where
  masterTaskHandle : TaskHandle
  slaveTaskHandle : TaskHandle
  errBuff : String
  str1 : String
  str2 : String
  trigName : String
  clkRate : float64
  /-- `static int32 masterTotal` of `EveryNCallback` -/
  masterTotal : Int
  /-- `static int32 slaveTotal` of `EveryNCallback` -/
  slaveTotal : Int

/-- `DAQmxErrChk (GetTerminalNameWithDevPrefix(masterTaskHandle,terminalName,buffer));` where
`buffer` is one of `str1`, `str2`, `trigName`. -/
def DAQmxErrChk_GetTerminalNameWithDevPrefix (d : Driver) (fuel : Nat) (terminalName : String)
    (buffer : Vars → String) (store : String → Vars → Vars) : Stmt Vars := fun s =>
  let r := GetTerminalNameWithDevPrefix d fuel s.vars.masterTaskHandle terminalName (buffer s.vars) s.trace
  match r.ret with
  | none => .hang { s with trace := r.trace }
  | some (error, triggerName) =>
    let s1 : St Vars := { trace := r.trace, error := error, vars := store triggerName s.vars }
    if DAQmxFailed s1.error then .Error s1 else .next s1

/-- The `switch( synchType )` of `main` (lines 104-146). -/
def main.switch (d : Driver) (fuel : Nat) (synchType : Nat) : List (Stmt Vars) :=
  match synchType with
  | 0 => -- E & S Series Sharing Master Timebase
    [ DAQmxErrChk d (fun v => .DAQmxGetMasterTimebaseSrc v.masterTaskHandle 256) (fun r v => { v with str1 := r.str }),
      DAQmxErrChk d (fun v => .DAQmxGetMasterTimebaseRate v.masterTaskHandle) (fun r v => { v with clkRate := r.f64 }),
      DAQmxErrChk d (fun v => .DAQmxSetMasterTimebaseSrc v.slaveTaskHandle v.str1) keep,
      DAQmxErrChk d (fun v => .DAQmxSetMasterTimebaseRate v.slaveTaskHandle v.clkRate) keep ]
  | 1 => -- M Series Sharing Reference Clock for PCI Devices
    [ DAQmxErrChk d (fun v => .DAQmxSetRefClkSrc v.masterTaskHandle "OnboardClock") keep,
      DAQmxErrChk d (fun v => .DAQmxGetRefClkSrc v.masterTaskHandle 256) (fun r v => { v with str1 := r.str }),
      DAQmxErrChk d (fun v => .DAQmxGetRefClkRate v.masterTaskHandle) (fun r v => { v with clkRate := r.f64 }),
      DAQmxErrChk d (fun v => .DAQmxSetRefClkSrc v.slaveTaskHandle v.str1) keep,
      DAQmxErrChk d (fun v => .DAQmxSetRefClkRate v.slaveTaskHandle v.clkRate) keep ]
  | 2 => -- M Series Sharing Reference Clock for PXI Devices
    [ DAQmxErrChk d (fun v => .DAQmxSetRefClkSrc v.masterTaskHandle "PXI_Clk10") keep,
      DAQmxErrChk d (fun v => .DAQmxSetRefClkRate v.masterTaskHandle f64_10000000) keep,
      DAQmxErrChk d (fun v => .DAQmxSetRefClkSrc v.slaveTaskHandle "PXI_Clk10") keep,
      DAQmxErrChk d (fun v => .DAQmxSetRefClkRate v.slaveTaskHandle f64_10000000) keep ]
  | 3 => -- DSA Sharing Sample Clock
    [ DAQmxErrChk_GetTerminalNameWithDevPrefix d fuel "SampleClockTimebase" (fun v => v.str1)
        (fun n v => { v with str1 := n }),
      DAQmxErrChk_GetTerminalNameWithDevPrefix d fuel "SyncPulse" (fun v => v.str2)
        (fun n v => { v with str2 := n }),
      DAQmxErrChk d (fun v => .DAQmxSetSampClkTimebaseSrc v.slaveTaskHandle v.str1) keep,
      DAQmxErrChk d (fun v => .DAQmxSetSyncPulseSrc v.slaveTaskHandle v.str2) keep ]
  | 4 => -- Reference clock 10 synchronization for DSA devices
    [ DAQmxErrChk d (fun v => .DAQmxSetRefClkSrc v.masterTaskHandle "PXI_Clk10") keep,
      DAQmxErrChk_GetTerminalNameWithDevPrefix d fuel "SyncPulse" (fun v => v.str1)
        (fun n v => { v with str1 := n }),
      DAQmxErrChk d (fun v => .DAQmxSetSyncPulseSrc v.slaveTaskHandle v.str1) keep,
      DAQmxErrChk d (fun v => .DAQmxSetRefClkSrc v.slaveTaskHandle "PXI_Clk10") keep ]
  | _ => []

/-- Lines 98-103 of `main`: both tasks are created and given a channel and a clock. -/
def main.create (d : Driver) : List (Stmt Vars) :=
  [ DAQmxErrChk d (fun _ => .DAQmxCreateTask "") (fun r v => { v with masterTaskHandle := r.taskHandle }),
    DAQmxErrChk d (fun v => .DAQmxCreateAIVoltageChan v.masterTaskHandle "Dev1/ai0" "" DAQmx_Val_Cfg_Default
      f64_neg10 f64_10 DAQmx_Val_Volts) keep,
    DAQmxErrChk d (fun v => .DAQmxCfgSampClkTiming v.masterTaskHandle "" f64_10000 DAQmx_Val_Rising
      DAQmx_Val_ContSamps 1000) keep,
    DAQmxErrChk d (fun _ => .DAQmxCreateTask "") (fun r v => { v with slaveTaskHandle := r.taskHandle }),
    DAQmxErrChk d (fun v => .DAQmxCreateAIVoltageChan v.slaveTaskHandle "Dev10/ai0" "" DAQmx_Val_Cfg_Default
      f64_neg10 f64_10 DAQmx_Val_Volts) keep,
    DAQmxErrChk d (fun v => .DAQmxCfgSampClkTiming v.slaveTaskHandle "" f64_10000 DAQmx_Val_Rising
      DAQmx_Val_ContSamps 1000) keep ]

/-- Lines 147-151 of `main`: the slave's start trigger and the two event registrations. -/
def main.trigger (d : Driver) (fuel : Nat) : List (Stmt Vars) :=
  [ DAQmxErrChk_GetTerminalNameWithDevPrefix d fuel "ai/StartTrigger" (fun v => v.trigName)
      (fun n v => { v with trigName := n }),
    DAQmxErrChk d (fun v => .DAQmxCfgDigEdgeStartTrig v.slaveTaskHandle v.trigName DAQmx_Val_Rising) keep,
    DAQmxErrChk d (fun v => .DAQmxRegisterEveryNSamplesEvent v.masterTaskHandle
      DAQmx_Val_Acquired_Into_Buffer 1000 0) keep,
    DAQmxErrChk d (fun v => .DAQmxRegisterDoneEvent v.masterTaskHandle 0) keep ]

/-- Lines 158-163 of `main`: the two start calls and the wait for Enter. -/
def main.start (d : Driver) : List (Stmt Vars) :=
  [ DAQmxErrChk d (fun v => .DAQmxStartTask v.slaveTaskHandle) keep,
    DAQmxErrChk d (fun v => .DAQmxStartTask v.masterTaskHandle) keep,
    printf (fun _ => "Acquiring samples continuously. Press Enter to interrupt\n"),
    printf (fun _ => "\nRead:\tMaster\tSlave\tTotal:\tMaster\tSlave\n"),
    getchar ]

/-- The body of `main` up to the label `Error` (lines 98-163).  In the source
`synchType` is a local initialised to `0` that the user edits; it is a parameter here. -/
def main.body (d : Driver) (fuel : Nat) (synchType : Nat) : List (Stmt Vars) :=
  main.create d ++ [run (main.switch d fuel synchType)] ++ main.trigger d fuel ++ main.start d

/-- The code of `main` from the label `Error` on (lines 165-187). -/
def main.cleanup (d : Driver) (s : St Vars) : St Vars :=
  -- if( DAQmxFailed(error) ) DAQmxGetExtendedErrorInfo(errBuff,2048);
  let s := if DAQmxFailed s.error then
      call d (.DAQmxGetExtendedErrorInfo 2048) (fun r v => { v with errBuff := r.str }) s
    else s
  -- if( masterTaskHandle ) { ... }
  let s := if s.vars.masterTaskHandle != 0 then
      let s := call d (.DAQmxStopTask s.vars.masterTaskHandle) keep s
      let s := call d (.DAQmxClearTask s.vars.masterTaskHandle) keep s
      { s with vars := { s.vars with masterTaskHandle := 0 } }
    else s
  -- if( slaveTaskHandle ) { ... }
  let s := if s.vars.slaveTaskHandle != 0 then
      let s := call d (.DAQmxStopTask s.vars.slaveTaskHandle) keep s
      let s := call d (.DAQmxClearTask s.vars.slaveTaskHandle) keep s
      { s with vars := { s.vars with slaveTaskHandle := 0 } }
    else s
  -- if( DAQmxFailed(error) ) printf("DAQmx Error: %s\n",errBuff);
  let s := if DAQmxFailed s.error then emit (.printf ("DAQmx Error: " ++ s.vars.errBuff ++ "\n")) s else s
  let s := emit (.printf "End of program, press Enter key to quit") s
  emit .getchar s

/-- State on entry of `main`: the handles and the counters are `0` (static
initialisers), `error=0`, `errBuff` is empty; `stack` gives the indeterminate content
of the uninitialised `str1`, `str2`, `trigName` and `clkRate`. -/
def main.entry (stack : Vars) : St Vars :=
  { trace := [], error := 0,
    vars := { stack with masterTaskHandle := 0, slaveTaskHandle := 0, errBuff := "",
                         masterTotal := 0, slaveTotal := 0 } }

/-- State of `main` on arrival at the label `Error`. -/
def main.config (d : Driver) (fuel : Nat) (synchType : Nat) (stack : Vars) : Flow Vars :=
  run (main.body d fuel synchType) (main.entry stack)

/-- `int main(void)`, run without any callback being delivered. -/
def main (d : Driver) (fuel : Nat) (synchType : Nat) (stack : Vars) : Exit Vars :=
  atError (main.cleanup d) (main.config d fuel synchType stack)

/-- The code of `EveryNCallback` from its label `Error` on (lines 233-249); `error` is
the callback's own variable and `errBuff` its own buffer.  The handles are not reset. -/
def EveryNCallback.Error (d : Driver) (error : Int) (s : St Vars) : St Vars :=
  if DAQmxFailed error then
    -- DAQmxGetExtendedErrorInfo(errBuff,2048);
    let r := d s.trace (.DAQmxGetExtendedErrorInfo 2048)
    let s := emit (Event.call (.DAQmxGetExtendedErrorInfo 2048) r) s
    let errBuff := r.str
    -- if( masterTaskHandle ) { DAQmxStopTask(masterTaskHandle); DAQmxClearTask(masterTaskHandle); }
    let s := if s.vars.masterTaskHandle != 0 then
        let s := call d (.DAQmxStopTask s.vars.masterTaskHandle) keep s
        call d (.DAQmxClearTask s.vars.masterTaskHandle) keep s
      else s
    -- if( slaveTaskHandle ) { DAQmxStopTask(slaveTaskHandle); DAQmxClearTask(slaveTaskHandle); }
    let s := if s.vars.slaveTaskHandle != 0 then
        let s := call d (.DAQmxStopTask s.vars.slaveTaskHandle) keep s
        call d (.DAQmxClearTask s.vars.slaveTaskHandle) keep s
      else s
    emit (.printf ("DAQmx Error: " ++ errBuff ++ "\n")) s
  else s

/-- `EveryNCallback` (lines 212-250); returns the callback's return value and the state. -/
def EveryNCallback (d : Driver) (_taskHandle : TaskHandle) (_everyNsamplesEventType : Int)
    (_nSamples : Nat) (s : St Vars) : Int × St Vars :=
  -- DAQmxErrChk (DAQmxReadAnalogF64(masterTaskHandle,1000,10.0,DAQmx_Val_GroupByChannel,masterData,1000,&masterRead,NULL));
  let c1 := Call.DAQmxReadAnalogF64 s.vars.masterTaskHandle 1000 f64_10 DAQmx_Val_GroupByChannel 1000
  let r1 := d s.trace c1
  let s := emit (Event.call c1 r1) s
  if DAQmxFailed r1.status then (0, EveryNCallback.Error d r1.status s) else
  let masterRead := r1.i32
  -- DAQmxErrChk (DAQmxReadAnalogF64(slaveTaskHandle,1000,10.0,DAQmx_Val_GroupByChannel,slaveData,1000,&slaveRead,NULL));
  let c2 := Call.DAQmxReadAnalogF64 s.vars.slaveTaskHandle 1000 f64_10 DAQmx_Val_GroupByChannel 1000
  let r2 := d s.trace c2
  let s := emit (Event.call c2 r2) s
  if DAQmxFailed r2.status then (0, EveryNCallback.Error d r2.status s) else
  let slaveRead := r2.i32
  -- if( masterRead>0 ) masterTotal += masterRead;
  let s := if masterRead > 0 then
      { s with vars := { s.vars with masterTotal := wrapInt32 (s.vars.masterTotal + masterRead) } }
    else s
  -- if( slaveRead>0 ) slaveTotal += slaveRead;
  let s := if slaveRead > 0 then
      { s with vars := { s.vars with slaveTotal := wrapInt32 (s.vars.slaveTotal + slaveRead) } }
    else s
  let s := emit (.printf ("\t" ++ toString masterRead ++ "\t" ++ toString slaveRead ++ "\t\t" ++
    toString s.vars.masterTotal ++ "\t" ++ toString s.vars.slaveTotal ++ "\r")) s
  (0, EveryNCallback.Error d r2.status s)

/-- `DoneCallback` (lines 252-272); returns the callback's return value and the state. -/
def DoneCallback (d : Driver) (taskHandle : TaskHandle) (status : Int) (s : St Vars) : Int × St Vars :=
  -- DAQmxErrChk (status);
  let error := status
  if DAQmxFailed error then
    let r := d s.trace (.DAQmxGetExtendedErrorInfo 2048)
    let s := emit (Event.call (.DAQmxGetExtendedErrorInfo 2048) r) s
    let errBuff := r.str
    -- DAQmxClearTask(taskHandle);
    let s := call d (.DAQmxClearTask taskHandle) keep s
    let s := if s.vars.slaveTaskHandle != 0 then
        let s := call d (.DAQmxStopTask s.vars.slaveTaskHandle) keep s
        let s := call d (.DAQmxClearTask s.vars.slaveTaskHandle) keep s
        { s with vars := { s.vars with slaveTaskHandle := 0 } }
      else s
    (0, emit (.printf ("DAQmx Error: " ++ errBuff ++ "\n")) s)
  else (0, s)

/-- A callback delivery: the arguments the driver passes. -/
inductive Callback
  | everyN (taskHandle : TaskHandle) (everyNsamplesEventType : Int) (nSamples : Nat)
  | done (status : Int)

/-- Runs one delivered callback; `DoneCallback` gets the handle it was registered on. -/
def deliver (d : Driver) (registered : TaskHandle) (s : St Vars) : Callback → St Vars
  | .everyN taskHandle everyNsamplesEventType nSamples =>
    (EveryNCallback d taskHandle everyNsamplesEventType nSamples s).2
  | .done status => (DoneCallback d registered status s).2

/-- A whole run without interleaving: `main` up to its wait for Enter, the callbacks
delivered meanwhile one after the other, then the code from the label `Error` on.
When `main` jumped to `Error` earlier, no callback is delivered. -/
def mainWithCallbacks (d : Driver) (fuel : Nat) (synchType : Nat) (stack : Vars)
    (cbs : List Callback) : Exit Vars :=
  match main.config d fuel synchType stack with
  | .next s => ⟨some 0, main.cleanup d (cbs.foldl (deliver d s.vars.masterTaskHandle) s)⟩
  | .Error s => ⟨some 0, main.cleanup d s⟩
  | .hang s => ⟨none, s⟩

end ContinuousAI

/-! ### SynchAI-AO.c -/

namespace SynchAI_AO

/-- The `while( i<=numDevices )` loop of `GetTerminalNameWithDevPrefix` (lines 236-244).
`i` is a `uInt32`, so `i++` wraps. -/
def GetTerminalNameWithDevPrefix.loop (d : Driver) (taskHandle : TaskHandle) (terminalName : String)
    (numDevices : Nat) : Nat → Nat → Int → String → List Event → HelperRun
  | fuel, i, error, triggerName, trace =>
    if i ≤ numDevices then
      match fuel with
      | 0 => ⟨none, trace⟩
      | fuel + 1 =>
        -- DAQmxErrChk (DAQmxGetNthTaskDevice(taskHandle,i++,device,256));
        let c1 := Call.DAQmxGetNthTaskDevice taskHandle i 256
        let r1 := d trace c1
        let trace := trace ++ [Event.call c1 r1]
        let i := (i + 1) % (UINT32_MAX + 1)
        let error := r1.status
        if DAQmxFailed error then ⟨some (error, triggerName), trace⟩ else
        let device := r1.str
        -- DAQmxErrChk (DAQmxGetDevProductCategory(device,&productCategory));
        let c2 := Call.DAQmxGetDevProductCategory device
        let r2 := d trace c2
        let trace := trace ++ [Event.call c2 r2]
        let error := r2.status
        if DAQmxFailed error then ⟨some (error, triggerName), trace⟩ else
        let productCategory := r2.i32
        if productCategory != DAQmx_Val_CSeriesModule && productCategory != DAQmx_Val_SCXIModule then
          -- *triggerName++ = '/'; strcat(strcat(strcpy(triggerName,device),"/"),terminalName); break;
          ⟨some (error, "/" ++ strcat (strcat (strcpy (triggerName.drop 1) device) "/") terminalName), trace⟩
        else
          GetTerminalNameWithDevPrefix.loop d taskHandle terminalName numDevices fuel i error triggerName trace
    else ⟨some (error, triggerName), trace⟩

/-- `GetTerminalNameWithDevPrefix(taskHandle, terminalName, triggerName)` (lines 228-248);
`triggerName` is the content of the caller's buffer on entry. -/
def GetTerminalNameWithDevPrefix (d : Driver) (fuel : Nat) (taskHandle : TaskHandle)
    (terminalName triggerName : String) (trace : List Event) : HelperRun :=
  -- DAQmxErrChk (DAQmxGetTaskNumDevices(taskHandle,&numDevices));
  let c0 := Call.DAQmxGetTaskNumDevices taskHandle
  let r0 := d trace c0
  let trace := trace ++ [Event.call c0 r0]
  let error := r0.status
  if DAQmxFailed error then ⟨some (error, triggerName), trace⟩ else
  let numDevices := r0.u32
  GetTerminalNameWithDevPrefix.loop d taskHandle terminalName numDevices fuel 1 error triggerName trace

/-- The file-scope handles, the automatic variables of `main` and the static counter
of `EveryNCallback`.  `AOdata` is the waveform `GenSineWave` computes with `sin`; its
values are not modelled. -/
structure Vars where
  AItaskHandle : TaskHandle
  AOtaskHandle : TaskHandle
  errBuff : String
  trigName : String
  AOdata : List float64
  /-- `static int totalAI` of `EveryNCallback` -/
  totalAI : Int

/-- `DAQmxErrChk (GetTerminalNameWithDevPrefix(AItaskHandle,"ai/StartTrigger",trigName));` -/
def DAQmxErrChk_GetTerminalNameWithDevPrefix (d : Driver) (fuel : Nat) (terminalName : String) :
    Stmt Vars := fun s =>
  let r := GetTerminalNameWithDevPrefix d fuel s.vars.AItaskHandle terminalName s.vars.trigName s.trace
  match r.ret with
  | none => .hang { s with trace := r.trace }
  | some (error, triggerName) =>
    let s1 : St Vars := { trace := r.trace, error := error, vars := { s.vars with trigName := triggerName } }
    if DAQmxFailed s1.error then .Error s1 else .next s1

/-- Lines 97-112 of `main`: configuration of the two tasks. -/
def main.configure (d : Driver) (fuel : Nat) : List (Stmt Vars) :=
  [ DAQmxErrChk d (fun _ => .DAQmxCreateTask "") (fun r v => { v with AItaskHandle := r.taskHandle }),
    DAQmxErrChk d (fun v => .DAQmxCreateAIVoltageChan v.AItaskHandle "Dev1/ai0" "" DAQmx_Val_Cfg_Default
      f64_neg10 f64_10 DAQmx_Val_Volts) keep,
    DAQmxErrChk d (fun v => .DAQmxCfgSampClkTiming v.AItaskHandle "" f64_10000 DAQmx_Val_Rising
      DAQmx_Val_ContSamps 1000) keep,
    DAQmxErrChk_GetTerminalNameWithDevPrefix d fuel "ai/StartTrigger",
    DAQmxErrChk d (fun _ => .DAQmxCreateTask "") (fun r v => { v with AOtaskHandle := r.taskHandle }),
    DAQmxErrChk d (fun v => .DAQmxCreateAOVoltageChan v.AOtaskHandle "Dev1/ao0" "" f64_neg10 f64_10
      DAQmx_Val_Volts) keep,
    DAQmxErrChk d (fun v => .DAQmxCfgSampClkTiming v.AOtaskHandle "" f64_5000 DAQmx_Val_Rising
      DAQmx_Val_ContSamps 1000) keep,
    DAQmxErrChk d (fun v => .DAQmxCfgDigEdgeStartTrig v.AOtaskHandle v.trigName DAQmx_Val_Rising) keep,
    DAQmxErrChk d (fun v => .DAQmxRegisterEveryNSamplesEvent v.AItaskHandle
      DAQmx_Val_Acquired_Into_Buffer 1000 0) keep,
    DAQmxErrChk d (fun v => .DAQmxRegisterDoneEvent v.AItaskHandle 0) keep,
    -- GenSineWave(1000,1.0,1.0/1000,&phase,AOdata); fills AOdata, no driver call
    DAQmxErrChk d (fun v => .DAQmxWriteAnalogF64 v.AOtaskHandle 1000 0 f64_10 DAQmx_Val_GroupByChannel
      v.AOdata) keep ]

/-- Lines 121-126 of `main`: the two start calls and the wait for Enter. -/
def main.start (d : Driver) : List (Stmt Vars) :=
  [ DAQmxErrChk d (fun v => .DAQmxStartTask v.AOtaskHandle) keep,
    DAQmxErrChk d (fun v => .DAQmxStartTask v.AItaskHandle) keep,
    printf (fun _ => "Acquiring samples continuously. Press Enter to interrupt\n"),
    printf (fun _ => "\nRead:\tAI\tTotal:\tAI\n"),
    getchar ]

/-- The body of `main` up to the label `Error` (lines 97-126). -/
def main.body (d : Driver) (fuel : Nat) : List (Stmt Vars) :=
  main.configure d fuel ++ main.start d

/-- The code of `main` from the label `Error` on (lines 128-151). -/
def main.cleanup (d : Driver) (s : St Vars) : St Vars :=
  let s := if DAQmxFailed s.error then
      call d (.DAQmxGetExtendedErrorInfo 2048) (fun r v => { v with errBuff := r.str }) s
    else s
  let s := if s.vars.AItaskHandle != 0 then
      let s := call d (.DAQmxStopTask s.vars.AItaskHandle) keep s
      let s := call d (.DAQmxClearTask s.vars.AItaskHandle) keep s
      { s with vars := { s.vars with AItaskHandle := 0 } }
    else s
  let s := if s.vars.AOtaskHandle != 0 then
      let s := call d (.DAQmxStopTask s.vars.AOtaskHandle) keep s
      let s := call d (.DAQmxClearTask s.vars.AOtaskHandle) keep s
      { s with vars := { s.vars with AOtaskHandle := 0 } }
    else s
  let s := if DAQmxFailed s.error then emit (.printf ("DAQmx Error: " ++ s.vars.errBuff ++ "\n")) s else s
  let s := emit (.printf "End of program, press Enter key to quit\n") s
  emit .getchar s

/-- State on entry of `main`; `stack` gives the indeterminate content of `trigName`
and the waveform table. -/
def main.entry (stack : Vars) : St Vars :=
  { trace := [], error := 0,
    vars := { stack with AItaskHandle := 0, AOtaskHandle := 0, errBuff := "", totalAI := 0 } }

/-- State of `main` on arrival at the label `Error`. -/
def main.config (d : Driver) (fuel : Nat) (stack : Vars) : Flow Vars :=
  run (main.body d fuel) (main.entry stack)

/-- `int main(void)`, run without any callback being delivered. -/
def main (d : Driver) (fuel : Nat) (stack : Vars) : Exit Vars :=
  atError (main.cleanup d) (main.config d fuel stack)

/-- The code of `EveryNCallback` from its label `Error` on (lines 170-188). -/
def EveryNCallback.Error (d : Driver) (error : Int) (s : St Vars) : St Vars :=
  if DAQmxFailed error then
    let r := d s.trace (.DAQmxGetExtendedErrorInfo 2048)
    let s := emit (Event.call (.DAQmxGetExtendedErrorInfo 2048) r) s
    let errBuff := r.str
    let s := if s.vars.AItaskHandle != 0 then
        let s := call d (.DAQmxStopTask s.vars.AItaskHandle) keep s
        let s := call d (.DAQmxClearTask s.vars.AItaskHandle) keep s
        { s with vars := { s.vars with AItaskHandle := 0 } }
      else s
    let s := if s.vars.AOtaskHandle != 0 then
        let s := call d (.DAQmxStopTask s.vars.AOtaskHandle) keep s
        let s := call d (.DAQmxClearTask s.vars.AOtaskHandle) keep s
        { s with vars := { s.vars with AOtaskHandle := 0 } }
      else s
    emit (.printf ("DAQmx Error: " ++ errBuff ++ "\n")) s
  else s

/-- `EveryNCallback` (lines 154-189); returns the callback's return value and the state. -/
def EveryNCallback (d : Driver) (_taskHandle : TaskHandle) (_everyNsamplesEventType : Int)
    (_nSamples : Nat) (s : St Vars) : Int × St Vars :=
  -- DAQmxErrChk (DAQmxReadAnalogF64(AItaskHandle,1000,10.0,DAQmx_Val_GroupByChannel,AIdata,1000,&readAI,NULL));
  let c1 := Call.DAQmxReadAnalogF64 s.vars.AItaskHandle 1000 f64_10 DAQmx_Val_GroupByChannel 1000
  let r1 := d s.trace c1
  let s := emit (Event.call c1 r1) s
  if DAQmxFailed r1.status then (0, EveryNCallback.Error d r1.status s) else
  let readAI := r1.i32
  -- printf("\t%d\t\t%d\r",(int)readAI,(int)(totalAI+=readAI));
  let s := { s with vars := { s.vars with totalAI := wrapInt32 (s.vars.totalAI + readAI) } }
  let s := emit (.printf ("\t" ++ toString readAI ++ "\t\t" ++ toString s.vars.totalAI ++ "\r")) s
  (0, EveryNCallback.Error d r1.status s)

/-- `DoneCallback` (lines 191-216); returns the callback's return value and the state. -/
def DoneCallback (d : Driver) (taskHandle : TaskHandle) (status : Int) (s : St Vars) : Int × St Vars :=
  -- DAQmxErrChk (status);
  let error := status
  if DAQmxFailed error then
    let r := d s.trace (.DAQmxGetExtendedErrorInfo 2048)
    let s := emit (Event.call (.DAQmxGetExtendedErrorInfo 2048) r) s
    let errBuff := r.str
    -- DAQmxClearTask(taskHandle);
    let s := call d (.DAQmxClearTask taskHandle) keep s
    let s := if s.vars.AItaskHandle != 0 then
        let s := call d (.DAQmxStopTask s.vars.AItaskHandle) keep s
        let s := call d (.DAQmxClearTask s.vars.AItaskHandle) keep s
        { s with vars := { s.vars with AItaskHandle := 0 } }
      else s
    let s := if s.vars.AOtaskHandle != 0 then
        let s := call d (.DAQmxStopTask s.vars.AOtaskHandle) keep s
        let s := call d (.DAQmxClearTask s.vars.AOtaskHandle) keep s
        { s with vars := { s.vars with AOtaskHandle := 0 } }
      else s
    (0, emit (.printf ("DAQmx Error: " ++ errBuff ++ "\n")) s)
  else (0, s)

/-- A callback delivery: the arguments the driver passes. -/
inductive Callback
  | everyN (taskHandle : TaskHandle) (everyNsamplesEventType : Int) (nSamples : Nat)
  | done (status : Int)

/-- Runs one delivered callback; `DoneCallback` gets the handle it was registered on. -/
def deliver (d : Driver) (registered : TaskHandle) (s : St Vars) : Callback → St Vars
  | .everyN taskHandle everyNsamplesEventType nSamples =>
    (EveryNCallback d taskHandle everyNsamplesEventType nSamples s).2
  | .done status => (DoneCallback d registered status s).2

/-- A whole run without interleaving: `main` up to its wait for Enter, the callbacks
delivered meanwhile one after the other, then the code from the label `Error` on.
When `main` jumped to `Error` earlier, no callback is delivered. -/
def mainWithCallbacks (d : Driver) (fuel : Nat) (stack : Vars) (cbs : List Callback) : Exit Vars :=
  match main.config d fuel stack with
  | .next s => ⟨some 0, main.cleanup d (cbs.foldl (deliver d s.vars.AItaskHandle) s)⟩
  | .Error s => ⟨some 0, main.cleanup d s⟩
  | .hang s => ⟨none, s⟩

end SynchAI_AO

/-- Variables of the single-task examples: the handle, the error text buffer and,
in `Acq-IntClk.c`, the sample count `read` stored by the read call. -/
structure TaskVars where
  taskHandle : TaskHandle
  errBuff : String
  read : Int

/-- The code from the label `Error` on that the six single-task examples share word
for word (up to the text of the last `printf`, which is the same in all six). -/
def singleTaskCleanup (d : Driver) (s : St TaskVars) : St TaskVars :=
  -- if( DAQmxFailed(error) ) DAQmxGetExtendedErrorInfo(errBuff,2048);
  let s := if DAQmxFailed s.error then
      call d (.DAQmxGetExtendedErrorInfo 2048) (fun r v => { v with errBuff := r.str }) s
    else s
  -- if( taskHandle!=0 ) { DAQmxStopTask(taskHandle); DAQmxClearTask(taskHandle); }
  let s := if s.vars.taskHandle != 0 then
      let s := call d (.DAQmxStopTask s.vars.taskHandle) keep s
      call d (.DAQmxClearTask s.vars.taskHandle) keep s
    else s
  -- if( DAQmxFailed(error) ) printf("DAQmx Error: %s\n",errBuff);
  let s := if DAQmxFailed s.error then emit (.printf ("DAQmx Error: " ++ s.vars.errBuff ++ "\n")) s else s
  let s := emit (.printf "End of program, press Enter key to quit\n") s
  emit .getchar s

/-- State on entry of a single-task `main`: `error=0`, `taskHandle=0`, `errBuff` empty
(`read` is uninitialised and written before it is printed). -/
def singleTaskEntry : St TaskVars :=
  { trace := [], error := 0, vars := { taskHandle := 0, errBuff := "", read := 0 } }

/-! ### AI/Acq-IntClk.c -/

namespace Acq_IntClk

/-- The body of `main` up to the label `Error` (lines 58-72). -/
def main.body (d : Driver) : List (Stmt TaskVars) :=
  [ DAQmxErrChk d (fun _ => .DAQmxCreateTask "") (fun r v => { v with taskHandle := r.taskHandle }),
    DAQmxErrChk d (fun v => .DAQmxCreateAIVoltageChan v.taskHandle "Dev1/ai0" "" DAQmx_Val_Cfg_Default
      f64_neg10 f64_10 DAQmx_Val_Volts) keep,
    DAQmxErrChk d (fun v => .DAQmxCfgSampClkTiming v.taskHandle "" f64_10000 DAQmx_Val_Rising
      DAQmx_Val_FiniteSamps 1000) keep,
    DAQmxErrChk d (fun v => .DAQmxStartTask v.taskHandle) keep,
    DAQmxErrChk d (fun v => .DAQmxReadAnalogF64 v.taskHandle 1000 f64_10 DAQmx_Val_GroupByChannel 1000)
      (fun r v => { v with read := r.i32 }),
    printf (fun v => "Acquired " ++ toString v.read ++ " points\n") ]

/-- State of `main` on arrival at the label `Error`. -/
def main.config (d : Driver) : Flow TaskVars := run (main.body d) singleTaskEntry

/-- `int main(void)`. -/
def main (d : Driver) : Exit TaskVars := atError (singleTaskCleanup d) (main.config d)

end Acq_IntClk

/-! ### DO/WriteDigChan.c -/

namespace WriteDigChan

/-- The body of `main` up to the label `Error` (lines 53-64). -/
def main.body (d : Driver) : List (Stmt TaskVars) :=
  [ DAQmxErrChk d (fun _ => .DAQmxCreateTask "") (fun r v => { v with taskHandle := r.taskHandle }),
    DAQmxErrChk d (fun v => .DAQmxCreateDOChan v.taskHandle "Dev1/port0/line0:7" "" DAQmx_Val_ChanForAllLines) keep,
    DAQmxErrChk d (fun v => .DAQmxStartTask v.taskHandle) keep,
    DAQmxErrChk d (fun v => .DAQmxWriteDigitalLines v.taskHandle 1 1 f64_10 DAQmx_Val_GroupByChannel
      [0, 1, 0, 1, 1, 1, 1, 1]) keep ]

/-- State of `main` on arrival at the label `Error`. -/
def main.config (d : Driver) : Flow TaskVars := run (main.body d) singleTaskEntry

/-- `int main(void)`. -/
def main (d : Driver) : Exit TaskVars := atError (singleTaskCleanup d) (main.config d)

end WriteDigChan

/-! ### CO/DigPulse.c -/

namespace DigPulse

/-- The body of `main` up to the label `Error` (lines 68-79). -/
def main.body (d : Driver) : List (Stmt TaskVars) :=
  [ DAQmxErrChk d (fun _ => .DAQmxCreateTask "") (fun r v => { v with taskHandle := r.taskHandle }),
    DAQmxErrChk d (fun v => .DAQmxCreateCOPulseChanTime v.taskHandle "Dev1/ctr0" "" DAQmx_Val_Seconds
      DAQmx_Val_Low f64_1 f64_0_5 f64_1) keep,
    DAQmxErrChk d (fun v => .DAQmxStartTask v.taskHandle) keep,
    DAQmxErrChk d (fun v => .DAQmxWaitUntilTaskDone v.taskHandle f64_10) keep ]

/-- State of `main` on arrival at the label `Error`. -/
def main.config (d : Driver) : Flow TaskVars := run (main.body d) singleTaskEntry

/-- `int main(void)`. -/
def main (d : Driver) : Exit TaskVars := atError (singleTaskCleanup d) (main.config d)

end DigPulse

/-! ### AO/ContGen-ExtClk-DigStart.c -/

namespace ContGen_ExtClk_DigStart

/-- The body of `main` up to the label `Error` (lines 71-89).  `data` is the
1000-sample sine table the `for` loop fills with `sin`; its values are not modelled. -/
def main.body (d : Driver) (data : List float64) : List (Stmt TaskVars) :=
  [ DAQmxErrChk d (fun _ => .DAQmxCreateTask "") (fun r v => { v with taskHandle := r.taskHandle }),
    DAQmxErrChk d (fun v => .DAQmxCreateAOVoltageChan v.taskHandle "Dev1/ao0" "" f64_neg10 f64_10
      DAQmx_Val_Volts) keep,
    DAQmxErrChk d (fun v => .DAQmxCfgSampClkTiming v.taskHandle "/Dev1/PFI0" f64_1000 DAQmx_Val_Rising
      DAQmx_Val_ContSamps 1000) keep,
    DAQmxErrChk d (fun v => .DAQmxCfgDigEdgeStartTrig v.taskHandle "/Dev1/PFI0" DAQmx_Val_Rising) keep,
    DAQmxErrChk d (fun v => .DAQmxRegisterDoneEvent v.taskHandle 0) keep,
    DAQmxErrChk d (fun v => .DAQmxWriteAnalogF64 v.taskHandle 1000 0 f64_10 DAQmx_Val_GroupByChannel data) keep,
    DAQmxErrChk d (fun v => .DAQmxStartTask v.taskHandle) keep,
    printf (fun _ => "Generating voltage continuously. Press Enter to interrupt\n"),
    getchar ]

/-- State of `main` on arrival at the label `Error`. -/
def main.config (d : Driver) (data : List float64) : Flow TaskVars := run (main.body d data) singleTaskEntry

/-- `int main(void)`, run without the done callback being delivered. -/
def main (d : Driver) (data : List float64) : Exit TaskVars :=
  atError (singleTaskCleanup d) (main.config d data)

/-- `DoneCallback` (lines 108-123); returns the callback's return value and the state.
The callback touches no variable of `main`. -/
def DoneCallback (d : Driver) (taskHandle : TaskHandle) (status : Int) (s : St TaskVars) :
    Int × St TaskVars :=
  -- DAQmxErrChk (status);
  let error := status
  if DAQmxFailed error then
    -- DAQmxGetExtendedErrorInfo(errBuff,2048);
    let r := d s.trace (.DAQmxGetExtendedErrorInfo 2048)
    let s := emit (Event.call (.DAQmxGetExtendedErrorInfo 2048) r) s
    let errBuff := r.str
    -- DAQmxClearTask(taskHandle);
    let s := call d (.DAQmxClearTask taskHandle) keep s
    (0, emit (.printf ("DAQmx Error: " ++ errBuff ++ "\n")) s)
  else (0, s)

end ContGen_ExtClk_DigStart

/-! ### AO/MultVoltUpdates-IntClk-Retrig.c -/

namespace MultVoltUpdates_IntClk_Retrig

/-- The body of `main` up to the label `Error` (lines 83-105).  `data` is the
4000-sample ramp the `for` loop fills in floating point; its values are not modelled. -/
def main.body (d : Driver) (data : List float64) : List (Stmt TaskVars) :=
  [ DAQmxErrChk d (fun _ => .DAQmxCreateTask "") (fun r v => { v with taskHandle := r.taskHandle }),
    DAQmxErrChk d (fun v => .DAQmxCreateAOVoltageChan v.taskHandle "Dev1/ao0" "" f64_neg10 f64_10
      DAQmx_Val_Volts) keep,
    DAQmxErrChk d (fun v => .DAQmxCfgSampClkTiming v.taskHandle "" f64_1000 DAQmx_Val_Rising
      DAQmx_Val_FiniteSamps 4000) keep,
    DAQmxErrChk d (fun v => .DAQmxCfgDigEdgeStartTrig v.taskHandle "/Dev1/PFI0" DAQmx_Val_Rising) keep,
    DAQmxErrChk d (fun v => .DAQmxSetStartTrigRetriggerable v.taskHandle 1) keep,
    DAQmxErrChk d (fun v => .DAQmxRegisterDoneEvent v.taskHandle 0) keep,
    DAQmxErrChk d (fun v => .DAQmxWriteAnalogF64 v.taskHandle 4000 0 f64_10 DAQmx_Val_GroupByChannel data) keep,
    DAQmxErrChk d (fun v => .DAQmxStartTask v.taskHandle) keep,
    printf (fun _ => "Generating voltage on trigger. Press Enter to interrupt\n"),
    getchar ]

/-- State of `main` on arrival at the label `Error`. -/
def main.config (d : Driver) (data : List float64) : Flow TaskVars := run (main.body d data) singleTaskEntry

/-- `int main(void)`, run without the done callback being delivered. -/
def main (d : Driver) (data : List float64) : Exit TaskVars :=
  atError (singleTaskCleanup d) (main.config d data)

/-- `DoneCallback` (lines 124-140); returns the callback's return value and the state.
The callback touches no variable of `main`. -/
def DoneCallback (d : Driver) (taskHandle : TaskHandle) (status : Int) (s : St TaskVars) :
    Int × St TaskVars :=
  -- DAQmxErrChk (status);
  let error := status
  if DAQmxFailed error then
    -- DAQmxGetExtendedErrorInfo(errBuff,2048);
    let r := d s.trace (.DAQmxGetExtendedErrorInfo 2048)
    let s := emit (Event.call (.DAQmxGetExtendedErrorInfo 2048) r) s
    let errBuff := r.str
    -- DAQmxClearTask(taskHandle);
    let s := call d (.DAQmxClearTask taskHandle) keep s
    let s := emit (.printf ("DAQmx Error: " ++ errBuff ++ "\n")) s
    (0, emit (.printf "Press Enter\n") s)
  else (0, s)

end MultVoltUpdates_IntClk_Retrig

/-! ### AO/MultVoltUpdates-SWTimed.c -/

namespace MultVoltUpdates_SWTimed

/-- The `while( 1 )` loop of `main` (lines 94-110); `i` is the `uInt32` index into
`data`, the sine table the `for` loop fills with `sin` (values not modelled, an
index outside the given list reads `⟨0⟩`).  The sleep has no observable effect. -/
def main.loop (d : Driver) (data : List float64) : Nat → Nat → Stmt TaskVars
  | 0, _, s => .hang s
  | fuel + 1, i, s =>
    -- DAQmxErrChk (DAQmxWriteAnalogScalarF64(taskHandle,1,10.0,data[i],NULL));
    match DAQmxErrChk d (fun v => .DAQmxWriteAnalogScalarF64 v.taskHandle 1 f64_10 (data.getD i ⟨0⟩)) keep s with
    | .next s1 =>
      -- if( ++i>=1000 ) i = 0;
      let i := (i + 1) % (UINT32_MAX + 1)
      let i := if i ≥ 1000 then 0 else i
      main.loop d data fuel i s1
    | .Error s1 => .Error s1
    | .hang s1 => .hang s1

/-- The body of `main` up to the label `Error` (lines 85-110). -/
def main.body (d : Driver) (fuel : Nat) (data : List float64) : List (Stmt TaskVars) :=
  [ DAQmxErrChk d (fun _ => .DAQmxCreateTask "") (fun r v => { v with taskHandle := r.taskHandle }),
    DAQmxErrChk d (fun v => .DAQmxCreateAOVoltageChan v.taskHandle "Dev1/ao0" "" f64_neg10 f64_10
      DAQmx_Val_Volts) keep,
    DAQmxErrChk d (fun v => .DAQmxStartTask v.taskHandle) keep,
    printf (fun _ => "Generating samples continuously. Press Ctrl+C to interrupt\n"),
    main.loop d data fuel 0 ]

/-- State of `main` on arrival at the label `Error`. -/
def main.config (d : Driver) (fuel : Nat) (data : List float64) : Flow TaskVars :=
  run (main.body d fuel data) singleTaskEntry

/-- `int main(void)`. -/
def main (d : Driver) (fuel : Nat) (data : List float64) : Exit TaskVars :=
  atError (singleTaskCleanup d) (main.config d fuel data)

end MultVoltUpdates_SWTimed

/-! ### Vocabulary of the statements about `GetTerminalNameWithDevPrefix` -/

/-- The log after the driver has been asked, from log `trace` on, for the number of
devices of the task and then for the name and the product category of its devices
`1..j`, in this order. -/
def enumTrace (d : Driver) (taskHandle : TaskHandle) (trace : List Event) : Nat → List Event
  | 0 =>
    trace ++ [Event.call (.DAQmxGetTaskNumDevices taskHandle) (d trace (.DAQmxGetTaskNumDevices taskHandle))]
  | j + 1 =>
    let t := enumTrace d taskHandle trace j
    let c1 := Call.DAQmxGetNthTaskDevice taskHandle (j + 1) 256
    let r1 := d t c1
    let t1 := t ++ [Event.call c1 r1]
    let c2 := Call.DAQmxGetDevProductCategory r1.str
    t1 ++ [Event.call c2 (d t1 c2)]

/-- The driver's answer to `DAQmxGetTaskNumDevices` asked at log `trace`. -/
def numDevicesReply (d : Driver) (taskHandle : TaskHandle) (trace : List Event) : Reply :=
  d trace (.DAQmxGetTaskNumDevices taskHandle)

/-- The driver's answer to `DAQmxGetNthTaskDevice(taskHandle, j, ..)` in that enumeration (`j ≥ 1`). -/
def nthDeviceReply (d : Driver) (taskHandle : TaskHandle) (trace : List Event) (j : Nat) : Reply :=
  d (enumTrace d taskHandle trace (j - 1)) (.DAQmxGetNthTaskDevice taskHandle j 256)

/-- The driver's answer to `DAQmxGetDevProductCategory` for the `j`-th device in that enumeration. -/
def categoryReply (d : Driver) (taskHandle : TaskHandle) (trace : List Event) (j : Nat) : Reply :=
  let t := enumTrace d taskHandle trace (j - 1)
  let c1 := Call.DAQmxGetNthTaskDevice taskHandle j 256
  let r1 := d t c1
  d (t ++ [Event.call c1 r1]) (.DAQmxGetDevProductCategory r1.str)

/-- From log `trace` on the driver enumerates the devices of `taskHandle` without a
failing status up to device `k`, devices `1..k-1` are of a module category and device
`k` (at most the reported device count, a `uInt32`) is not. -/
def FirstSource (d : Driver) (taskHandle : TaskHandle) (trace : List Event) (k : Nat) : Prop :=
  DAQmxFailed (numDevicesReply d taskHandle trace).status = false ∧
  1 ≤ k ∧ k ≤ (numDevicesReply d taskHandle trace).u32 ∧
  (numDevicesReply d taskHandle trace).u32 ≤ UINT32_MAX ∧
  (∀ j, 1 ≤ j → j ≤ k → DAQmxFailed (nthDeviceReply d taskHandle trace j).status = false ∧
      DAQmxFailed (categoryReply d taskHandle trace j).status = false) ∧
  (∀ j, 1 ≤ j → j < k → isModuleCategory (categoryReply d taskHandle trace j).i32 = true) ∧
  isModuleCategory (categoryReply d taskHandle trace k).i32 = false

/-- The device table of the spec's example: a C Series module followed by two
ordinary devices (category `14644` is not a module category). -/
def exampleDevices : List (String × Int) :=
  [("mod1", DAQmx_Val_CSeriesModule), ("dev2", 14644), ("dev3", 14644)]

/-- The test driver over `exampleDevices`, no call failing. -/
def exampleDriver : Driver := simDriver exampleDevices none

/-- An event that is one of the three enumeration queries the helper issues. -/
def Event.isQuery : Event → Bool
  | .call (.DAQmxGetTaskNumDevices _) _ => true
  | .call (.DAQmxGetNthTaskDevice _ _ _) _ => true
  | .call (.DAQmxGetDevProductCategory _) _ => true
  | _ => false

/-- Every event but the last one is not a failing driver call. -/
def okButLast : List Event → Bool
  | [] => true
  | [_] => true
  | e :: e1 :: rest => e.ok && okButLast (e1 :: rest)

/-- The status returned by the last driver call of a list of events, `error` if there is none. -/
def lastStatus (error : Int) : List Event → Int
  | [] => error
  | Event.call _ r :: rest => lastStatus r.status rest
  | _ :: rest => lastStatus error rest

/-- The events are `DAQmxGetNthTaskDevice(taskHandle,i)`, `DAQmxGetDevProductCategory` of
the device just named, then the same for `i+1`, `i+2`, ...; the last pair may lack
its second half. -/
def enumShape (taskHandle : TaskHandle) : Nat → List Event → Prop
  | _, [] => True
  | i, [e] => ∃ r, e = Event.call (.DAQmxGetNthTaskDevice taskHandle i 256) r
  | i, e1 :: e2 :: rest =>
    ∃ r1 r2, e1 = Event.call (.DAQmxGetNthTaskDevice taskHandle i 256) r1 ∧
      e2 = Event.call (.DAQmxGetDevProductCategory r1.str) r2 ∧ enumShape taskHandle (i + 1) rest

/-- From log `trace` on the driver enumerates all devices of `taskHandle` without a
failing status, reports fewer than `UINT32_MAX` of them, and every one of them (there
may be none) is of a module category. -/
def NoSource (d : Driver) (taskHandle : TaskHandle) (trace : List Event) : Prop :=
  DAQmxFailed (numDevicesReply d taskHandle trace).status = false ∧
  (numDevicesReply d taskHandle trace).u32 < UINT32_MAX ∧
  (∀ j, 1 ≤ j → j ≤ (numDevicesReply d taskHandle trace).u32 →
    DAQmxFailed (nthDeviceReply d taskHandle trace j).status = false ∧
    DAQmxFailed (categoryReply d taskHandle trace j).status = false ∧
    isModuleCategory (categoryReply d taskHandle trace j).i32 = true)

/-- The shape of the log a run of the helper leaves, started at log `trace` with
`fuel`: one `DAQmxGetTaskNumDevices`, then name/category query pairs for the indices
`1, 2, ...`, nothing but queries; and exactly `k` pairs when device `k` is the first
non-module device. -/
def QueryOnlyTrace (d : Driver) (taskHandle : TaskHandle) (trace : List Event) (fuel : Nat)
    (r : HelperRun) : Prop :=
  ∃ r0 new, r.trace = trace ++ Event.call (.DAQmxGetTaskNumDevices taskHandle) r0 :: new ∧
    enumShape taskHandle 1 new ∧ (∀ e ∈ new, e.isQuery = true) ∧
    (∀ k, FirstSource d taskHandle trace k → k ≤ fuel → new.length = 2 * k)

/-- The test driver over `exampleDevices` whose third call (the category query for
`mod1`) fails with status `-1`. -/
def failingDriver : Driver := simDriver exampleDevices (some 2)

/-- A device table with module devices only. -/
def moduleDevices : List (String × Int) :=
  [("mod1", DAQmx_Val_CSeriesModule), ("mod2", DAQmx_Val_SCXIModule)]

/-! ### Vocabulary of the statements about the `main` functions -/

/-- A statement that never logs an event of kind `K` when none was logged before. -/
def Avoids {V : Type} (K : Event → Bool) (stmt : Stmt V) : Prop :=
  ∀ s, (∀ e ∈ s.trace, K e = false) → ∀ e ∈ (stmt s).state.trace, K e = false

/-- Fail-fast shape of a flow: control falls through only if no driver call so far
failed; at the label `Error` reached by a jump, `error` is failing and only the last
event can be a failing call. -/
def Flow.failFast {V : Type} : Flow V → Prop
  | .next s => (∀ e ∈ s.trace, e.ok = true) ∧ DAQmxFailed s.error = false
  | .hang s => ∀ e ∈ s.trace, e.ok = true
  | .Error s => okButLast s.trace = true ∧ DAQmxFailed s.error = true

/-- A statement that keeps the fail-fast shape. -/
def KeepsFailFast {V : Type} (stmt : Stmt V) : Prop :=
  ∀ s, (Flow.next s).failFast → (stmt s).failFast

/-- A call of the teardown path: error-text retrieval, stop or clear. -/
def Event.isTeardown : Event → Bool
  | .call (.DAQmxGetExtendedErrorInfo _) _ => true
  | .call (.DAQmxStopTask _) _ => true
  | .call (.DAQmxClearTask _) _ => true
  | _ => false

/-- A driver call (as opposed to console input or output). -/
def Event.isCall : Event → Bool
  | .call _ _ => true
  | _ => false

/-- A get or set of a clock-sharing property: master timebase, reference clock,
sample clock timebase or sync pulse. -/
def Event.isClock : Event → Bool
  | .call (.DAQmxGetMasterTimebaseSrc _ _) _ => true
  | .call (.DAQmxGetMasterTimebaseRate _) _ => true
  | .call (.DAQmxSetMasterTimebaseSrc _ _) _ => true
  | .call (.DAQmxSetMasterTimebaseRate _ _) _ => true
  | .call (.DAQmxGetRefClkSrc _ _) _ => true
  | .call (.DAQmxGetRefClkRate _) _ => true
  | .call (.DAQmxSetRefClkSrc _ _) _ => true
  | .call (.DAQmxSetRefClkRate _ _) _ => true
  | .call (.DAQmxSetSampClkTimebaseSrc _ _) _ => true
  | .call (.DAQmxSetSyncPulseSrc _ _) _ => true
  | _ => false

/-- Fail-fast run of a `main`: up to the label `Error` only the last event can be a
failing call and no teardown call is made; from the label on, the only driver calls
are `DAQmxGetExtendedErrorInfo`, `DAQmxStopTask` and `DAQmxClearTask`. -/
def FailFastRun {V : Type} (cfg : Flow V) (ex : Exit V) : Prop :=
  okButLast cfg.state.trace = true ∧ (∀ e ∈ cfg.state.trace, e.isTeardown = false) ∧
  ∃ cl, ex.final.trace = cfg.state.trace ++ cl ∧ ∀ e ∈ cl, e.isTeardown = true ∨ e.isCall = false

/-- A `DAQmxStartTask` call: its handle and whether it succeeded. -/
def startOf : Event → Option (TaskHandle × Bool)
  | .call (.DAQmxStartTask h) r => some (h, !DAQmxFailed r.status)
  | _ => none

/-- The `DAQmxStartTask` calls of a log, in order. -/
def starts (l : List Event) : List (TaskHandle × Bool) := l.filterMap startOf

/-- An event that is a `DAQmxStartTask` call. -/
def Event.isStart (e : Event) : Bool := (startOf e).isSome

/-- Start order of a coupled pair: no start call at all, or a single, failed start of
the consumer, or a successful start of the consumer followed by the start of the
source. -/
def StartOrder (consumer source : TaskHandle) (l : List Event) : Prop :=
  starts l = [] ∨ starts l = [(consumer, false)] ∨ ∃ ok, starts l = [(consumer, true), (source, ok)]

/-- Handle of a task creation that succeeded. -/
def createdOf : Event → Option TaskHandle
  | .call (.DAQmxCreateTask _) r => if DAQmxFailed r.status then none else some r.taskHandle
  | _ => none

/-- The handles of the successfully created tasks of a log, in order of creation. -/
def created (l : List Event) : List TaskHandle := l.filterMap createdOf

/-- A `DAQmxStopTask` or `DAQmxClearTask` call. -/
def teardownOf : Event → Option Call
  | .call (.DAQmxStopTask h) _ => some (.DAQmxStopTask h)
  | .call (.DAQmxClearTask h) _ => some (.DAQmxClearTask h)
  | _ => none

/-- The `DAQmxStopTask` and `DAQmxClearTask` calls of a log, in order. -/
def teardowns (l : List Event) : List Call := l.filterMap teardownOf

/-- One `DAQmxStopTask` followed by one `DAQmxClearTask` for each handle of the list. -/
def stopThenClear : List TaskHandle → List Call
  | [] => []
  | h :: rest => .DAQmxStopTask h :: .DAQmxClearTask h :: stopThenClear rest

/-- Each successfully created task is stopped and then cleared exactly once, in order
of creation, and nothing else is stopped or cleared. -/
def CleanRun (l : List Event) : Prop := teardowns l = stopThenClear (created l)

/-- The assumption of the cleanup claim on `DAQmxCreateTask`: a non-zero handle on
success, the handle left `0` on failure. -/
def HandleDiscipline (d : Driver) : Prop :=
  ∀ tr name, (DAQmxFailed (d tr (.DAQmxCreateTask name)).status = true →
      (d tr (.DAQmxCreateTask name)).taskHandle = 0) ∧
    (DAQmxFailed (d tr (.DAQmxCreateTask name)).status = false →
      (d tr (.DAQmxCreateTask name)).taskHandle ≠ 0)

/-- The driver never reports `UINT32_MAX` devices or more devices than there is fuel:
the enumeration loop of the helper then runs to its end. -/
def BoundedDevices (d : Driver) (fuel : Nat) : Prop :=
  ∀ tr t, (d tr (.DAQmxGetTaskNumDevices t)).u32 < UINT32_MAX ∧
    (d tr (.DAQmxGetTaskNumDevices t)).u32 ≤ fuel

/-- A statement that leaves `g` of the variables alone and appends only events that
are not of kind `K`. -/
def Frame {V α : Type} (g : V → α) (K : Event → Bool) (stmt : Stmt V) : Prop :=
  ∀ s, g (stmt s).state.vars = g s.vars ∧
    ∃ new, (stmt s).state.trace = s.trace ++ new ∧ ∀ e ∈ new, K e = false

/-- A statement that cannot run out of fuel. -/
def NoHang {V : Type} (stmt : Stmt V) : Prop := ∀ s s1, stmt s ≠ .hang s1

/-- A task creation, a stop or a clear. -/
def Event.isLifecycle : Event → Bool
  | .call (.DAQmxCreateTask _) _ => true
  | .call (.DAQmxStopTask _) _ => true
  | .call (.DAQmxClearTask _) _ => true
  | _ => false

/-- Some content for the uninitialised variables of `main` in `ContinuousAI.c`. -/
def ContinuousAI.exampleStack : ContinuousAI.Vars :=
  { masterTaskHandle := 0, slaveTaskHandle := 0, errBuff := "", str1 := "junk1", str2 := "junk2",
    trigName := "junk3", clkRate := ⟨7⟩, masterTotal := 0, slaveTotal := 0 }

/-- Some content for the uninitialised variables of `main` in `SynchAI-AO.c`. -/
def SynchAI_AO.exampleStack : SynchAI_AO.Vars :=
  { AItaskHandle := 0, AOtaskHandle := 0, errBuff := "", trigName := "junk", AOdata := [], totalAI := 0 }

/-- The clock-sharing property calls of a log, in order. -/
def clockEvents (l : List Event) : List Event := l.filter Event.isClock

/-- A driver none of whose calls ever fails. -/
def AllSucceed (d : Driver) : Prop := ∀ tr c, DAQmxFailed (d tr c).status = false

/-- A statement after which control always falls through. -/
def Succeeds {V : Type} (stmt : Stmt V) : Prop := ∀ s, ∃ s1, stmt s = .next s1

/-! ### Vocabulary of the statements about the report of an error -/

/-- A `DAQmxStopTask` or `DAQmxClearTask` call. -/
def Event.isStopClear : Event → Bool
  | .call (.DAQmxStopTask _) _ => true
  | .call (.DAQmxClearTask _) _ => true
  | _ => false

/-- The line `printf("DAQmx Error: %s\n",errBuff)` prints when `errBuff` holds the text
the driver hands out for `DAQmxGetExtendedErrorInfo` at log `trace`. -/
def errorLine (d : Driver) (trace : List Event) : Event :=
  .printf ("DAQmx Error: " ++ (d trace (.DAQmxGetExtendedErrorInfo 2048)).str ++ "\n")

/-- Shape of what the code from the label `Error` on appends to the log `trace` when
`error` holds the captured status: with a failing status, one
`DAQmxGetExtendedErrorInfo`, then the stop and clear calls `td`, then the error line;
otherwise the stop and clear calls only; in both cases then the closing prompt and
the wait for Enter. -/
def reportTail (d : Driver) (trace : List Event) (error : Int) (td : List Event)
    (endText : String) : List Event :=
  if DAQmxFailed error then
    Event.call (.DAQmxGetExtendedErrorInfo 2048) (d trace (.DAQmxGetExtendedErrorInfo 2048)) ::
      (td ++ [errorLine d trace, Event.printf endText, Event.getchar])
  else td ++ [Event.printf endText, Event.getchar]

/-- Report of a run of a `main`: control falls through to the label `Error` with a
non-failing `error` and jumps to it with a failing one; and unless the run is still
inside a loop, the code from the label on appends a `reportTail` for this `error`
whose `td` holds stop and clear calls only. -/
def ReportedRun {V : Type} (d : Driver) (endText : String) (cfg : Flow V) (ex : Exit V) : Prop :=
  (∀ s, cfg = .next s → DAQmxFailed s.error = false) ∧
  (∀ s, cfg = .Error s → DAQmxFailed s.error = true) ∧
  ((∀ s, cfg ≠ .hang s) →
    ∃ td, ex.final.trace =
        cfg.state.trace ++ reportTail d cfg.state.trace cfg.state.error td endText ∧
      ∀ e ∈ td, e.isStopClear = true)

/-- Every failing driver call made up to the label `Error` is reported: the error line
is part of the final log. -/
def FailuresReported {V : Type} (d : Driver) (cfg : Flow V) (ex : Exit V) : Prop :=
  ∀ e ∈ cfg.state.trace, e.ok = false → errorLine d cfg.state.trace ∈ ex.final.trace

/-- What a callback run from log `before` to log `after` appended. -/
def appended (before after : List Event) : List Event := after.drop before.length

/-- The callback retrieved the error text and printed it: what it appended to the log
`before` holds a `DAQmxGetExtendedErrorInfo` call and, after it, the line
`"DAQmx Error: "` with the text that very call returned. -/
def Reported (d : Driver) (before after : List Event) : Prop :=
  ∃ pre post, appended before after =
      pre ++ Event.call (.DAQmxGetExtendedErrorInfo 2048)
        (d (before ++ pre) (.DAQmxGetExtendedErrorInfo 2048)) :: post ∧
    errorLine d (before ++ pre) ∈ post

/-- A callback reports its failures: if one of the driver calls it made failed, it
retrieved the error text and printed the error line with it. -/
def CallbackReports (d : Driver) (before after : List Event) : Prop :=
  (∃ e ∈ appended before after, e.ok = false) → Reported d before after

/-- The test driver without devices whose call number `n` (counting the events of the
log from `0`) fails. -/
def failingAt (n : Nat) : Driver := simDriver [] (some n)

/-- Whether the run was still inside a loop when the fuel ran out. -/
def Flow.isHang {V : Type} : Flow V → Bool
  | .hang _ => true
  | _ => false

/-- A driver for a task with `UINT32_MAX` devices, every one of them a C Series
module; no call fails. -/
def wrapDriver : Driver := fun _ c =>
  match c with
  | .DAQmxGetTaskNumDevices _ => { status := 0, u32 := UINT32_MAX }
  | .DAQmxGetNthTaskDevice _ _ _ => { status := 0, str := "mod" }
  | .DAQmxGetDevProductCategory _ => { status := 0, i32 := DAQmx_Val_CSeriesModule }
  | _ => { status := 0 }

/-- The log a run of the helper leaves, started at log `trace`: one
`DAQmxGetTaskNumDevices`, then nothing but enumeration queries. -/
def QueriesOnly (taskHandle : TaskHandle) (trace : List Event) (r : HelperRun) : Prop :=
  ∃ r0 new, r.trace = trace ++ Event.call (.DAQmxGetTaskNumDevices taskHandle) r0 :: new ∧
    ∀ e ∈ new, e.isQuery = true

/-! ### Vocabulary of the statements about the callbacks and the software-timed loop -/

/-- The read `EveryNCallback` issues on a task: 1000 samples per channel, a timeout
of 10.0 seconds, grouped by channel, into a buffer of 1000 samples. -/
def everyNRead (taskHandle : TaskHandle) : Call :=
  .DAQmxReadAnalogF64 taskHandle 1000 f64_10 DAQmx_Val_GroupByChannel 1000

/-- A `DAQmxReadAnalogF64` call. -/
def Event.isRead : Event → Bool
  | .call (.DAQmxReadAnalogF64 _ _ _ _ _) _ => true
  | _ => false

/-- Handle of a `DAQmxClearTask` call. -/
def clearOf : Event → Option TaskHandle
  | .call (.DAQmxClearTask h) _ => some h
  | _ => none

/-- The handles passed to `DAQmxClearTask` in a log, in order. -/
def clears (l : List Event) : List TaskHandle := l.filterMap clearOf

/-- The `n`-th scalar write (counting from `0`) of the software-timed loop: sample
`n mod 1000` of the table. -/
def swWrite (data : List float64) (taskHandle : TaskHandle) (n : Nat) : Call :=
  .DAQmxWriteAnalogScalarF64 taskHandle 1 f64_10 (data.getD (n % 1000) ⟨0⟩)

/-- The log after the writes number `0 .. n-1` of the software-timed loop have been
issued from log `trace` on. -/
def swLog (d : Driver) (data : List float64) (taskHandle : TaskHandle) (trace : List Event) :
    Nat → List Event
  | 0 => trace
  | n + 1 =>
    swLog d data taskHandle trace n ++
      [Event.call (swWrite data taskHandle n) (d (swLog d data taskHandle trace n) (swWrite data taskHandle n))]

/-! ## Theorems -/

theorem loop_reaches_source (d : Driver) (taskHandle : TaskHandle) (terminalName : String)
    (n k : Nat) (tr0 : List Event) (buf : String) (hkn : k ≤ n) (hn : n ≤ UINT32_MAX)
    (hok : ∀ j, 1 ≤ j → j ≤ k → DAQmxFailed (nthDeviceReply d taskHandle tr0 j).status = false ∧
      DAQmxFailed (categoryReply d taskHandle tr0 j).status = false)
    (hmod : ∀ j, 1 ≤ j → j < k → isModuleCategory (categoryReply d taskHandle tr0 j).i32 = true)
    (hsrc : isModuleCategory (categoryReply d taskHandle tr0 k).i32 = false) :
    ∀ (m j fuel : Nat) (error : Int), j + m + 1 = k → m + 1 ≤ fuel →
      ContinuousAI.GetTerminalNameWithDevPrefix.loop d taskHandle terminalName n fuel (j + 1) error buf
          (enumTrace d taskHandle tr0 j)
        = ⟨some ((categoryReply d taskHandle tr0 k).status,
            "/" ++ (nthDeviceReply d taskHandle tr0 k).str ++ "/" ++ terminalName),
           enumTrace d taskHandle tr0 k⟩ := by
  intro m
  induction m with
  | zero =>
    intro j fuel error hj hf
    obtain ⟨f, rfl⟩ : ∃ f, fuel = f + 1 := ⟨fuel - 1, by omega⟩
    have hjk : j + 1 = k := by omega
    subst hjk
    have h1 := hok (j + 1) (by omega) (by omega)
    simp only [nthDeviceReply, categoryReply, Nat.add_sub_cancel] at h1 hsrc ⊢
    rw [ContinuousAI.GetTerminalNameWithDevPrefix.loop]
    simp only [isModuleCategory, Bool.not_eq_false'] at hsrc
    simp only [hkn, h1.1, h1.2, hsrc, if_true, enumTrace, strcat, strcpy, String.append_assoc,
      Bool.false_eq_true, if_false]
  | succ m ih =>
    intro j fuel error hj hf
    obtain ⟨f, rfl⟩ : ∃ f, fuel = f + 1 := ⟨fuel - 1, by omega⟩
    have h1 := hok (j + 1) (by omega) (by omega)
    have h2 := hmod (j + 1) (by omega) (by omega)
    simp only [nthDeviceReply, categoryReply, Nat.add_sub_cancel] at h1 h2
    have hwrap : (j + 1 + 1) % (UINT32_MAX + 1) = j + 1 + 1 := by
      apply Nat.mod_eq_of_lt; omega
    rw [ContinuousAI.GetTerminalNameWithDevPrefix.loop]
    simp only [isModuleCategory, Bool.not_eq_true'] at h2
    have := ih (j + 1) f (d (enumTrace d taskHandle tr0 j ++
      [Event.call (Call.DAQmxGetNthTaskDevice taskHandle (j + 1) 256)
        (d (enumTrace d taskHandle tr0 j) (Call.DAQmxGetNthTaskDevice taskHandle (j + 1) 256))])
      (Call.DAQmxGetDevProductCategory
        (d (enumTrace d taskHandle tr0 j) (Call.DAQmxGetNthTaskDevice taskHandle (j + 1) 256)).str)).status
      (by omega) (by omega)
    simp only [enumTrace] at this
    simp only [show j + 1 ≤ n by omega, h1.1, h1.2, h2, hwrap, this, if_true,
      Bool.false_eq_true, if_false]



theorem loop_copies_eq (d : Driver) (taskHandle : TaskHandle) (terminalName : String) (numDevices : Nat) :
    ∀ (fuel i : Nat) (error : Int) (triggerName : String) (trace : List Event),
      SynchAI_AO.GetTerminalNameWithDevPrefix.loop d taskHandle terminalName numDevices fuel i error
          triggerName trace
        = ContinuousAI.GetTerminalNameWithDevPrefix.loop d taskHandle terminalName numDevices fuel i error
          triggerName trace := by
  intro fuel
  induction fuel with
  | zero =>
    intro i error triggerName trace
    rw [SynchAI_AO.GetTerminalNameWithDevPrefix.loop, ContinuousAI.GetTerminalNameWithDevPrefix.loop]
  | succ f ih =>
    intro i error triggerName trace
    rw [SynchAI_AO.GetTerminalNameWithDevPrefix.loop, ContinuousAI.GetTerminalNameWithDevPrefix.loop]
    simp only [ih]

theorem helper_copies_eq (d : Driver) (fuel : Nat) (taskHandle : TaskHandle)
    (terminalName triggerName : String) (trace : List Event) :
    SynchAI_AO.GetTerminalNameWithDevPrefix d fuel taskHandle terminalName triggerName trace
      = ContinuousAI.GetTerminalNameWithDevPrefix d fuel taskHandle terminalName triggerName trace := by
  simp only [SynchAI_AO.GetTerminalNameWithDevPrefix, ContinuousAI.GetTerminalNameWithDevPrefix,
    loop_copies_eq]

theorem helper_reaches_source (d : Driver) (fuel : Nat) (taskHandle : TaskHandle)
    (terminalName triggerName : String) (trace : List Event) (k : Nat)
    (h : FirstSource d taskHandle trace k) (hfuel : k ≤ fuel) :
    ContinuousAI.GetTerminalNameWithDevPrefix d fuel taskHandle terminalName triggerName trace
      = ⟨some ((categoryReply d taskHandle trace k).status,
          "/" ++ (nthDeviceReply d taskHandle trace k).str ++ "/" ++ terminalName),
         enumTrace d taskHandle trace k⟩ := by
  obtain ⟨h0, hk1, hkn, hn, hok, hmod, hsrc⟩ := h
  have hl := loop_reaches_source d taskHandle terminalName (numDevicesReply d taskHandle trace).u32 k
    trace triggerName hkn hn hok hmod hsrc (k - 1) 0 fuel (numDevicesReply d taskHandle trace).status
    (by omega) (by omega)
  simp only [numDevicesReply] at h0 hl
  simp only [ContinuousAI.GetTerminalNameWithDevPrefix, h0, Bool.false_eq_true, if_false]
  simpa only [enumTrace, Nat.zero_add] using hl


theorem exampleDriver_firstSource : FirstSource exampleDriver 1 [] 2 := by
  refine ⟨by decide, by decide, by decide, by decide, ?_, ?_, by decide⟩
  · intro j h1 h2
    interval_cases j <;> decide
  · intro j h1 h2
    interval_cases j
    decide

/-- C1: when the driver enumerates the task's devices without a failing status and
device `k` is the first one whose product category is neither C Series module nor
SCXI module, both copies of `GetTerminalNameWithDevPrefix` return and leave exactly
`"/" ++ device k ++ "/" ++ terminalName` in `triggerName`, whatever the buffer held. -/
theorem C1_name_of_first_source (d : Driver) (fuel : Nat) (taskHandle : TaskHandle)
    (terminalName triggerName : String) (trace : List Event) (k : Nat)
    (h : FirstSource d taskHandle trace k) (hfuel : k ≤ fuel) :
    (ContinuousAI.GetTerminalNameWithDevPrefix d fuel taskHandle terminalName triggerName trace).ret
        = some ((categoryReply d taskHandle trace k).status,
            "/" ++ (nthDeviceReply d taskHandle trace k).str ++ "/" ++ terminalName) ∧
    (SynchAI_AO.GetTerminalNameWithDevPrefix d fuel taskHandle terminalName triggerName trace).ret
        = some ((categoryReply d taskHandle trace k).status,
            "/" ++ (nthDeviceReply d taskHandle trace k).str ++ "/" ++ terminalName) := by
  rw [helper_copies_eq, helper_reaches_source d fuel taskHandle terminalName triggerName trace k h hfuel]
  exact ⟨rfl, rfl⟩

/-- Witness of C1: with devices `[mod1 (module), dev2, dev3]` and terminal
`"ai/StartTrigger"` the name written is `"/dev2/ai/StartTrigger"`. -/
theorem C1_name_of_first_source_witness :
    (nthDeviceReply exampleDriver 1 [] 2).str = "dev2" ∧
    ((ContinuousAI.GetTerminalNameWithDevPrefix exampleDriver 2 1 "ai/StartTrigger" "junk" []).ret
        = some ((categoryReply exampleDriver 1 [] 2).status,
            "/" ++ (nthDeviceReply exampleDriver 1 [] 2).str ++ "/" ++ "ai/StartTrigger") ∧
     (SynchAI_AO.GetTerminalNameWithDevPrefix exampleDriver 2 1 "ai/StartTrigger" "junk" []).ret
        = some ((categoryReply exampleDriver 1 [] 2).status,
            "/" ++ (nthDeviceReply exampleDriver 1 [] 2).str ++ "/" ++ "ai/StartTrigger")) :=
  ⟨by decide, C1_name_of_first_source exampleDriver 2 1 "ai/StartTrigger" "junk" [] 2
    exampleDriver_firstSource (by decide)⟩

theorem okButLast_cons (e : Event) (l : List Event) (he : e.ok = true) (hl : okButLast l = true) :
    okButLast (e :: l) = true := by
  cases l with
  | nil => rfl
  | cons a l => simp [okButLast, he, hl]

theorem loop_tail (d : Driver) (taskHandle : TaskHandle) (terminalName : String) (n : Nat) :
    ∀ (fuel i : Nat) (error : Int) (buf : String) (tr : List Event),
      ∃ new, (ContinuousAI.GetTerminalNameWithDevPrefix.loop d taskHandle terminalName n fuel i error
          buf tr).trace = tr ++ new ∧
        (∀ e ∈ new, e.isQuery = true) ∧ okButLast new = true ∧
        (∀ err name, (ContinuousAI.GetTerminalNameWithDevPrefix.loop d taskHandle terminalName n fuel i
            error buf tr).ret = some (err, name) →
          err = lastStatus error new ∧ (DAQmxFailed err = true → name = buf) ∧
          (DAQmxFailed err = false → ∀ e ∈ new, e.ok = true)) ∧
        ((ContinuousAI.GetTerminalNameWithDevPrefix.loop d taskHandle terminalName n fuel i
            error buf tr).ret = none → ∀ e ∈ new, e.ok = true) := by
  intro fuel
  induction fuel with
  | zero =>
    intro i error buf tr
    rw [ContinuousAI.GetTerminalNameWithDevPrefix.loop]
    refine ⟨[], ?_⟩
    by_cases hi : i ≤ n <;> simp [hi, okButLast, lastStatus]
  | succ f ih =>
    intro i error buf tr
    rw [ContinuousAI.GetTerminalNameWithDevPrefix.loop]
    by_cases hi : i ≤ n
    · simp only [hi, if_true]
      generalize hr1 : d tr (Call.DAQmxGetNthTaskDevice taskHandle i 256) = r1
      generalize hr2 : d (tr ++ [Event.call (Call.DAQmxGetNthTaskDevice taskHandle i 256) r1])
        (Call.DAQmxGetDevProductCategory r1.str) = r2
      by_cases h1 : DAQmxFailed r1.status = true
      · refine ⟨[Event.call (Call.DAQmxGetNthTaskDevice taskHandle i 256) r1], ?_⟩
        simp [h1, okButLast, lastStatus, Event.isQuery]
      · by_cases h2 : DAQmxFailed r2.status = true
        · refine ⟨[Event.call (Call.DAQmxGetNthTaskDevice taskHandle i 256) r1,
            Event.call (Call.DAQmxGetDevProductCategory r1.str) r2], ?_⟩
          simp [h1, h2, okButLast, lastStatus, Event.isQuery, Event.ok]
        · by_cases h3 : (r2.i32 != DAQmx_Val_CSeriesModule && r2.i32 != DAQmx_Val_SCXIModule) = true
          · refine ⟨[Event.call (Call.DAQmxGetNthTaskDevice taskHandle i 256) r1,
              Event.call (Call.DAQmxGetDevProductCategory r1.str) r2], ?_⟩
            simp only [Bool.not_eq_true] at h1 h2
            simp [h1, h2, h3, okButLast, lastStatus, Event.isQuery, Event.ok]
          · obtain ⟨new, ht, hq, hb, hs, hn⟩ := ih ((i + 1) % (UINT32_MAX + 1)) r2.status buf
              (tr ++ [Event.call (Call.DAQmxGetNthTaskDevice taskHandle i 256) r1] ++
                [Event.call (Call.DAQmxGetDevProductCategory r1.str) r2])
            refine ⟨Event.call (Call.DAQmxGetNthTaskDevice taskHandle i 256) r1 ::
              Event.call (Call.DAQmxGetDevProductCategory r1.str) r2 :: new, ?_⟩
            simp only [Bool.not_eq_true] at h1 h2 h3
            simp only [h1, h2, h3, Bool.false_eq_true, if_false]
            have hok1 : (Event.call (Call.DAQmxGetNthTaskDevice taskHandle i 256) r1).ok = true := by
              simp [Event.ok, h1]
            have hok2 : (Event.call (Call.DAQmxGetDevProductCategory r1.str) r2).ok = true := by
              simp [Event.ok, h2]
            refine ⟨by rw [ht]; simp, ?_, ?_, ?_, ?_⟩
            · intro e he
              simp only [List.mem_cons] at he
              rcases he with rfl | rfl | he
              · rfl
              · rfl
              · exact hq e he
            · exact okButLast_cons _ _ hok1 (okButLast_cons _ _ hok2 hb)
            · intro err name hret
              obtain ⟨h5, h6, h7⟩ := hs err name hret
              refine ⟨by simpa [lastStatus] using h5, h6, ?_⟩
              intro hf e he
              simp only [List.mem_cons] at he
              rcases he with rfl | rfl | he
              · exact hok1
              · exact hok2
              · exact h7 hf e he
            · intro hret e he
              simp only [List.mem_cons] at he
              rcases he with rfl | rfl | he
              · exact hok1
              · exact hok2
              · exact hn hret e he
    · refine ⟨[], ?_⟩
      simp [hi, okButLast, lastStatus]

theorem lastStatus_call (c : Call) (r : Reply) (x y : Int) (l : List Event) :
    lastStatus x (Event.call c r :: l) = lastStatus y (Event.call c r :: l) := by
  simp [lastStatus]

theorem failing_is_last : ∀ (l : List Event) (c : Call) (r : Reply) (x : Int),
    okButLast l = true → Event.call c r ∈ l → DAQmxFailed r.status = true →
      l.getLast? = some (Event.call c r) ∧ lastStatus x l = r.status := by
  intro l
  induction l with
  | nil => intro c r x _ hm; simp at hm
  | cons a l ih =>
    intro c r x hb hm hf
    cases l with
    | nil =>
      simp only [List.mem_singleton] at hm
      subst hm
      simp [lastStatus]
    | cons b l =>
      simp only [okButLast, Bool.and_eq_true] at hb
      have hne : Event.call c r ≠ a := by
        intro h
        subst h
        simp [Event.ok, hf] at hb
      have hm2 : Event.call c r ∈ b :: l := by
        rcases List.mem_cons.mp hm with h | h
        · exact absurd h hne
        · exact h
      cases a with
      | call ca ra =>
        obtain ⟨h1, h2⟩ := ih c r ra.status hb.2 hm2 hf
        exact ⟨by simpa using h1, by simpa [lastStatus] using h2⟩
      | printf t =>
        obtain ⟨h1, h2⟩ := ih c r x hb.2 hm2 hf
        exact ⟨by simpa using h1, by simpa [lastStatus] using h2⟩
      | getchar =>
        obtain ⟨h1, h2⟩ := ih c r x hb.2 hm2 hf
        exact ⟨by simpa using h1, by simpa [lastStatus] using h2⟩

theorem helper_tail (d : Driver) (fuel : Nat) (taskHandle : TaskHandle)
    (terminalName buf : String) (tr : List Event) :
    ∃ new, (ContinuousAI.GetTerminalNameWithDevPrefix d fuel taskHandle terminalName buf tr).trace
        = tr ++ Event.call (.DAQmxGetTaskNumDevices taskHandle) (numDevicesReply d taskHandle tr) :: new ∧
      (∀ e ∈ new, e.isQuery = true) ∧
      okButLast (Event.call (.DAQmxGetTaskNumDevices taskHandle) (numDevicesReply d taskHandle tr) :: new) = true ∧
      (∀ err name, (ContinuousAI.GetTerminalNameWithDevPrefix d fuel taskHandle terminalName buf tr).ret
          = some (err, name) →
        err = lastStatus 0 (Event.call (.DAQmxGetTaskNumDevices taskHandle) (numDevicesReply d taskHandle tr) :: new) ∧
        (DAQmxFailed err = true → name = buf) ∧
        (DAQmxFailed err = false → ∀ e ∈ Event.call (.DAQmxGetTaskNumDevices taskHandle)
          (numDevicesReply d taskHandle tr) :: new, e.ok = true)) ∧
      ((ContinuousAI.GetTerminalNameWithDevPrefix d fuel taskHandle terminalName buf tr).ret = none →
        ∀ e ∈ Event.call (.DAQmxGetTaskNumDevices taskHandle) (numDevicesReply d taskHandle tr) :: new,
          e.ok = true) := by
  simp only [ContinuousAI.GetTerminalNameWithDevPrefix, numDevicesReply]
  generalize d tr (Call.DAQmxGetTaskNumDevices taskHandle) = r0
  by_cases h0 : DAQmxFailed r0.status = true
  · refine ⟨[], ?_⟩
    simp [h0, okButLast, lastStatus]
  · simp only [Bool.not_eq_true] at h0
    obtain ⟨new, ht, hq, hb, hs, hn⟩ := loop_tail d taskHandle terminalName r0.u32 fuel 1 r0.status buf
      (tr ++ [Event.call (Call.DAQmxGetTaskNumDevices taskHandle) r0])
    have hok0 : (Event.call (Call.DAQmxGetTaskNumDevices taskHandle) r0).ok = true := by
      simp [Event.ok, h0]
    refine ⟨new, ?_⟩
    simp only [h0, Bool.false_eq_true, if_false]
    refine ⟨by rw [ht]; simp, hq, okButLast_cons _ _ hok0 hb, ?_, ?_⟩
    · intro err name hret
      obtain ⟨h5, h6, h7⟩ := hs err name hret
      refine ⟨by simpa [lastStatus] using h5, h6, ?_⟩
      intro hf e he
      rcases List.mem_cons.mp he with rfl | he
      · exact hok0
      · exact h7 hf e he
    · intro hret e he
      rcases List.mem_cons.mp he with rfl | he
      · exact hok0
      · exact hn hret e he

theorem helper_failure (d : Driver) (fuel : Nat) (taskHandle : TaskHandle)
    (terminalName triggerName : String) (trace new : List Event) (c : Call) (r : Reply)
    (htr : (ContinuousAI.GetTerminalNameWithDevPrefix d fuel taskHandle terminalName triggerName trace).trace
      = trace ++ new)
    (hmem : Event.call c r ∈ new) (hfail : DAQmxFailed r.status = true) :
    (ContinuousAI.GetTerminalNameWithDevPrefix d fuel taskHandle terminalName triggerName trace).ret
        = some (r.status, triggerName) ∧
      new.getLast? = some (Event.call c r) := by
  obtain ⟨new1, ht, _, hb, hs, hn⟩ := helper_tail d fuel taskHandle terminalName triggerName trace
  rw [ht] at htr
  have hnew := List.append_cancel_left htr
  subst hnew
  obtain ⟨hlast, hst⟩ := failing_is_last _ c r 0 hb hmem hfail
  refine ⟨?_, hlast⟩
  cases hret : (ContinuousAI.GetTerminalNameWithDevPrefix d fuel taskHandle terminalName triggerName trace).ret with
  | none =>
    have := hn hret _ hmem
    simp [Event.ok, hfail] at this
  | some p =>
    obtain ⟨err, name⟩ := p
    obtain ⟨h5, h6, _⟩ := hs err name hret
    rw [hst] at h5
    subst h5
    rw [h6 hfail]

/-- C3: if a driver query issued by `GetTerminalNameWithDevPrefix` returns a failing
status, the helper (either copy) returns exactly that status, the failing query is
the last event of the run, and `triggerName` holds what it held on entry. -/
theorem C3_failure_propagates (d : Driver) (fuel : Nat) (taskHandle : TaskHandle)
    (terminalName triggerName : String) (trace new : List Event) (c : Call) (r : Reply)
    (htr : (ContinuousAI.GetTerminalNameWithDevPrefix d fuel taskHandle terminalName triggerName trace).trace
      = trace ++ new)
    (hmem : Event.call c r ∈ new) (hfail : DAQmxFailed r.status = true) :
    ((ContinuousAI.GetTerminalNameWithDevPrefix d fuel taskHandle terminalName triggerName trace).ret
        = some (r.status, triggerName) ∧
      new.getLast? = some (Event.call c r)) ∧
    ((SynchAI_AO.GetTerminalNameWithDevPrefix d fuel taskHandle terminalName triggerName trace).trace
        = trace ++ new ∧
      (SynchAI_AO.GetTerminalNameWithDevPrefix d fuel taskHandle terminalName triggerName trace).ret
        = some (r.status, triggerName)) := by
  have h := helper_failure d fuel taskHandle terminalName triggerName trace new c r htr hmem hfail
  rw [helper_copies_eq]
  exact ⟨h, htr, h.1⟩

/-- Witness of C3: the category query for the first device fails with `-1`; the helper
returns `-1` and the buffer still holds `"junk"`. -/
theorem C3_failure_propagates_witness :
    ((ContinuousAI.GetTerminalNameWithDevPrefix failingDriver 5 1 "ai/StartTrigger" "junk" []).ret
        = some ((-1 : Int), "junk") ∧
      [Event.call (.DAQmxGetTaskNumDevices 1) { status := 0, u32 := 3 },
        Event.call (.DAQmxGetNthTaskDevice 1 1 256) { status := 0, str := "mod1" },
        Event.call (.DAQmxGetDevProductCategory "mod1") { status := -1 }].getLast?
        = some (Event.call (.DAQmxGetDevProductCategory "mod1") { status := -1 })) ∧
    ((SynchAI_AO.GetTerminalNameWithDevPrefix failingDriver 5 1 "ai/StartTrigger" "junk" []).trace
        = [] ++ [Event.call (.DAQmxGetTaskNumDevices 1) { status := 0, u32 := 3 },
        Event.call (.DAQmxGetNthTaskDevice 1 1 256) { status := 0, str := "mod1" },
        Event.call (.DAQmxGetDevProductCategory "mod1") { status := -1 }] ∧
      (SynchAI_AO.GetTerminalNameWithDevPrefix failingDriver 5 1 "ai/StartTrigger" "junk" []).ret
        = some ((-1 : Int), "junk")) :=
  C3_failure_propagates failingDriver 5 1 "ai/StartTrigger" "junk" []
    [Event.call (.DAQmxGetTaskNumDevices 1) { status := 0, u32 := 3 },
      Event.call (.DAQmxGetNthTaskDevice 1 1 256) { status := 0, str := "mod1" },
      Event.call (.DAQmxGetDevProductCategory "mod1") { status := -1 }]
    (.DAQmxGetDevProductCategory "mod1") { status := -1 } (by decide) (by decide) (by decide)

theorem loop_shape (d : Driver) (taskHandle : TaskHandle) (terminalName : String) (n : Nat)
    (hn : n < UINT32_MAX) :
    ∀ (fuel i : Nat) (error : Int) (buf : String) (tr : List Event),
      ∃ new, (ContinuousAI.GetTerminalNameWithDevPrefix.loop d taskHandle terminalName n fuel i error
          buf tr).trace = tr ++ new ∧ enumShape taskHandle i new := by
  intro fuel
  induction fuel with
  | zero =>
    intro i error buf tr
    rw [ContinuousAI.GetTerminalNameWithDevPrefix.loop]
    refine ⟨[], ?_⟩
    by_cases hi : i ≤ n <;> simp [hi, enumShape]
  | succ f ih =>
    intro i error buf tr
    rw [ContinuousAI.GetTerminalNameWithDevPrefix.loop]
    by_cases hi : i ≤ n
    · simp only [hi, if_true]
      have hwrap : (i + 1) % (UINT32_MAX + 1) = i + 1 := by
        apply Nat.mod_eq_of_lt; omega
      generalize d tr (Call.DAQmxGetNthTaskDevice taskHandle i 256) = r1
      generalize d (tr ++ [Event.call (Call.DAQmxGetNthTaskDevice taskHandle i 256) r1])
        (Call.DAQmxGetDevProductCategory r1.str) = r2
      by_cases h1 : DAQmxFailed r1.status = true
      · refine ⟨[Event.call (Call.DAQmxGetNthTaskDevice taskHandle i 256) r1], ?_⟩
        simp [h1, enumShape]
      · by_cases h2 : DAQmxFailed r2.status = true
        · refine ⟨[Event.call (Call.DAQmxGetNthTaskDevice taskHandle i 256) r1,
            Event.call (Call.DAQmxGetDevProductCategory r1.str) r2], ?_⟩
          simp [h1, h2, enumShape]
        · by_cases h3 : (r2.i32 != DAQmx_Val_CSeriesModule && r2.i32 != DAQmx_Val_SCXIModule) = true
          · refine ⟨[Event.call (Call.DAQmxGetNthTaskDevice taskHandle i 256) r1,
              Event.call (Call.DAQmxGetDevProductCategory r1.str) r2], ?_⟩
            simp only [Bool.not_eq_true] at h1 h2
            simp [h1, h2, h3, enumShape]
          · obtain ⟨new, ht, hs⟩ := ih (i + 1) r2.status buf
              (tr ++ [Event.call (Call.DAQmxGetNthTaskDevice taskHandle i 256) r1] ++
                [Event.call (Call.DAQmxGetDevProductCategory r1.str) r2])
            refine ⟨Event.call (Call.DAQmxGetNthTaskDevice taskHandle i 256) r1 ::
              Event.call (Call.DAQmxGetDevProductCategory r1.str) r2 :: new, ?_⟩
            simp only [Bool.not_eq_true] at h1 h2 h3
            simp only [h1, h2, h3, hwrap, Bool.false_eq_true, if_false]
            refine ⟨by rw [ht]; simp, ?_⟩
            simp only [enumShape]
            exact ⟨r1, r2, rfl, rfl, hs⟩
    · refine ⟨[], ?_⟩
      simp [hi, enumShape]

theorem enumTrace_length (d : Driver) (taskHandle : TaskHandle) (tr : List Event) :
    ∀ k, (enumTrace d taskHandle tr k).length = tr.length + 1 + 2 * k := by
  intro k
  induction k with
  | zero => simp [enumTrace]
  | succ k ih => simp only [enumTrace, List.length_append, ih, List.length_singleton]; omega

theorem helper_queryOnly (d : Driver) (fuel : Nat) (taskHandle : TaskHandle)
    (terminalName buf : String) (tr : List Event)
    (hn : (numDevicesReply d taskHandle tr).u32 < UINT32_MAX) :
    QueryOnlyTrace d taskHandle tr fuel
      (ContinuousAI.GetTerminalNameWithDevPrefix d fuel taskHandle terminalName buf tr) := by
  obtain ⟨new, ht, hq, _, _, _⟩ := helper_tail d fuel taskHandle terminalName buf tr
  refine ⟨numDevicesReply d taskHandle tr, new, ht, ?_, hq, ?_⟩
  · simp only [ContinuousAI.GetTerminalNameWithDevPrefix, numDevicesReply] at ht hn ⊢
    by_cases h0 : DAQmxFailed (d tr (Call.DAQmxGetTaskNumDevices taskHandle)).status = true
    · simp only [h0, if_true] at ht
      have : new = [] := by
        have := List.append_cancel_left (ht.symm.trans (by simp : tr ++ [Event.call (Call.DAQmxGetTaskNumDevices taskHandle) (d tr (Call.DAQmxGetTaskNumDevices taskHandle))] = tr ++ (Event.call (Call.DAQmxGetTaskNumDevices taskHandle) (d tr (Call.DAQmxGetTaskNumDevices taskHandle)) :: [])))
        simpa using this
      subst this
      simp [enumShape]
    · simp only [Bool.not_eq_true] at h0
      simp only [h0, Bool.false_eq_true, if_false] at ht
      obtain ⟨new2, ht2, hs2⟩ := loop_shape d taskHandle terminalName _ hn fuel 1
        (d tr (Call.DAQmxGetTaskNumDevices taskHandle)).status buf
        (tr ++ [Event.call (Call.DAQmxGetTaskNumDevices taskHandle) (d tr (Call.DAQmxGetTaskNumDevices taskHandle))])
      rw [ht2] at ht
      have : new2 = new := by
        have h := ht
        simp only [List.append_assoc, List.singleton_append] at h
        have := List.append_cancel_left h
        simpa using this
      subst this
      exact hs2
  · intro k hk hf
    have h := helper_reaches_source d fuel taskHandle terminalName buf tr k hk hf
    rw [h] at ht
    have hl := congrArg List.length ht
    simp only [enumTrace_length, List.length_append, List.length_cons] at hl
    omega

theorem enumShape_get (taskHandle : TaskHandle) :
    ∀ (j i : Nat) (new : List Event), enumShape taskHandle i new → 2 * j < new.length →
      ∃ r, new[2 * j]? = some (Event.call (.DAQmxGetNthTaskDevice taskHandle (i + j) 256) r) := by
  intro j
  induction j with
  | zero =>
    intro i new hs hl
    match new, hs, hl with
    | [e], hs, _ =>
      obtain ⟨r, rfl⟩ := hs
      exact ⟨r, rfl⟩
    | e1 :: e2 :: rest, hs, _ =>
      obtain ⟨r1, r2, rfl, _, _⟩ := hs
      exact ⟨r1, rfl⟩
  | succ j ih =>
    intro i new hs hl
    match new, hs, hl with
    | [e], _, hl => simp at hl
    | e1 :: e2 :: rest, hs, hl =>
      obtain ⟨r1, r2, _, _, hrest⟩ := hs
      have hl2 : 2 * j < rest.length := by
        simp only [List.length_cons] at hl
        omega
      obtain ⟨r, hr⟩ := ih (i + 1) rest hrest hl2
      refine ⟨r, ?_⟩
      have e : 2 * (j + 1) = 2 * j + 1 + 1 := by omega
      rw [e, List.getElem?_cons_succ, List.getElem?_cons_succ, hr]
      have e2 : i + 1 + j = i + (j + 1) := by omega
      rw [e2]

theorem loop_wraps (taskHandle : TaskHandle) (terminalName : String) :
    ∀ (m i fuel : Nat) (error : Int) (buf : String) (tr : List Event),
      i + m = UINT32_MAX → m + 2 ≤ fuel →
      ∃ mid rest, (ContinuousAI.GetTerminalNameWithDevPrefix.loop wrapDriver taskHandle terminalName
          UINT32_MAX fuel i error buf tr).trace =
        tr ++ mid ++ Event.call (.DAQmxGetNthTaskDevice taskHandle 0 256) { status := 0, str := "mod" }
          :: rest ∧ mid.length = 2 * (m + 1) := by
  intro m
  induction m with
  | zero =>
    intro i fuel error buf tr hi hf
    obtain ⟨f, rfl⟩ : ∃ f, fuel = f + 1 + 1 := ⟨fuel - 2, by omega⟩
    have hi2 : i = UINT32_MAX := by omega
    subst hi2
    rw [ContinuousAI.GetTerminalNameWithDevPrefix.loop]
    simp only [Nat.le_refl, if_true, wrapDriver, DAQmxFailed, Nat.mod_self]
    rw [ContinuousAI.GetTerminalNameWithDevPrefix.loop]
    simp only [Nat.zero_le, if_true, wrapDriver, DAQmxFailed]
    obtain ⟨new, hn, _⟩ := loop_tail wrapDriver taskHandle terminalName UINT32_MAX f
      ((0 + 1) % (UINT32_MAX + 1)) 0 buf
      (tr ++ [Event.call (Call.DAQmxGetNthTaskDevice taskHandle UINT32_MAX 256) { status := 0, str := "mod" }] ++
        [Event.call (Call.DAQmxGetDevProductCategory "mod") { status := 0, i32 := DAQmx_Val_CSeriesModule }] ++
        [Event.call (Call.DAQmxGetNthTaskDevice taskHandle 0 256) { status := 0, str := "mod" }] ++
        [Event.call (Call.DAQmxGetDevProductCategory "mod") { status := 0, i32 := DAQmx_Val_CSeriesModule }])
    refine ⟨[Event.call (Call.DAQmxGetNthTaskDevice taskHandle UINT32_MAX 256) { status := 0, str := "mod" },
      Event.call (Call.DAQmxGetDevProductCategory "mod") { status := 0, i32 := DAQmx_Val_CSeriesModule }],
      Event.call (Call.DAQmxGetDevProductCategory "mod") { status := 0, i32 := DAQmx_Val_CSeriesModule } :: new,
      ?_, rfl⟩
    simp [DAQmx_Val_CSeriesModule, DAQmx_Val_SCXIModule] at hn ⊢
    exact hn
  | succ m ih =>
    intro i fuel error buf tr hi hf
    obtain ⟨f, rfl⟩ : ∃ f, fuel = f + 1 := ⟨fuel - 1, by omega⟩
    have hle : i ≤ UINT32_MAX := by omega
    have hwrap : (i + 1) % (UINT32_MAX + 1) = i + 1 := Nat.mod_eq_of_lt (by omega)
    rw [ContinuousAI.GetTerminalNameWithDevPrefix.loop]
    simp only [hle, if_true, wrapDriver, DAQmxFailed, hwrap]
    obtain ⟨mid, rest, ht, hl⟩ := ih (i + 1) f 0 buf
      (tr ++ [Event.call (Call.DAQmxGetNthTaskDevice taskHandle i 256) { status := 0, str := "mod" }] ++
        [Event.call (Call.DAQmxGetDevProductCategory "mod") { status := 0, i32 := DAQmx_Val_CSeriesModule }])
      (by omega) (by omega)
    refine ⟨Event.call (Call.DAQmxGetNthTaskDevice taskHandle i 256) { status := 0, str := "mod" } ::
      Event.call (Call.DAQmxGetDevProductCategory "mod") { status := 0, i32 := DAQmx_Val_CSeriesModule } :: mid,
      rest, ?_, by simp only [List.length_cons, hl]; omega⟩
    simp [DAQmx_Val_CSeriesModule, DAQmx_Val_SCXIModule] at ht ⊢
    exact ht

theorem helper_wraps (taskHandle : TaskHandle) (terminalName buf : String) :
    ∃ mid rest, (ContinuousAI.GetTerminalNameWithDevPrefix wrapDriver 4294967296 taskHandle
        terminalName buf []).trace =
      Event.call (.DAQmxGetTaskNumDevices taskHandle) { status := 0, u32 := 4294967295 } ::
        (mid ++ Event.call (.DAQmxGetNthTaskDevice taskHandle 0 256) { status := 0, str := "mod" } :: rest) ∧
      mid.length = 2 * 4294967295 := by
  obtain ⟨mid, rest, ht, hl⟩ := loop_wraps taskHandle terminalName 4294967294 1 4294967296 0 buf
    [Event.call (.DAQmxGetTaskNumDevices taskHandle) { status := 0, u32 := UINT32_MAX }]
    (by decide) (by decide)
  refine ⟨mid, rest, ?_, hl⟩
  simp only [ContinuousAI.GetTerminalNameWithDevPrefix, wrapDriver, DAQmxFailed, List.nil_append]
  simp only [List.append_assoc, List.singleton_append] at ht
  simpa [UINT32_MAX] using ht

/-- C4, counterexample: on a task with `UINT32_MAX` devices, all of them modules, the
helper run with enough fuel queries, after the `4294967295` name/category pairs for
the indices `1 .. 4294967295`, the device with index `0`: the `uInt32` counter has
wrapped, so the indices are not increasing and the log does not have the shape
`QueryOnlyTrace`. -/
theorem C4_counter_wraps :
    (∃ mid rest, (ContinuousAI.GetTerminalNameWithDevPrefix wrapDriver 4294967296 1
        "ai/StartTrigger" "" []).trace =
      Event.call (.DAQmxGetTaskNumDevices 1) { status := 0, u32 := 4294967295 } ::
        (mid ++ Event.call (.DAQmxGetNthTaskDevice 1 0 256) { status := 0, str := "mod" } :: rest) ∧
      mid.length = 2 * 4294967295) ∧
    ¬ QueryOnlyTrace wrapDriver 1 [] 4294967296
      (ContinuousAI.GetTerminalNameWithDevPrefix wrapDriver 4294967296 1 "ai/StartTrigger" "" []) := by
  refine ⟨helper_wraps 1 "ai/StartTrigger" "", ?_⟩
  rintro ⟨r0, new, ht, hs, _, _⟩
  obtain ⟨mid, rest, hw, hl⟩ := helper_wraps 1 "ai/StartTrigger" ""
  rw [hw, List.nil_append] at ht
  have hnew : new = mid ++ Event.call (.DAQmxGetNthTaskDevice 1 0 256) { status := 0, str := "mod" }
      :: rest := (List.cons.inj ht).2.symm
  subst hnew
  obtain ⟨r, hr⟩ := enumShape_get 1 4294967295 1 _ hs (by
    simp only [List.length_append, List.length_cons, hl]; omega)
  rw [← hl, List.getElem?_append_right (Nat.le_refl _), Nat.sub_self] at hr
  simp at hr

/-- C4, amended: a run of `GetTerminalNameWithDevPrefix` (either copy), for any driver,
logs one `DAQmxGetTaskNumDevices` and then nothing but enumeration queries; when
device `k` is the first non-module device the log is exactly that query followed by
the `DAQmxGetNthTaskDevice(i)` / `DAQmxGetDevProductCategory` pairs for `i = 1 .. k`;
and when the driver reports fewer than `UINT32_MAX` devices, the log on every path is
the query followed by pairs for `i = 1, 2, ...` in increasing order. -/
theorem C4_query_only_trace (d : Driver) (fuel : Nat) (taskHandle : TaskHandle)
    (terminalName triggerName : String) (trace : List Event) :
    (QueriesOnly taskHandle trace
        (ContinuousAI.GetTerminalNameWithDevPrefix d fuel taskHandle terminalName triggerName trace) ∧
      QueriesOnly taskHandle trace
        (SynchAI_AO.GetTerminalNameWithDevPrefix d fuel taskHandle terminalName triggerName trace)) ∧
    (∀ k, FirstSource d taskHandle trace k → k ≤ fuel →
      (ContinuousAI.GetTerminalNameWithDevPrefix d fuel taskHandle terminalName triggerName trace).trace
        = enumTrace d taskHandle trace k ∧
      (SynchAI_AO.GetTerminalNameWithDevPrefix d fuel taskHandle terminalName triggerName trace).trace
        = enumTrace d taskHandle trace k) ∧
    ((numDevicesReply d taskHandle trace).u32 < UINT32_MAX →
      QueryOnlyTrace d taskHandle trace fuel
        (ContinuousAI.GetTerminalNameWithDevPrefix d fuel taskHandle terminalName triggerName trace) ∧
      QueryOnlyTrace d taskHandle trace fuel
        (SynchAI_AO.GetTerminalNameWithDevPrefix d fuel taskHandle terminalName triggerName trace)) := by
  rw [helper_copies_eq]
  obtain ⟨new, ht, hq, _⟩ := helper_tail d fuel taskHandle terminalName triggerName trace
  refine ⟨⟨⟨_, new, ht, hq⟩, ⟨_, new, ht, hq⟩⟩, ?_, ?_⟩
  · intro k hk hf
    rw [helper_reaches_source d fuel taskHandle terminalName triggerName trace k hk hf]
    exact ⟨rfl, rfl⟩
  · intro hn
    exact ⟨helper_queryOnly d fuel taskHandle terminalName triggerName trace hn,
      helper_queryOnly d fuel taskHandle terminalName triggerName trace hn⟩

/-- Witness of the amended C4 on the example device table: three devices, the first
non-module device is device `2`. -/
theorem C4_query_only_trace_witness :
    (numDevicesReply exampleDriver 1 []).u32 < UINT32_MAX ∧ FirstSource exampleDriver 1 [] 2 ∧
    (ContinuousAI.GetTerminalNameWithDevPrefix exampleDriver 5 1 "ai/StartTrigger" "junk" []).trace
      = enumTrace exampleDriver 1 [] 2 ∧
    QueryOnlyTrace exampleDriver 1 [] 5
      (ContinuousAI.GetTerminalNameWithDevPrefix exampleDriver 5 1 "ai/StartTrigger" "junk" []) ∧
    QueryOnlyTrace exampleDriver 1 [] 5
      (SynchAI_AO.GetTerminalNameWithDevPrefix exampleDriver 5 1 "ai/StartTrigger" "junk" []) :=
  ⟨by decide, exampleDriver_firstSource,
    ((C4_query_only_trace exampleDriver 5 1 "ai/StartTrigger" "junk" []).2.1 2
      exampleDriver_firstSource (by decide)).1,
    (C4_query_only_trace exampleDriver 5 1 "ai/StartTrigger" "junk" []).2.2 (by decide)⟩

theorem loop_all_modules (d : Driver) (taskHandle : TaskHandle) (terminalName : String)
    (n : Nat) (tr0 : List Event) (buf : String) (hn : n < UINT32_MAX)
    (hok : ∀ j, 1 ≤ j → j ≤ n → DAQmxFailed (nthDeviceReply d taskHandle tr0 j).status = false ∧
      DAQmxFailed (categoryReply d taskHandle tr0 j).status = false ∧
      isModuleCategory (categoryReply d taskHandle tr0 j).i32 = true) :
    ∀ (m j fuel : Nat) (error : Int), DAQmxFailed error = false → j + m = n → m ≤ fuel →
      ∃ err, DAQmxFailed err = false ∧
        ContinuousAI.GetTerminalNameWithDevPrefix.loop d taskHandle terminalName n fuel (j + 1) error buf
          (enumTrace d taskHandle tr0 j) = ⟨some (err, buf), enumTrace d taskHandle tr0 n⟩ := by
  intro m
  induction m with
  | zero =>
    intro j fuel error he hj _
    have hjn : j = n := by omega
    subst hjn
    refine ⟨error, he, ?_⟩
    cases fuel <;> rw [ContinuousAI.GetTerminalNameWithDevPrefix.loop] <;> simp
  | succ m ih =>
    intro j fuel error _ hj hf
    obtain ⟨f, rfl⟩ : ∃ f, fuel = f + 1 := ⟨fuel - 1, by omega⟩
    obtain ⟨h1, h2, h3⟩ := hok (j + 1) (by omega) (by omega)
    simp only [nthDeviceReply, categoryReply, Nat.add_sub_cancel] at h1 h2 h3
    have hwrap : (j + 1 + 1) % (UINT32_MAX + 1) = j + 1 + 1 := by
      apply Nat.mod_eq_of_lt; omega
    simp only [isModuleCategory, Bool.not_eq_true'] at h3
    obtain ⟨err, herr, hloop⟩ := ih (j + 1) f _ h2 (by omega) (by omega)
    refine ⟨err, herr, ?_⟩
    rw [ContinuousAI.GetTerminalNameWithDevPrefix.loop]
    simp only [enumTrace] at hloop
    simp only [show j + 1 ≤ n by omega, h1, h2, h3, hwrap, hloop, if_true,
      Bool.false_eq_true, if_false]

theorem helper_no_source (d : Driver) (fuel : Nat) (taskHandle : TaskHandle)
    (terminalName triggerName : String) (trace : List Event)
    (h : NoSource d taskHandle trace) (hfuel : (numDevicesReply d taskHandle trace).u32 ≤ fuel) :
    ∃ error, DAQmxFailed error = false ∧
      (ContinuousAI.GetTerminalNameWithDevPrefix d fuel taskHandle terminalName triggerName trace).ret
        = some (error, triggerName) := by
  obtain ⟨h0, hn, hok⟩ := h
  obtain ⟨err, herr, hl⟩ := loop_all_modules d taskHandle terminalName
    (numDevicesReply d taskHandle trace).u32 trace triggerName hn hok
    (numDevicesReply d taskHandle trace).u32 0 fuel (numDevicesReply d taskHandle trace).status h0
    (by omega) hfuel
  refine ⟨err, herr, ?_⟩
  simp only [numDevicesReply] at h0 hl
  simp only [ContinuousAI.GetTerminalNameWithDevPrefix, h0, Bool.false_eq_true, if_false]
  simp only [enumTrace, Nat.zero_add] at hl
  rw [hl]

theorem moduleDriver_noSource : NoSource (simDriver moduleDevices none) 1 [] := by
  refine ⟨by decide, by decide, ?_⟩
  intro j h1 h2
  have h3 : j ≤ 2 := h2
  interval_cases j <;> decide

/-- C2 as stated fails: with no device at all and a buffer holding `"junk"`, the
helper returns status `0` and the buffer still holds `"junk"`; it is not empty. -/
theorem C2_buffer_not_emptied :
    NoSource (simDriver [] none) 1 [] ∧
    (ContinuousAI.GetTerminalNameWithDevPrefix (simDriver [] none) 0 1 "ai/StartTrigger" "junk" []).ret
      = some ((0 : Int), "junk") ∧
    (ContinuousAI.GetTerminalNameWithDevPrefix (simDriver [] none) 0 1 "ai/StartTrigger" "junk" []).ret
      ≠ some ((0 : Int), "") := by
  refine ⟨⟨by decide, by decide, ?_⟩, by decide, by decide⟩
  intro j h1 h2
  have h3 : j ≤ 0 := h2
  omega

/-- C2, amended: when the task has no device or only module devices (fewer than
`UINT32_MAX` of them) and every query succeeds, the helper (either copy) returns a
non-failing status and writes nothing: `triggerName` holds what it held on entry. -/
theorem C2_no_source_leaves_buffer (d : Driver) (fuel : Nat) (taskHandle : TaskHandle)
    (terminalName triggerName : String) (trace : List Event)
    (h : NoSource d taskHandle trace) (hfuel : (numDevicesReply d taskHandle trace).u32 ≤ fuel) :
    (∃ error, DAQmxFailed error = false ∧
      (ContinuousAI.GetTerminalNameWithDevPrefix d fuel taskHandle terminalName triggerName trace).ret
        = some (error, triggerName)) ∧
    (∃ error, DAQmxFailed error = false ∧
      (SynchAI_AO.GetTerminalNameWithDevPrefix d fuel taskHandle terminalName triggerName trace).ret
        = some (error, triggerName)) := by
  rw [helper_copies_eq]
  exact ⟨helper_no_source d fuel taskHandle terminalName triggerName trace h hfuel,
    helper_no_source d fuel taskHandle terminalName triggerName trace h hfuel⟩

/-- Witness of the amended C2 on a task with two module devices. -/
theorem C2_no_source_leaves_buffer_witness :
    (∃ error, DAQmxFailed error = false ∧
      (ContinuousAI.GetTerminalNameWithDevPrefix (simDriver moduleDevices none) 2 1 "SyncPulse" "junk" []).ret
        = some (error, "junk")) ∧
    (∃ error, DAQmxFailed error = false ∧
      (SynchAI_AO.GetTerminalNameWithDevPrefix (simDriver moduleDevices none) 2 1 "SyncPulse" "junk" []).ret
        = some (error, "junk")) :=
  C2_no_source_leaves_buffer (simDriver moduleDevices none) 2 1 "SyncPulse" "junk" []
    moduleDriver_noSource (by decide)

theorem run_append {V : Type} (a b : List (Stmt V)) (s : St V) :
    run (a ++ b) s = (run a s).andThen (run b) := by
  induction a generalizing s with
  | nil => simp [run, Flow.andThen]
  | cons stmt rest ih =>
    simp only [List.cons_append, run]
    cases stmt s with
    | next s1 => exact ih s1
    | Error s1 => rfl
    | hang s1 => rfl

theorem run_induct {V : Type} (P : Flow V → Prop) (stmts : List (Stmt V)) (s : St V)
    (h0 : P (.next s)) (hstep : ∀ stmt ∈ stmts, ∀ s1, P (.next s1) → P (stmt s1)) :
    P (run stmts s) := by
  induction stmts generalizing s with
  | nil => exact h0
  | cons stmt rest ih =>
    have h := hstep stmt (List.mem_cons_self _ _) s h0
    simp only [run]
    cases hs : stmt s with
    | next s1 =>
      rw [hs] at h
      exact ih s1 h (fun st hst => hstep st (List.mem_cons_of_mem _ hst))
    | Error s1 => rw [hs] at h; exact h
    | hang s1 => rw [hs] at h; exact h

theorem avoids_run {V : Type} (K : Event → Bool) (stmts : List (Stmt V))
    (h : ∀ stmt ∈ stmts, Avoids K stmt) : Avoids K (run stmts) := by
  intro s hs
  exact run_induct (fun f => ∀ e ∈ f.state.trace, K e = false) stmts s hs
    (fun stmt hm s1 h1 => h stmt hm s1 h1)

theorem avoids_errChk {V : Type} (K : Event → Bool) (d : Driver) (c : V → Call) (store : Reply → V → V)
    (h : ∀ v r, K (Event.call (c v) r) = false) : Avoids K (DAQmxErrChk d c store) := by
  intro s hs e he
  simp only [DAQmxErrChk] at he
  split at he <;> simp only [Flow.state, List.mem_append, List.mem_singleton] at he <;>
    rcases he with he | rfl <;> first | exact hs e he | exact h _ _

theorem avoids_printf {V : Type} (K : Event → Bool) (text : V → String)
    (h : ∀ t, K (Event.printf t) = false) : Avoids K (printf text) := by
  intro s hs e he
  simp only [printf, emit, Flow.state, List.mem_append, List.mem_singleton] at he
  rcases he with he | rfl
  · exact hs e he
  · exact h _

theorem avoids_getchar {V : Type} (K : Event → Bool) (h : K Event.getchar = false) :
    Avoids K (getchar : Stmt V) := by
  intro s hs e he
  simp only [getchar, emit, Flow.state, List.mem_append, List.mem_singleton] at he
  rcases he with he | rfl
  · exact hs e he
  · exact h

theorem okButLast_of_ok (l : List Event) (h : ∀ e ∈ l, e.ok = true) : okButLast l = true := by
  induction l with
  | nil => rfl
  | cons a l ih =>
    exact okButLast_cons a l (h a (List.mem_cons_self _ _))
      (ih (fun e he => h e (List.mem_cons_of_mem _ he)))

theorem okButLast_append (l m : List Event) (h : ∀ e ∈ l, e.ok = true) (hm : okButLast m = true) :
    okButLast (l ++ m) = true := by
  induction l with
  | nil => simpa using hm
  | cons a l ih =>
    exact okButLast_cons a (l ++ m) (h a (List.mem_cons_self _ _))
      (ih (fun e he => h e (List.mem_cons_of_mem _ he)))

theorem keeps_errChk {V : Type} (d : Driver) (c : V → Call) (store : Reply → V → V) :
    KeepsFailFast (DAQmxErrChk d c store) := by
  intro s hs
  obtain ⟨hok, _⟩ := hs
  simp only [DAQmxErrChk]
  split
  · rename_i hf
    exact ⟨okButLast_append _ _ hok rfl, hf⟩
  · rename_i hf
    simp only [Bool.not_eq_true] at hf
    refine ⟨?_, hf⟩
    intro e he
    simp only [List.mem_append, List.mem_singleton] at he
    rcases he with he | rfl
    · exact hok e he
    · simp [Event.ok, hf]

theorem keeps_printf {V : Type} (text : V → String) : KeepsFailFast (printf text) := by
  intro s hs
  obtain ⟨hok, he⟩ := hs
  refine ⟨?_, he⟩
  intro e hm
  simp only [emit, List.mem_append, List.mem_singleton] at hm
  rcases hm with hm | rfl
  · exact hok e hm
  · rfl

theorem keeps_getchar {V : Type} : KeepsFailFast (getchar : Stmt V) := by
  intro s hs
  obtain ⟨hok, he⟩ := hs
  refine ⟨?_, he⟩
  intro e hm
  simp only [emit, List.mem_append, List.mem_singleton] at hm
  rcases hm with hm | rfl
  · exact hok e hm
  · rfl

theorem keeps_run {V : Type} (stmts : List (Stmt V)) (h : ∀ stmt ∈ stmts, KeepsFailFast stmt) :
    KeepsFailFast (run stmts) := by
  intro s hs
  exact run_induct Flow.failFast stmts s hs (fun stmt hm s1 h1 => h stmt hm s1 h1)

theorem CAI_helperStmt_trace (d : Driver) (fuel : Nat) (terminalName : String)
    (buffer : ContinuousAI.Vars → String) (store : String → ContinuousAI.Vars → ContinuousAI.Vars)
    (s : St ContinuousAI.Vars) :
    (ContinuousAI.DAQmxErrChk_GetTerminalNameWithDevPrefix d fuel terminalName buffer store s).state.trace
      = (ContinuousAI.GetTerminalNameWithDevPrefix d fuel s.vars.masterTaskHandle terminalName
          (buffer s.vars) s.trace).trace := by
  simp only [ContinuousAI.DAQmxErrChk_GetTerminalNameWithDevPrefix]
  split
  · rfl
  · split <;> rfl

theorem CAI_avoids_helperStmt (K : Event → Bool) (hK : ∀ e, e.isQuery = true → K e = false)
    (d : Driver) (fuel : Nat) (terminalName : String)
    (buffer : ContinuousAI.Vars → String) (store : String → ContinuousAI.Vars → ContinuousAI.Vars) :
    Avoids K (ContinuousAI.DAQmxErrChk_GetTerminalNameWithDevPrefix d fuel terminalName buffer store) := by
  intro s hs e he
  rw [CAI_helperStmt_trace] at he
  obtain ⟨new, ht, hq, _⟩ := helper_tail d fuel s.vars.masterTaskHandle terminalName (buffer s.vars) s.trace
  rw [ht] at he
  simp only [List.mem_append, List.mem_cons] at he
  rcases he with he | rfl | he
  · exact hs e he
  · exact hK _ rfl
  · exact hK e (hq e he)

theorem CAI_keeps_helperStmt (d : Driver) (fuel : Nat) (terminalName : String)
    (buffer : ContinuousAI.Vars → String) (store : String → ContinuousAI.Vars → ContinuousAI.Vars) :
    KeepsFailFast (ContinuousAI.DAQmxErrChk_GetTerminalNameWithDevPrefix d fuel terminalName buffer store) := by
  intro s hs
  obtain ⟨hok, _⟩ := hs
  obtain ⟨new, ht, _, hb, hsome, hnone⟩ :=
    helper_tail d fuel s.vars.masterTaskHandle terminalName (buffer s.vars) s.trace
  simp only [ContinuousAI.DAQmxErrChk_GetTerminalNameWithDevPrefix]
  split
  · rename_i hret
    intro e he
    simp only [ht, List.mem_append] at he
    rcases he with he | he
    · exact hok e he
    · exact hnone hret e he
  · rename_i err name hret
    obtain ⟨_, _, hgood⟩ := hsome err name hret
    split
    · rename_i hf
      exact ⟨by simp only [ht]; exact okButLast_append _ _ hok hb, hf⟩
    · rename_i hf
      simp only [Bool.not_eq_true] at hf
      refine ⟨?_, hf⟩
      intro e he
      simp only [ht, List.mem_append] at he
      rcases he with he | he
      · exact hok e he
      · exact hgood hf e he

theorem SAO_helperStmt_trace (d : Driver) (fuel : Nat) (terminalName : String)
    (s : St SynchAI_AO.Vars) :
    (SynchAI_AO.DAQmxErrChk_GetTerminalNameWithDevPrefix d fuel terminalName s).state.trace
      = (ContinuousAI.GetTerminalNameWithDevPrefix d fuel s.vars.AItaskHandle terminalName
          s.vars.trigName s.trace).trace := by
  simp only [SynchAI_AO.DAQmxErrChk_GetTerminalNameWithDevPrefix, helper_copies_eq]
  split
  · rfl
  · split <;> rfl

theorem SAO_avoids_helperStmt (K : Event → Bool) (hK : ∀ e, e.isQuery = true → K e = false)
    (d : Driver) (fuel : Nat) (terminalName : String) :
    Avoids K (SynchAI_AO.DAQmxErrChk_GetTerminalNameWithDevPrefix d fuel terminalName) := by
  intro s hs e he
  rw [SAO_helperStmt_trace] at he
  obtain ⟨new, ht, hq, _⟩ := helper_tail d fuel s.vars.AItaskHandle terminalName s.vars.trigName s.trace
  rw [ht] at he
  simp only [List.mem_append, List.mem_cons] at he
  rcases he with he | rfl | he
  · exact hs e he
  · exact hK _ rfl
  · exact hK e (hq e he)

theorem SAO_keeps_helperStmt (d : Driver) (fuel : Nat) (terminalName : String) :
    KeepsFailFast (SynchAI_AO.DAQmxErrChk_GetTerminalNameWithDevPrefix d fuel terminalName) := by
  intro s hs
  obtain ⟨hok, _⟩ := hs
  obtain ⟨new, ht, _, hb, hsome, hnone⟩ :=
    helper_tail d fuel s.vars.AItaskHandle terminalName s.vars.trigName s.trace
  simp only [SynchAI_AO.DAQmxErrChk_GetTerminalNameWithDevPrefix, helper_copies_eq]
  split
  · rename_i hret
    intro e he
    simp only [ht, List.mem_append] at he
    rcases he with he | he
    · exact hok e he
    · exact hnone hret e he
  · rename_i err name hret
    obtain ⟨_, _, hgood⟩ := hsome err name hret
    split
    · rename_i hf
      exact ⟨by simp only [ht]; exact okButLast_append _ _ hok hb, hf⟩
    · rename_i hf
      simp only [Bool.not_eq_true] at hf
      refine ⟨?_, hf⟩
      intro e he
      simp only [ht, List.mem_append] at he
      rcases he with he | he
      · exact hok e he
      · exact hgood hf e he

theorem query_not_teardown : ∀ e : Event, e.isQuery = true → e.isTeardown = false := by
  intro e h
  cases e with
  | call c r => cases c <;> first | rfl | simp [Event.isQuery] at h
  | printf t => rfl
  | getchar => rfl

theorem clock_not_teardown : ∀ e : Event, e.isClock = true → e.isTeardown = false := by
  intro e h
  cases e with
  | call c r => cases c <;> first | rfl | simp [Event.isClock] at h
  | printf t => rfl
  | getchar => rfl

theorem CAI_switch_keeps (d : Driver) (fuel synchType : Nat) :
    ∀ stmt ∈ ContinuousAI.main.switch d fuel synchType, KeepsFailFast stmt := by
  unfold ContinuousAI.main.switch
  split <;> simp only [List.forall_mem_cons, List.not_mem_nil, false_implies, implies_true, and_true] <;>
    (try repeat' apply And.intro) <;>
    first
      | exact keeps_errChk _ _ _
      | exact CAI_keeps_helperStmt _ _ _ _ _

theorem CAI_switch_avoids (K : Event → Bool) (hq : ∀ e, e.isQuery = true → K e = false)
    (hc : ∀ e, e.isClock = true → K e = false) (d : Driver) (fuel synchType : Nat) :
    ∀ stmt ∈ ContinuousAI.main.switch d fuel synchType, Avoids K stmt := by
  unfold ContinuousAI.main.switch
  split <;> simp only [List.forall_mem_cons, List.not_mem_nil, false_implies, implies_true, and_true] <;>
    (try repeat' apply And.intro) <;>
    first
      | exact avoids_errChk K _ _ _ (fun _ _ => hc _ rfl)
      | exact CAI_avoids_helperStmt K hq _ _ _ _ _

theorem failFast_okButLast {V : Type} (f : Flow V) (h : f.failFast) : okButLast f.state.trace = true := by
  cases f with
  | next s => exact okButLast_of_ok _ h.1
  | Error s => exact h.1
  | hang s => exact okButLast_of_ok _ h

theorem singleTaskCleanup_tail (d : Driver) (s : St TaskVars) :
    ∃ cl, (singleTaskCleanup d s).trace = s.trace ++ cl ∧
      ∀ e ∈ cl, e.isTeardown = true ∨ e.isCall = false := by
  simp only [singleTaskCleanup, call, emit, keep]
  split_ifs <;> refine ⟨_, by simp only [List.append_assoc]; rfl, ?_⟩ <;>
    simp [Event.isTeardown, Event.isCall]

theorem CAI_cleanup_tail (d : Driver) (s : St ContinuousAI.Vars) :
    ∃ cl, (ContinuousAI.main.cleanup d s).trace = s.trace ++ cl ∧
      ∀ e ∈ cl, e.isTeardown = true ∨ e.isCall = false := by
  simp only [ContinuousAI.main.cleanup, call, emit, keep]
  split_ifs <;> refine ⟨_, by simp only [List.append_assoc]; rfl, ?_⟩ <;>
    simp [Event.isTeardown, Event.isCall]

theorem SAO_cleanup_tail (d : Driver) (s : St SynchAI_AO.Vars) :
    ∃ cl, (SynchAI_AO.main.cleanup d s).trace = s.trace ++ cl ∧
      ∀ e ∈ cl, e.isTeardown = true ∨ e.isCall = false := by
  simp only [SynchAI_AO.main.cleanup, call, emit, keep]
  split_ifs <;> refine ⟨_, by simp only [List.append_assoc]; rfl, ?_⟩ <;>
    simp [Event.isTeardown, Event.isCall]

theorem failFastRun_of {V : Type} (cleanup : St V → St V) (stmts : List (Stmt V)) (s0 : St V)
    (h0 : s0.trace = []) (he : DAQmxFailed s0.error = false)
    (hk : ∀ stmt ∈ stmts, KeepsFailFast stmt) (ha : ∀ stmt ∈ stmts, Avoids Event.isTeardown stmt)
    (hc : ∀ s, ∃ cl, (cleanup s).trace = s.trace ++ cl ∧
      ∀ e ∈ cl, e.isTeardown = true ∨ e.isCall = false) :
    FailFastRun (run stmts s0) (atError cleanup (run stmts s0)) := by
  have hff : (run stmts s0).failFast :=
    keeps_run stmts hk s0 ⟨by simp [h0], he⟩
  refine ⟨failFast_okButLast _ hff, avoids_run _ stmts ha s0 (by simp [h0]), ?_⟩
  cases run stmts s0 with
  | next s => exact hc s
  | Error s => exact hc s
  | hang s => exact ⟨[], by simp [atError, Flow.state]⟩

theorem SWTimed_loop_keeps (d : Driver) (data : List float64) :
    ∀ fuel i, KeepsFailFast (MultVoltUpdates_SWTimed.main.loop d data fuel i) := by
  intro fuel
  induction fuel with
  | zero => intro i s hs; exact hs.1
  | succ f ih =>
    intro i s hs
    have h := keeps_errChk d (fun v : TaskVars => Call.DAQmxWriteAnalogScalarF64 v.taskHandle 1 f64_10
      (data.getD i ⟨0⟩)) keep s hs
    simp only [MultVoltUpdates_SWTimed.main.loop]
    cases hr : DAQmxErrChk d (fun v : TaskVars => Call.DAQmxWriteAnalogScalarF64 v.taskHandle 1 f64_10
      (data.getD i ⟨0⟩)) keep s with
    | next s1 => rw [hr] at h; exact ih _ s1 h
    | Error s1 => rw [hr] at h; exact h
    | hang s1 => rw [hr] at h; exact h

theorem SWTimed_loop_avoids (K : Event → Bool)
    (hK : ∀ h a t v r, K (Event.call (Call.DAQmxWriteAnalogScalarF64 h a t v) r) = false)
    (d : Driver) (data : List float64) :
    ∀ fuel i, Avoids K (MultVoltUpdates_SWTimed.main.loop d data fuel i) := by
  intro fuel
  induction fuel with
  | zero => intro i s hs; exact hs
  | succ f ih =>
    intro i s hs
    have h := avoids_errChk K d (fun v : TaskVars => Call.DAQmxWriteAnalogScalarF64 v.taskHandle 1 f64_10
      (data.getD i ⟨0⟩)) keep (fun _ _ => hK _ _ _ _ _) s hs
    simp only [MultVoltUpdates_SWTimed.main.loop]
    cases hr : DAQmxErrChk d (fun v : TaskVars => Call.DAQmxWriteAnalogScalarF64 v.taskHandle 1 f64_10
      (data.getD i ⟨0⟩)) keep s with
    | next s1 => rw [hr] at h; exact ih _ s1 h
    | Error s1 => rw [hr] at h; exact h
    | hang s1 => rw [hr] at h; exact h

theorem CAI_body_keeps (d : Driver) (fuel synchType : Nat) :
    ∀ stmt ∈ ContinuousAI.main.body d fuel synchType, KeepsFailFast stmt := by
  simp only [ContinuousAI.main.body, ContinuousAI.main.create, ContinuousAI.main.trigger,
    ContinuousAI.main.start, List.forall_mem_append, List.forall_mem_cons, List.not_mem_nil,
    false_implies, implies_true, and_true]
  repeat' apply And.intro
  all_goals first
    | exact keeps_errChk _ _ _
    | exact keeps_printf _
    | exact keeps_getchar
    | exact CAI_keeps_helperStmt _ _ _ _ _
    | exact keeps_run _ (CAI_switch_keeps _ _ _)

theorem CAI_body_no_teardown (d : Driver) (fuel synchType : Nat) :
    ∀ stmt ∈ ContinuousAI.main.body d fuel synchType, Avoids Event.isTeardown stmt := by
  simp only [ContinuousAI.main.body, ContinuousAI.main.create, ContinuousAI.main.trigger,
    ContinuousAI.main.start, List.forall_mem_append, List.forall_mem_cons, List.not_mem_nil,
    false_implies, implies_true, and_true]
  repeat' apply And.intro
  all_goals first
    | exact avoids_errChk _ _ _ _ (fun _ _ => rfl)
    | exact avoids_printf _ _ (fun _ => rfl)
    | exact avoids_getchar _ rfl
    | exact CAI_avoids_helperStmt _ query_not_teardown _ _ _ _ _
    | exact avoids_run _ _ (CAI_switch_avoids _ query_not_teardown clock_not_teardown _ _ _)

theorem SAO_body_keeps (d : Driver) (fuel : Nat) :
    ∀ stmt ∈ SynchAI_AO.main.body d fuel, KeepsFailFast stmt := by
  simp only [SynchAI_AO.main.body, SynchAI_AO.main.configure, SynchAI_AO.main.start,
    List.forall_mem_append, List.forall_mem_cons, List.not_mem_nil,
    false_implies, implies_true, and_true]
  repeat' apply And.intro
  all_goals first
    | exact keeps_errChk _ _ _
    | exact keeps_printf _
    | exact keeps_getchar
    | exact SAO_keeps_helperStmt _ _ _

theorem SAO_body_no_teardown (d : Driver) (fuel : Nat) :
    ∀ stmt ∈ SynchAI_AO.main.body d fuel, Avoids Event.isTeardown stmt := by
  simp only [SynchAI_AO.main.body, SynchAI_AO.main.configure, SynchAI_AO.main.start,
    List.forall_mem_append, List.forall_mem_cons, List.not_mem_nil,
    false_implies, implies_true, and_true]
  repeat' apply And.intro
  all_goals first
    | exact avoids_errChk _ _ _ _ (fun _ _ => rfl)
    | exact avoids_printf _ _ (fun _ => rfl)
    | exact avoids_getchar _ rfl
    | exact SAO_avoids_helperStmt _ query_not_teardown _ _ _

theorem singleTask_bodies_keep (d : Driver) (fuel : Nat) (data : List float64) :
    (∀ stmt ∈ Acq_IntClk.main.body d, KeepsFailFast stmt) ∧
    (∀ stmt ∈ WriteDigChan.main.body d, KeepsFailFast stmt) ∧
    (∀ stmt ∈ DigPulse.main.body d, KeepsFailFast stmt) ∧
    (∀ stmt ∈ ContGen_ExtClk_DigStart.main.body d data, KeepsFailFast stmt) ∧
    (∀ stmt ∈ MultVoltUpdates_IntClk_Retrig.main.body d data, KeepsFailFast stmt) ∧
    (∀ stmt ∈ MultVoltUpdates_SWTimed.main.body d fuel data, KeepsFailFast stmt) := by
  simp only [Acq_IntClk.main.body, WriteDigChan.main.body, DigPulse.main.body,
    ContGen_ExtClk_DigStart.main.body, MultVoltUpdates_IntClk_Retrig.main.body,
    MultVoltUpdates_SWTimed.main.body, List.forall_mem_cons, List.not_mem_nil,
    false_implies, implies_true, and_true]
  repeat' apply And.intro
  all_goals first
    | exact keeps_errChk _ _ _
    | exact keeps_printf _
    | exact keeps_getchar
    | exact SWTimed_loop_keeps _ _ _ _

theorem singleTask_bodies_no_teardown (d : Driver) (fuel : Nat) (data : List float64) :
    (∀ stmt ∈ Acq_IntClk.main.body d, Avoids Event.isTeardown stmt) ∧
    (∀ stmt ∈ WriteDigChan.main.body d, Avoids Event.isTeardown stmt) ∧
    (∀ stmt ∈ DigPulse.main.body d, Avoids Event.isTeardown stmt) ∧
    (∀ stmt ∈ ContGen_ExtClk_DigStart.main.body d data, Avoids Event.isTeardown stmt) ∧
    (∀ stmt ∈ MultVoltUpdates_IntClk_Retrig.main.body d data, Avoids Event.isTeardown stmt) ∧
    (∀ stmt ∈ MultVoltUpdates_SWTimed.main.body d fuel data, Avoids Event.isTeardown stmt) := by
  simp only [Acq_IntClk.main.body, WriteDigChan.main.body, DigPulse.main.body,
    ContGen_ExtClk_DigStart.main.body, MultVoltUpdates_IntClk_Retrig.main.body,
    MultVoltUpdates_SWTimed.main.body, List.forall_mem_cons, List.not_mem_nil,
    false_implies, implies_true, and_true]
  repeat' apply And.intro
  all_goals first
    | exact avoids_errChk _ _ _ _ (fun _ _ => rfl)
    | exact avoids_printf _ _ (fun _ => rfl)
    | exact avoids_getchar _ rfl
    | exact SWTimed_loop_avoids _ (fun _ _ _ _ _ => rfl) _ _ _ _

/-- C10: in every example's `main`, up to the label `Error` only the last event can be
a failing driver call (so nothing of the sequence follows the first failure), and
from the label on the only driver calls are `DAQmxGetExtendedErrorInfo`,
`DAQmxStopTask` and `DAQmxClearTask`, none of which occurs before the label (so the
failed call is not issued again). -/
theorem C10_fail_fast (d : Driver) (fuel synchType : Nat) (stackC : ContinuousAI.Vars)
    (stackS : SynchAI_AO.Vars) (data : List float64) :
    FailFastRun (ContinuousAI.main.config d fuel synchType stackC)
      (ContinuousAI.main d fuel synchType stackC) ∧
    FailFastRun (SynchAI_AO.main.config d fuel stackS) (SynchAI_AO.main d fuel stackS) ∧
    FailFastRun (Acq_IntClk.main.config d) (Acq_IntClk.main d) ∧
    FailFastRun (WriteDigChan.main.config d) (WriteDigChan.main d) ∧
    FailFastRun (DigPulse.main.config d) (DigPulse.main d) ∧
    FailFastRun (ContGen_ExtClk_DigStart.main.config d data) (ContGen_ExtClk_DigStart.main d data) ∧
    FailFastRun (MultVoltUpdates_IntClk_Retrig.main.config d data)
      (MultVoltUpdates_IntClk_Retrig.main d data) ∧
    FailFastRun (MultVoltUpdates_SWTimed.main.config d fuel data)
      (MultVoltUpdates_SWTimed.main d fuel data) := by
  obtain ⟨k1, k2, k3, k4, k5, k6⟩ := singleTask_bodies_keep d fuel data
  obtain ⟨a1, a2, a3, a4, a5, a6⟩ := singleTask_bodies_no_teardown d fuel data
  exact ⟨failFastRun_of _ _ _ rfl rfl (CAI_body_keeps d fuel synchType)
      (CAI_body_no_teardown d fuel synchType) (CAI_cleanup_tail d),
    failFastRun_of _ _ _ rfl rfl (SAO_body_keeps d fuel)
      (SAO_body_no_teardown d fuel) (SAO_cleanup_tail d),
    failFastRun_of _ _ _ rfl rfl k1 a1 (singleTaskCleanup_tail d),
    failFastRun_of _ _ _ rfl rfl k2 a2 (singleTaskCleanup_tail d),
    failFastRun_of _ _ _ rfl rfl k3 a3 (singleTaskCleanup_tail d),
    failFastRun_of _ _ _ rfl rfl k4 a4 (singleTaskCleanup_tail d),
    failFastRun_of _ _ _ rfl rfl k5 a5 (singleTaskCleanup_tail d),
    failFastRun_of _ _ _ rfl rfl k6 a6 (singleTaskCleanup_tail d)⟩

theorem starts_nil_of (l : List Event) (h : ∀ e ∈ l, e.isStart = false) : starts l = [] := by
  induction l with
  | nil => rfl
  | cons a l ih =>
    have ha := h a (List.mem_cons_self _ _)
    have ih2 := ih (fun e he => h e (List.mem_cons_of_mem _ he))
    simp only [starts] at ih2 ⊢
    cases hso : startOf a with
    | none => simp [List.filterMap_cons, hso, ih2]
    | some b => simp [Event.isStart, hso] at ha

theorem query_not_start : ∀ e : Event, e.isQuery = true → e.isStart = false := by
  intro e h
  cases e with
  | call c r => cases c <;> first | rfl | simp [Event.isQuery] at h
  | printf t => rfl
  | getchar => rfl

theorem clock_not_start : ∀ e : Event, e.isClock = true → e.isStart = false := by
  intro e h
  cases e with
  | call c r => cases c <;> first | rfl | simp [Event.isClock] at h
  | printf t => rfl
  | getchar => rfl

theorem cleanup_not_start (cl : List Event) (h : ∀ e ∈ cl, e.isTeardown = true ∨ e.isCall = false) :
    ∀ e ∈ cl, e.isStart = false := by
  intro e he
  rcases h e he with h1 | h1
  · cases e with
    | call c r => cases c <;> first | rfl | simp [Event.isTeardown] at h1
    | printf t => rfl
    | getchar => rfl
  · cases e with
    | call c r => simp [Event.isCall] at h1
    | printf t => rfl
    | getchar => rfl

theorem CAI_pre_no_start (d : Driver) (fuel synchType : Nat) :
    ∀ stmt ∈ ContinuousAI.main.create d ++ [run (ContinuousAI.main.switch d fuel synchType)] ++
      ContinuousAI.main.trigger d fuel, Avoids Event.isStart stmt := by
  simp only [ContinuousAI.main.create, ContinuousAI.main.trigger,
    List.forall_mem_append, List.forall_mem_cons, List.not_mem_nil,
    false_implies, implies_true, and_true]
  repeat' apply And.intro
  all_goals first
    | exact avoids_errChk _ _ _ _ (fun _ _ => rfl)
    | exact CAI_avoids_helperStmt _ query_not_start _ _ _ _ _
    | exact avoids_run _ _ (CAI_switch_avoids _ query_not_start clock_not_start _ _ _)

theorem CAI_config_eq (d : Driver) (fuel synchType : Nat) (stack : ContinuousAI.Vars) :
    ContinuousAI.main.config d fuel synchType stack =
      (run (ContinuousAI.main.create d ++ [run (ContinuousAI.main.switch d fuel synchType)] ++
        ContinuousAI.main.trigger d fuel) (ContinuousAI.main.entry stack)).andThen
        (run (ContinuousAI.main.start d)) := by
  simp only [ContinuousAI.main.config, ContinuousAI.main.body]
  rw [run_append]

theorem CAI_starts_cleanup (d : Driver) (s : St ContinuousAI.Vars) :
    starts (ContinuousAI.main.cleanup d s).trace = starts s.trace := by
  obtain ⟨cl, hcl, hcl2⟩ := CAI_cleanup_tail d s
  have h2 := starts_nil_of _ (cleanup_not_start cl hcl2)
  simp only [starts] at h2
  simp only [hcl, starts, List.filterMap_append, h2, List.append_nil]

theorem CAI_start_order (d : Driver) (fuel synchType : Nat) (stack : ContinuousAI.Vars) :
    StartOrder (ContinuousAI.main.config d fuel synchType stack).state.vars.slaveTaskHandle
      (ContinuousAI.main.config d fuel synchType stack).state.vars.masterTaskHandle
      (ContinuousAI.main d fuel synchType stack).final.trace := by
  have hpre := avoids_run _ _ (CAI_pre_no_start d fuel synchType) (ContinuousAI.main.entry stack)
    (by simp [ContinuousAI.main.entry])
  simp only [ContinuousAI.main]
  rw [CAI_config_eq]
  cases hr : run (ContinuousAI.main.create d ++ [run (ContinuousAI.main.switch d fuel synchType)] ++
      ContinuousAI.main.trigger d fuel) (ContinuousAI.main.entry stack) with
  | hang s =>
    rw [hr] at hpre
    left
    exact starts_nil_of _ hpre
  | Error s =>
    rw [hr] at hpre
    left
    simp only [Flow.andThen, atError, CAI_starts_cleanup]
    exact starts_nil_of _ hpre
  | next s =>
    rw [hr] at hpre
    have h1 := starts_nil_of _ hpre
    simp only [starts, Flow.state] at h1
    simp only [Flow.andThen, ContinuousAI.main.start, run, DAQmxErrChk, keep, printf, getchar, emit]
    by_cases hf1 : DAQmxFailed (d s.trace (Call.DAQmxStartTask s.vars.slaveTaskHandle)).status = true
    · right; left
      simp only [hf1, if_true, atError, Flow.state, CAI_starts_cleanup]
      simp [starts, List.filterMap_append, h1, startOf, hf1]
    · right; right
      simp only [Bool.not_eq_true] at hf1
      simp only [hf1, Bool.false_eq_true, if_false]
      by_cases hf2 : DAQmxFailed (d (s.trace ++ [Event.call (Call.DAQmxStartTask s.vars.slaveTaskHandle)
            (d s.trace (Call.DAQmxStartTask s.vars.slaveTaskHandle))])
            (Call.DAQmxStartTask s.vars.masterTaskHandle)).status = true
      · simp only [hf2, if_true, atError, Flow.state, CAI_starts_cleanup]
        simp [starts, List.filterMap_append, h1, startOf, hf1]
      · simp only [Bool.not_eq_true] at hf2
        simp only [hf2, Bool.false_eq_true, if_false, atError, Flow.state, CAI_starts_cleanup]
        simp [starts, List.filterMap_append, h1, startOf, hf1]

theorem SAO_pre_no_start (d : Driver) (fuel : Nat) :
    ∀ stmt ∈ SynchAI_AO.main.configure d fuel, Avoids Event.isStart stmt := by
  simp only [SynchAI_AO.main.configure, List.forall_mem_cons, List.not_mem_nil,
    false_implies, implies_true, and_true]
  repeat' apply And.intro
  all_goals first
    | exact avoids_errChk _ _ _ _ (fun _ _ => rfl)
    | exact SAO_avoids_helperStmt _ query_not_start _ _ _

theorem SAO_starts_cleanup (d : Driver) (s : St SynchAI_AO.Vars) :
    starts (SynchAI_AO.main.cleanup d s).trace = starts s.trace := by
  obtain ⟨cl, hcl, hcl2⟩ := SAO_cleanup_tail d s
  have h2 := starts_nil_of _ (cleanup_not_start cl hcl2)
  simp only [starts] at h2
  simp only [hcl, starts, List.filterMap_append, h2, List.append_nil]

theorem SAO_start_order (d : Driver) (fuel : Nat) (stack : SynchAI_AO.Vars) :
    StartOrder (SynchAI_AO.main.config d fuel stack).state.vars.AOtaskHandle
      (SynchAI_AO.main.config d fuel stack).state.vars.AItaskHandle
      (SynchAI_AO.main d fuel stack).final.trace := by
  have hpre := avoids_run _ _ (SAO_pre_no_start d fuel) (SynchAI_AO.main.entry stack)
    (by simp [SynchAI_AO.main.entry])
  simp only [SynchAI_AO.main, SynchAI_AO.main.config, SynchAI_AO.main.body]
  rw [run_append]
  cases hr : run (SynchAI_AO.main.configure d fuel) (SynchAI_AO.main.entry stack) with
  | hang s =>
    rw [hr] at hpre
    left
    exact starts_nil_of _ hpre
  | Error s =>
    rw [hr] at hpre
    left
    simp only [Flow.andThen, atError, SAO_starts_cleanup]
    exact starts_nil_of _ hpre
  | next s =>
    rw [hr] at hpre
    have h1 := starts_nil_of _ hpre
    simp only [starts, Flow.state] at h1
    simp only [Flow.andThen, SynchAI_AO.main.start, run, DAQmxErrChk, keep, printf, getchar, emit]
    by_cases hf1 : DAQmxFailed (d s.trace (Call.DAQmxStartTask s.vars.AOtaskHandle)).status = true
    · right; left
      simp only [hf1, if_true, atError, Flow.state, SAO_starts_cleanup]
      simp [starts, List.filterMap_append, h1, startOf, hf1]
    · right; right
      simp only [Bool.not_eq_true] at hf1
      simp only [hf1, Bool.false_eq_true, if_false]
      by_cases hf2 : DAQmxFailed (d (s.trace ++ [Event.call (Call.DAQmxStartTask s.vars.AOtaskHandle)
            (d s.trace (Call.DAQmxStartTask s.vars.AOtaskHandle))])
            (Call.DAQmxStartTask s.vars.AItaskHandle)).status = true
      · simp only [hf2, if_true, atError, Flow.state, SAO_starts_cleanup]
        simp [starts, List.filterMap_append, h1, startOf, hf1]
      · simp only [Bool.not_eq_true] at hf2
        simp only [hf2, Bool.false_eq_true, if_false, atError, Flow.state, SAO_starts_cleanup]
        simp [starts, List.filterMap_append, h1, startOf, hf1]

/-- C5: in every run of `main` of `ContinuousAI.c` and of `SynchAI-AO.c` the
`DAQmxStartTask` calls are: none, or one failed start of the trigger consumer (slave,
resp. AO task), or a successful start of the consumer followed by the start of the
trigger source (master, resp. AI task).  The source is never started first, nor after
a failed or missing start of the consumer. -/
theorem C5_start_order (d : Driver) (fuel synchType : Nat) (stackC : ContinuousAI.Vars)
    (stackS : SynchAI_AO.Vars) :
    StartOrder (ContinuousAI.main.config d fuel synchType stackC).state.vars.slaveTaskHandle
      (ContinuousAI.main.config d fuel synchType stackC).state.vars.masterTaskHandle
      (ContinuousAI.main d fuel synchType stackC).final.trace ∧
    StartOrder (SynchAI_AO.main.config d fuel stackS).state.vars.AOtaskHandle
      (SynchAI_AO.main.config d fuel stackS).state.vars.AItaskHandle
      (SynchAI_AO.main d fuel stackS).final.trace :=
  ⟨CAI_start_order d fuel synchType stackC, SAO_start_order d fuel stackS⟩

theorem loop_terminates (d : Driver) (taskHandle : TaskHandle) (terminalName : String) (n : Nat)
    (hn : n < UINT32_MAX) :
    ∀ (fuel i : Nat) (error : Int) (buf : String) (tr : List Event), n + 1 ≤ fuel + i →
      (ContinuousAI.GetTerminalNameWithDevPrefix.loop d taskHandle terminalName n fuel i error
        buf tr).ret ≠ none := by
  intro fuel
  induction fuel with
  | zero =>
    intro i error buf tr h
    rw [ContinuousAI.GetTerminalNameWithDevPrefix.loop]
    simp [show ¬ i ≤ n by omega]
  | succ f ih =>
    intro i error buf tr h
    rw [ContinuousAI.GetTerminalNameWithDevPrefix.loop]
    by_cases hi : i ≤ n
    · have hwrap : (i + 1) % (UINT32_MAX + 1) = i + 1 := by
        apply Nat.mod_eq_of_lt; omega
      simp only [hi, if_true, hwrap]
      split
      · simp
      · split
        · simp
        · split
          · simp
          · exact ih _ _ _ _ (by omega)
    · simp [hi]

theorem helper_terminates (d : Driver) (fuel : Nat) (taskHandle : TaskHandle)
    (terminalName buf : String) (tr : List Event) (hb : BoundedDevices d fuel) :
    (ContinuousAI.GetTerminalNameWithDevPrefix d fuel taskHandle terminalName buf tr).ret ≠ none := by
  simp only [ContinuousAI.GetTerminalNameWithDevPrefix]
  split
  · simp
  · exact loop_terminates d taskHandle terminalName _ (hb tr taskHandle).1 fuel 1 _ _ _
      (by have := (hb tr taskHandle).2; omega)

theorem frame_run {V α : Type} (g : V → α) (K : Event → Bool) (stmts : List (Stmt V))
    (h : ∀ stmt ∈ stmts, Frame g K stmt) : Frame g K (run stmts) := by
  intro s
  refine run_induct (fun f => g f.state.vars = g s.vars ∧
      ∃ new, f.state.trace = s.trace ++ new ∧ ∀ e ∈ new, K e = false) stmts s
    ⟨rfl, [], by simp [Flow.state], by simp⟩ ?_
  intro stmt hm s1 h1
  obtain ⟨hg, new, ht, hk⟩ := h1
  obtain ⟨hg2, new2, ht2, hk2⟩ := h stmt hm s1
  simp only [Flow.state] at hg ht
  refine ⟨hg2.trans hg, new ++ new2, by rw [ht2, ht, List.append_assoc], ?_⟩
  intro e he
  rcases List.mem_append.mp he with he | he
  · exact hk e he
  · exact hk2 e he

theorem frame_errChk {V α : Type} (g : V → α) (K : Event → Bool) (d : Driver) (c : V → Call)
    (store : Reply → V → V) (hg : ∀ r v, g (store r v) = g v)
    (h : ∀ v r, K (Event.call (c v) r) = false) : Frame g K (DAQmxErrChk d c store) := by
  intro s
  simp only [DAQmxErrChk]
  split <;> exact ⟨hg _ _, [_], rfl, by simp [h]⟩

theorem frame_printf {V α : Type} (g : V → α) (K : Event → Bool) (text : V → String)
    (h : ∀ t, K (Event.printf t) = false) : Frame g K (printf text) := by
  intro s
  exact ⟨rfl, [_], rfl, by simp [h]⟩

theorem frame_getchar {V α : Type} (g : V → α) (K : Event → Bool) (h : K Event.getchar = false) :
    Frame g K (getchar : Stmt V) := by
  intro s
  exact ⟨rfl, [_], rfl, by simp [h]⟩

theorem CAI_frame_helperStmt {α : Type} (g : ContinuousAI.Vars → α) (K : Event → Bool)
    (hK : ∀ e, e.isQuery = true → K e = false)
    (d : Driver) (fuel : Nat) (terminalName : String)
    (buffer : ContinuousAI.Vars → String) (store : String → ContinuousAI.Vars → ContinuousAI.Vars)
    (hg : ∀ n v, g (store n v) = g v) :
    Frame g K (ContinuousAI.DAQmxErrChk_GetTerminalNameWithDevPrefix d fuel terminalName buffer store) := by
  intro s
  obtain ⟨new, ht, hq, _⟩ := helper_tail d fuel s.vars.masterTaskHandle terminalName (buffer s.vars) s.trace
  refine ⟨?_, _ :: new, by rw [CAI_helperStmt_trace, ht], ?_⟩
  · simp only [ContinuousAI.DAQmxErrChk_GetTerminalNameWithDevPrefix]
    split
    · rfl
    · split <;> exact hg _ _
  · intro e he
    rcases List.mem_cons.mp he with rfl | he
    · exact hK _ rfl
    · exact hK e (hq e he)

theorem SAO_frame_helperStmt {α : Type} (g : SynchAI_AO.Vars → α) (K : Event → Bool)
    (hK : ∀ e, e.isQuery = true → K e = false)
    (d : Driver) (fuel : Nat) (terminalName : String)
    (hg : ∀ n v, g ({ v with trigName := n } : SynchAI_AO.Vars) = g v) :
    Frame g K (SynchAI_AO.DAQmxErrChk_GetTerminalNameWithDevPrefix d fuel terminalName) := by
  intro s
  obtain ⟨new, ht, hq, _⟩ := helper_tail d fuel s.vars.AItaskHandle terminalName s.vars.trigName s.trace
  refine ⟨?_, _ :: new, by rw [SAO_helperStmt_trace, ht], ?_⟩
  · simp only [SynchAI_AO.DAQmxErrChk_GetTerminalNameWithDevPrefix]
    split
    · rfl
    · split <;> exact hg _ _
  · intro e he
    rcases List.mem_cons.mp he with rfl | he
    · exact hK _ rfl
    · exact hK e (hq e he)

theorem nohang_run {V : Type} (stmts : List (Stmt V)) (h : ∀ stmt ∈ stmts, NoHang stmt) :
    NoHang (run stmts) := by
  intro s
  exact run_induct (fun f => ∀ s1, f ≠ .hang s1) stmts s (fun s1 h1 => by simp at h1)
    (fun stmt hm s1 _ => h stmt hm s1)

theorem nohang_errChk {V : Type} (d : Driver) (c : V → Call) (store : Reply → V → V) :
    NoHang (DAQmxErrChk d c store) := by
  intro s s1
  simp only [DAQmxErrChk]
  split <;> simp

theorem nohang_printf {V : Type} (text : V → String) : NoHang (printf text) := by
  intro s s1
  simp [printf]

theorem nohang_getchar {V : Type} : NoHang (getchar : Stmt V) := by
  intro s s1
  simp [getchar]

theorem CAI_nohang_helperStmt (d : Driver) (fuel : Nat) (hb : BoundedDevices d fuel)
    (terminalName : String)
    (buffer : ContinuousAI.Vars → String) (store : String → ContinuousAI.Vars → ContinuousAI.Vars) :
    NoHang (ContinuousAI.DAQmxErrChk_GetTerminalNameWithDevPrefix d fuel terminalName buffer store) := by
  intro s s1
  have ht := helper_terminates d fuel s.vars.masterTaskHandle terminalName (buffer s.vars) s.trace hb
  simp only [ContinuousAI.DAQmxErrChk_GetTerminalNameWithDevPrefix]
  split
  · rename_i hret
    exact absurd hret ht
  · split <;> simp

theorem SAO_nohang_helperStmt (d : Driver) (fuel : Nat) (hb : BoundedDevices d fuel)
    (terminalName : String) :
    NoHang (SynchAI_AO.DAQmxErrChk_GetTerminalNameWithDevPrefix d fuel terminalName) := by
  intro s s1
  have ht := helper_terminates d fuel s.vars.AItaskHandle terminalName s.vars.trigName s.trace hb
  simp only [SynchAI_AO.DAQmxErrChk_GetTerminalNameWithDevPrefix, helper_copies_eq]
  split
  · rename_i hret
    exact absurd hret ht
  · split <;> simp

theorem lifecycle_free (new : List Event) (h : ∀ e ∈ new, e.isLifecycle = false) :
    created new = [] ∧ teardowns new = [] := by
  induction new with
  | nil => exact ⟨rfl, rfl⟩
  | cons a l ih =>
    obtain ⟨h1, h2⟩ := ih (fun e he => h e (List.mem_cons_of_mem _ he))
    have ha := h a (List.mem_cons_self _ _)
    simp only [created, teardowns] at h1 h2 ⊢
    cases a with
    | call c r =>
      cases c <;> first
        | (simp [List.filterMap_cons, createdOf, teardownOf, h1, h2]; done)
        | simp [Event.isLifecycle] at ha
    | printf t => simp [List.filterMap_cons, createdOf, teardownOf, h1, h2]
    | getchar => simp [List.filterMap_cons, createdOf, teardownOf, h1, h2]

theorem query_not_lifecycle : ∀ e : Event, e.isQuery = true → e.isLifecycle = false := by
  intro e h
  cases e with
  | call c r => cases c <;> first | rfl | simp [Event.isQuery] at h
  | printf t => rfl
  | getchar => rfl

theorem clock_not_lifecycle : ∀ e : Event, e.isClock = true → e.isLifecycle = false := by
  intro e h
  cases e with
  | call c r => cases c <;> first | rfl | simp [Event.isClock] at h
  | printf t => rfl
  | getchar => rfl


theorem created_append (a b : List Event) : created (a ++ b) = created a ++ created b := by
  simp [created, List.filterMap_append]

theorem teardowns_append (a b : List Event) : teardowns (a ++ b) = teardowns a ++ teardowns b := by
  simp [teardowns, List.filterMap_append]

theorem frame_lifecycle {V α : Type} (g : V → α) (stmt : Stmt V)
    (hf : Frame g Event.isLifecycle stmt) (s : St V) :
    g (stmt s).state.vars = g s.vars ∧ created (stmt s).state.trace = created s.trace ∧
      teardowns (stmt s).state.trace = teardowns s.trace := by
  obtain ⟨hg, new, ht, hk⟩ := hf s
  obtain ⟨h1, h2⟩ := lifecycle_free new hk
  exact ⟨hg, by rw [ht, created_append, h1, List.append_nil],
    by rw [ht, teardowns_append, h2, List.append_nil]⟩

theorem create_step {V : Type} (d : Driver) (hd : HandleDiscipline d) (store : Reply → V → V) (s : St V) :
    (DAQmxErrChk d (fun _ => Call.DAQmxCreateTask "") store s).state.vars
        = store (d s.trace (.DAQmxCreateTask "")) s.vars ∧
    created (DAQmxErrChk d (fun _ => Call.DAQmxCreateTask "") store s).state.trace
        = created s.trace ++ [(d s.trace (.DAQmxCreateTask "")).taskHandle].filter (fun h => h != 0) ∧
    teardowns (DAQmxErrChk d (fun _ => Call.DAQmxCreateTask "") store s).state.trace
        = teardowns s.trace := by
  obtain ⟨h0, h1⟩ := hd s.trace ""
  simp only [DAQmxErrChk]
  split
  · rename_i hf
    simp [Flow.state, created_append, teardowns_append, created, teardowns, createdOf, teardownOf,
      hf, h0 hf]
  · rename_i hf
    simp only [Bool.not_eq_true] at hf
    simp [Flow.state, created_append, teardowns_append, created, teardowns, createdOf, teardownOf,
      hf, h1 hf]

theorem andThen_state {V : Type} (Q : St V → Prop) (f : Flow V) (k : St V → Flow V)
    (hq : ∀ s, f = .next s → Q (k s).state) (hp : (∀ s, f ≠ .next s) → Q f.state) :
    Q (f.andThen k).state := by
  cases f with
  | next s => exact hq s rfl
  | Error s => exact hp (fun s1 h => by simp at h)
  | hang s => exact hp (fun s1 h => by simp at h)

theorem run_singleton {V : Type} (stmt : Stmt V) (s : St V) : run [stmt] s = stmt s := by
  simp only [run]
  cases stmt s <;> rfl

theorem CAI_cleanup_spec (d : Driver) (s : St ContinuousAI.Vars) :
    created (ContinuousAI.main.cleanup d s).trace = created s.trace ∧
    teardowns (ContinuousAI.main.cleanup d s).trace = teardowns s.trace ++
      stopThenClear ([s.vars.masterTaskHandle, s.vars.slaveTaskHandle].filter (fun h => h != 0)) := by
  simp only [ContinuousAI.main.cleanup, call, emit, keep]
  split_ifs <;>
    simp_all [created, teardowns, createdOf, teardownOf, List.filterMap_append, stopThenClear,
      List.filter_cons, bne_iff_ne]

theorem CAI_rest_frame (d : Driver) (fuel synchType : Nat) :
    ∀ stmt ∈ [run (ContinuousAI.main.switch d fuel synchType)] ++ ContinuousAI.main.trigger d fuel ++
      ContinuousAI.main.start d,
      Frame (fun v : ContinuousAI.Vars => (v.masterTaskHandle, v.slaveTaskHandle)) Event.isLifecycle stmt := by
  have hsw : ∀ stmt ∈ ContinuousAI.main.switch d fuel synchType,
      Frame (fun v : ContinuousAI.Vars => (v.masterTaskHandle, v.slaveTaskHandle)) Event.isLifecycle stmt := by
    unfold ContinuousAI.main.switch
    split <;> simp only [List.forall_mem_cons, List.not_mem_nil, false_implies, implies_true, and_true] <;>
      (try repeat' apply And.intro) <;>
      first
        | exact frame_errChk _ _ _ _ _ (fun _ _ => rfl) (fun _ _ => rfl)
        | exact CAI_frame_helperStmt _ _ query_not_lifecycle _ _ _ _ _ (fun _ _ => rfl)
  simp only [ContinuousAI.main.trigger, ContinuousAI.main.start,
    List.forall_mem_append, List.forall_mem_cons, List.not_mem_nil,
    false_implies, implies_true, and_true]
  repeat' apply And.intro
  all_goals first
    | exact frame_errChk _ _ _ _ _ (fun _ _ => rfl) (fun _ _ => rfl)
    | exact frame_printf _ _ _ (fun _ => rfl)
    | exact frame_getchar _ _ rfl
    | exact CAI_frame_helperStmt _ _ query_not_lifecycle _ _ _ _ _ (fun _ _ => rfl)
    | exact frame_run _ _ _ hsw

theorem CAI_body_nohang (d : Driver) (fuel synchType : Nat) (hb : BoundedDevices d fuel) :
    ∀ stmt ∈ ContinuousAI.main.body d fuel synchType, NoHang stmt := by
  have hsw : ∀ stmt ∈ ContinuousAI.main.switch d fuel synchType, NoHang stmt := by
    unfold ContinuousAI.main.switch
    split <;> simp only [List.forall_mem_cons, List.not_mem_nil, false_implies, implies_true, and_true] <;>
      (try repeat' apply And.intro) <;>
      first
        | exact nohang_errChk _ _ _
        | exact CAI_nohang_helperStmt _ _ hb _ _ _
  simp only [ContinuousAI.main.body, ContinuousAI.main.create, ContinuousAI.main.trigger,
    ContinuousAI.main.start, List.forall_mem_append, List.forall_mem_cons, List.not_mem_nil,
    false_implies, implies_true, and_true]
  repeat' apply And.intro
  all_goals first
    | exact nohang_errChk _ _ _
    | exact nohang_printf _
    | exact nohang_getchar
    | exact CAI_nohang_helperStmt _ _ hb _ _ _
    | exact nohang_run _ hsw

theorem andThen_frame {V α : Type} (g : V → α) (Q : α → List TaskHandle → List Call → Prop)
    (f : Flow V) (stmts : List (Stmt V)) (hf : ∀ stmt ∈ stmts, Frame g Event.isLifecycle stmt)
    (h : Q (g f.state.vars) (created f.state.trace) (teardowns f.state.trace)) :
    Q (g (f.andThen (run stmts)).state.vars) (created (f.andThen (run stmts)).state.trace)
      (teardowns (f.andThen (run stmts)).state.trace) := by
  refine andThen_state (fun s => Q (g s.vars) (created s.trace) (teardowns s.trace)) f _ ?_ (fun _ => h)
  intro s hs
  subst hs
  obtain ⟨hg, hc, ht⟩ := frame_lifecycle g _ (frame_run g _ stmts hf) s
  simp only [Flow.state] at h
  rw [hc, ht, hg]
  exact h

theorem CAI_phase2_frame (d : Driver) :
    ∀ stmt ∈ [DAQmxErrChk d (fun v : ContinuousAI.Vars => Call.DAQmxCreateAIVoltageChan v.masterTaskHandle
          "Dev1/ai0" "" DAQmx_Val_Cfg_Default f64_neg10 f64_10 DAQmx_Val_Volts) keep,
        DAQmxErrChk d (fun v => Call.DAQmxCfgSampClkTiming v.masterTaskHandle "" f64_10000
          DAQmx_Val_Rising DAQmx_Val_ContSamps 1000) keep],
      Frame (fun v : ContinuousAI.Vars => (v.masterTaskHandle, v.slaveTaskHandle)) Event.isLifecycle stmt := by
  simp only [List.forall_mem_cons, List.not_mem_nil, false_implies, implies_true, and_true]
  exact ⟨frame_errChk _ _ _ _ _ (fun _ _ => rfl) (fun _ _ => rfl),
    frame_errChk _ _ _ _ _ (fun _ _ => rfl) (fun _ _ => rfl)⟩

theorem CAI_phase4_frame (d : Driver) (fuel synchType : Nat) :
    ∀ stmt ∈ [DAQmxErrChk d (fun v : ContinuousAI.Vars => Call.DAQmxCreateAIVoltageChan v.slaveTaskHandle
          "Dev10/ai0" "" DAQmx_Val_Cfg_Default f64_neg10 f64_10 DAQmx_Val_Volts) keep,
        DAQmxErrChk d (fun v => Call.DAQmxCfgSampClkTiming v.slaveTaskHandle "" f64_10000
          DAQmx_Val_Rising DAQmx_Val_ContSamps 1000) keep] ++
       ([run (ContinuousAI.main.switch d fuel synchType)] ++ ContinuousAI.main.trigger d fuel ++
        ContinuousAI.main.start d),
      Frame (fun v : ContinuousAI.Vars => (v.masterTaskHandle, v.slaveTaskHandle)) Event.isLifecycle stmt := by
  intro stmt hm
  rcases List.mem_append.mp hm with hm | hm
  · simp only [List.mem_cons, List.not_mem_nil, or_false] at hm
    rcases hm with rfl | rfl
    · exact frame_errChk _ _ _ _ _ (fun _ _ => rfl) (fun _ _ => rfl)
    · exact frame_errChk _ _ _ _ _ (fun _ _ => rfl) (fun _ _ => rfl)
  · exact CAI_rest_frame d fuel synchType stmt hm

theorem CAI_owned (d : Driver) (fuel synchType : Nat) (stack : ContinuousAI.Vars)
    (hd : HandleDiscipline d) :
    created (ContinuousAI.main.config d fuel synchType stack).state.trace
      = [(ContinuousAI.main.config d fuel synchType stack).state.vars.masterTaskHandle,
         (ContinuousAI.main.config d fuel synchType stack).state.vars.slaveTaskHandle].filter
          (fun h => h != 0) ∧
    teardowns (ContinuousAI.main.config d fuel synchType stack).state.trace = [] := by
  have hbody : ContinuousAI.main.body d fuel synchType =
      [DAQmxErrChk d (fun _ => Call.DAQmxCreateTask "")
          (fun r (v : ContinuousAI.Vars) => { v with masterTaskHandle := r.taskHandle })] ++
      [DAQmxErrChk d (fun v => Call.DAQmxCreateAIVoltageChan v.masterTaskHandle "Dev1/ai0" ""
          DAQmx_Val_Cfg_Default f64_neg10 f64_10 DAQmx_Val_Volts) keep,
        DAQmxErrChk d (fun v => Call.DAQmxCfgSampClkTiming v.masterTaskHandle "" f64_10000
          DAQmx_Val_Rising DAQmx_Val_ContSamps 1000) keep] ++
      [DAQmxErrChk d (fun _ => Call.DAQmxCreateTask "")
          (fun r (v : ContinuousAI.Vars) => { v with slaveTaskHandle := r.taskHandle })] ++
      ([DAQmxErrChk d (fun v => Call.DAQmxCreateAIVoltageChan v.slaveTaskHandle "Dev10/ai0" ""
          DAQmx_Val_Cfg_Default f64_neg10 f64_10 DAQmx_Val_Volts) keep,
        DAQmxErrChk d (fun v => Call.DAQmxCfgSampClkTiming v.slaveTaskHandle "" f64_10000
          DAQmx_Val_Rising DAQmx_Val_ContSamps 1000) keep] ++
       ([run (ContinuousAI.main.switch d fuel synchType)] ++ ContinuousAI.main.trigger d fuel ++
        ContinuousAI.main.start d)) := by
    simp [ContinuousAI.main.body, ContinuousAI.main.create]
  simp only [ContinuousAI.main.config]
  rw [hbody, run_append, run_append, run_append, run_singleton]
  -- phase 1: the master task is created
  have h1 := create_step d hd (fun r (v : ContinuousAI.Vars) => { v with masterTaskHandle := r.taskHandle })
    (ContinuousAI.main.entry stack)
  generalize DAQmxErrChk d (fun _ => Call.DAQmxCreateTask "")
    (fun r (v : ContinuousAI.Vars) => { v with masterTaskHandle := r.taskHandle })
    (ContinuousAI.main.entry stack) = f1 at h1 ⊢
  have i1 : created f1.state.trace = [f1.state.vars.masterTaskHandle].filter (fun h => h != 0) ∧
      teardowns f1.state.trace = [] ∧ f1.state.vars.slaveTaskHandle = 0 := by
    obtain ⟨hv, hc, ht⟩ := h1
    rw [hc, ht, hv]
    simp [ContinuousAI.main.entry, created, teardowns]
  clear h1
  -- phase 2: its channel and clock
  have j2 := andThen_frame (fun v : ContinuousAI.Vars => (v.masterTaskHandle, v.slaveTaskHandle))
    (fun a c t => c = [a.1].filter (fun h => h != 0) ∧ t = [] ∧ a.2 = 0) f1 _ (CAI_phase2_frame d) i1
  clear i1
  generalize f1.andThen _ = f2 at j2 ⊢
  simp only at j2
  -- phase 3: the slave task is created
  have j3 : (fun s : St ContinuousAI.Vars => created s.trace
      = [s.vars.masterTaskHandle, s.vars.slaveTaskHandle].filter (fun h => h != 0) ∧ teardowns s.trace = [])
      (f2.andThen (run [DAQmxErrChk d (fun _ => Call.DAQmxCreateTask "")
      (fun r (v : ContinuousAI.Vars) => { v with slaveTaskHandle := r.taskHandle })])).state := by
    refine andThen_state (fun s : St ContinuousAI.Vars => created s.trace
      = [s.vars.masterTaskHandle, s.vars.slaveTaskHandle].filter (fun h => h != 0) ∧ teardowns s.trace = [])
      f2 _ ?_ ?_
    · intro s hs
      subst hs
      obtain ⟨hv, hc, ht⟩ := create_step d hd
        (fun r (v : ContinuousAI.Vars) => { v with slaveTaskHandle := r.taskHandle }) s
      simp only [Flow.state] at j2
      rw [run_singleton, hc, ht, hv, j2.1, j2.2.1]
      simp only [List.filter_cons, List.filter_nil, bne_iff_ne, ne_eq]
      split_ifs <;> simp_all
    · intro _
      obtain ⟨a, b, c⟩ := j2
      show created f2.state.trace = _ ∧ teardowns f2.state.trace = _
      rw [a, b, c]
      simp only [List.filter_cons, List.filter_nil, bne_iff_ne, ne_eq]
      split_ifs <;> simp_all
  clear j2
  generalize f2.andThen _ = f3 at j3 ⊢
  -- phase 4: everything else leaves the handles and the task set alone
  exact andThen_frame (fun v : ContinuousAI.Vars => (v.masterTaskHandle, v.slaveTaskHandle))
    (fun a c t => c = [a.1, a.2].filter (fun h => h != 0) ∧ t = []) f3 _
    (CAI_phase4_frame d fuel synchType) j3

theorem CAI_clean (d : Driver) (fuel synchType : Nat) (stack : ContinuousAI.Vars)
    (hd : HandleDiscipline d) (hb : BoundedDevices d fuel) :
    (ContinuousAI.main d fuel synchType stack).ret = some 0 ∧
      CleanRun (ContinuousAI.main d fuel synchType stack).final.trace := by
  have hown := CAI_owned d fuel synchType stack hd
  have hnh := nohang_run _ (CAI_body_nohang d fuel synchType hb) (ContinuousAI.main.entry stack)
  simp only [ContinuousAI.main]
  simp only [ContinuousAI.main.config] at hown hnh ⊢
  cases hr : run (ContinuousAI.main.body d fuel synchType) (ContinuousAI.main.entry stack) with
  | hang s => exact absurd hr (hnh s)
  | next s =>
    rw [hr] at hown
    obtain ⟨h1, h2⟩ := CAI_cleanup_spec d s
    simp only [Flow.state] at hown
    exact ⟨rfl, by simp only [atError, CleanRun, h1, h2, hown.1, hown.2, List.nil_append]⟩
  | Error s =>
    rw [hr] at hown
    obtain ⟨h1, h2⟩ := CAI_cleanup_spec d s
    simp only [Flow.state] at hown
    exact ⟨rfl, by simp only [atError, CleanRun, h1, h2, hown.1, hown.2, List.nil_append]⟩

theorem singleTaskCleanup_spec (d : Driver) (s : St TaskVars) :
    created (singleTaskCleanup d s).trace = created s.trace ∧
    teardowns (singleTaskCleanup d s).trace = teardowns s.trace ++
      stopThenClear ([s.vars.taskHandle].filter (fun h => h != 0)) := by
  simp only [singleTaskCleanup, call, emit, keep]
  split_ifs <;>
    simp_all [created, teardowns, createdOf, teardownOf, List.filterMap_append, stopThenClear,
      List.filter_cons, bne_iff_ne]

theorem AcqIntClk_clean (d : Driver) (hd : HandleDiscipline d) :
    (Acq_IntClk.main d).ret = some 0 ∧ CleanRun (Acq_IntClk.main d).final.trace := by
  have hbody : Acq_IntClk.main.body d =
      [DAQmxErrChk d (fun _ => Call.DAQmxCreateTask "")
          (fun r (v : TaskVars) => { v with taskHandle := r.taskHandle })] ++
      [DAQmxErrChk d (fun v => Call.DAQmxCreateAIVoltageChan v.taskHandle "Dev1/ai0" ""
          DAQmx_Val_Cfg_Default f64_neg10 f64_10 DAQmx_Val_Volts) keep,
        DAQmxErrChk d (fun v => Call.DAQmxCfgSampClkTiming v.taskHandle "" f64_10000 DAQmx_Val_Rising
          DAQmx_Val_FiniteSamps 1000) keep,
        DAQmxErrChk d (fun v => Call.DAQmxStartTask v.taskHandle) keep,
        DAQmxErrChk d (fun v => Call.DAQmxReadAnalogF64 v.taskHandle 1000 f64_10
          DAQmx_Val_GroupByChannel 1000) (fun r v => { v with read := r.i32 }),
        printf (fun v => "Acquired " ++ toString v.read ++ " points\n")] := by
    simp [Acq_IntClk.main.body]
  have hrest : ∀ stmt ∈ [DAQmxErrChk d (fun v : TaskVars => Call.DAQmxCreateAIVoltageChan v.taskHandle
          "Dev1/ai0" "" DAQmx_Val_Cfg_Default f64_neg10 f64_10 DAQmx_Val_Volts) keep,
        DAQmxErrChk d (fun v => Call.DAQmxCfgSampClkTiming v.taskHandle "" f64_10000 DAQmx_Val_Rising
          DAQmx_Val_FiniteSamps 1000) keep,
        DAQmxErrChk d (fun v => Call.DAQmxStartTask v.taskHandle) keep,
        DAQmxErrChk d (fun v => Call.DAQmxReadAnalogF64 v.taskHandle 1000 f64_10
          DAQmx_Val_GroupByChannel 1000) (fun r v => { v with read := r.i32 }),
        printf (fun v => "Acquired " ++ toString v.read ++ " points\n")],
      Frame (fun v : TaskVars => v.taskHandle) Event.isLifecycle stmt := by
    simp only [List.forall_mem_cons, List.not_mem_nil, false_implies, implies_true, and_true]
    repeat' apply And.intro
    all_goals first
      | exact frame_errChk _ _ _ _ _ (fun _ _ => rfl) (fun _ _ => rfl)
      | exact frame_printf _ _ _ (fun _ => rfl)
  have hnh : ∀ stmt ∈ Acq_IntClk.main.body d, NoHang stmt := by
    simp only [Acq_IntClk.main.body, List.forall_mem_cons, List.not_mem_nil, false_implies,
      implies_true, and_true]
    repeat' apply And.intro
    all_goals first
      | exact nohang_errChk _ _ _
      | exact nohang_printf _
  have hown : created (Acq_IntClk.main.config d).state.trace
      = [(Acq_IntClk.main.config d).state.vars.taskHandle].filter (fun h => h != 0) ∧
      teardowns (Acq_IntClk.main.config d).state.trace = [] := by
    simp only [Acq_IntClk.main.config]
    rw [hbody, run_append, run_singleton]
    have h1 := create_step d hd (fun r (v : TaskVars) => { v with taskHandle := r.taskHandle })
      singleTaskEntry
    generalize DAQmxErrChk d (fun _ => Call.DAQmxCreateTask "")
      (fun r (v : TaskVars) => { v with taskHandle := r.taskHandle }) singleTaskEntry = f1 at h1 ⊢
    have i1 : created f1.state.trace = [f1.state.vars.taskHandle].filter (fun h => h != 0) ∧
        teardowns f1.state.trace = [] := by
      obtain ⟨hv, hc, ht⟩ := h1
      rw [hc, ht, hv]
      simp [singleTaskEntry, created, teardowns]
    exact andThen_frame (fun v : TaskVars => v.taskHandle)
      (fun a c t => c = [a].filter (fun h => h != 0) ∧ t = []) f1 _ hrest i1
  have hnh2 := nohang_run _ hnh singleTaskEntry
  simp only [Acq_IntClk.main]
  simp only [Acq_IntClk.main.config] at hown hnh2 ⊢
  cases hr : run (Acq_IntClk.main.body d) singleTaskEntry with
  | hang s => exact absurd hr (hnh2 s)
  | next s =>
    rw [hr] at hown
    obtain ⟨h1, h2⟩ := singleTaskCleanup_spec d s
    simp only [Flow.state] at hown
    exact ⟨rfl, by simp only [atError, CleanRun, h1, h2, hown.1, hown.2, List.nil_append]⟩
  | Error s =>
    rw [hr] at hown
    obtain ⟨h1, h2⟩ := singleTaskCleanup_spec d s
    simp only [Flow.state] at hown
    exact ⟨rfl, by simp only [atError, CleanRun, h1, h2, hown.1, hown.2, List.nil_append]⟩

theorem simDriver_handleDiscipline (devs : List (String × Int)) (failAt : Option Nat) :
    HandleDiscipline (simDriver devs failAt) := by
  intro tr name
  simp only [simDriver]
  split_ifs <;> simp [DAQmxFailed]

theorem simDriver_bounded (devs : List (String × Int)) (failAt : Option Nat) (fuel : Nat)
    (h1 : devs.length < UINT32_MAX) (h2 : devs.length ≤ fuel) :
    BoundedDevices (simDriver devs failAt) fuel := by
  intro tr t
  simp only [simDriver]
  split_ifs
  · exact ⟨by decide, Nat.zero_le _⟩
  · exact ⟨h1, h2⟩

theorem CAI_clean_returning (d : Driver) (fuel synchType : Nat) (stack : ContinuousAI.Vars)
    (hd : HandleDiscipline d) (hret : (ContinuousAI.main d fuel synchType stack).ret ≠ none) :
    (ContinuousAI.main d fuel synchType stack).ret = some 0 ∧
      CleanRun (ContinuousAI.main d fuel synchType stack).final.trace := by
  have hown := CAI_owned d fuel synchType stack hd
  simp only [ContinuousAI.main] at hret ⊢
  simp only [ContinuousAI.main.config] at hown hret ⊢
  cases hr : run (ContinuousAI.main.body d fuel synchType) (ContinuousAI.main.entry stack) with
  | hang s =>
    rw [hr] at hret
    exact absurd rfl hret
  | next s =>
    rw [hr] at hown
    obtain ⟨h1, h2⟩ := CAI_cleanup_spec d s
    simp only [Flow.state] at hown
    exact ⟨rfl, by simp only [atError, CleanRun, h1, h2, hown.1, hown.2, List.nil_append]⟩
  | Error s =>
    rw [hr] at hown
    obtain ⟨h1, h2⟩ := CAI_cleanup_spec d s
    simp only [Flow.state] at hown
    exact ⟨rfl, by simp only [atError, CleanRun, h1, h2, hown.1, hown.2, List.nil_append]⟩

/-- C9: with `DAQmxCreateTask` giving a non-zero handle on success and leaving it `0` on
failure, and no callback delivered: `main` of `Acq-IntClk.c` returns, and every run of
`main` of `ContinuousAI.c` that returns, wherever the first failure occurs (or none),
has as its `DAQmxStopTask`/`DAQmxClearTask` calls exactly one stop followed by one
clear for each successfully created task, in order of creation, and nothing else.
`main` of `ContinuousAI.c` does return when the helper's enumeration loop runs to its
end (the driver reports fewer than `UINT32_MAX` devices, at most the fuel). -/
theorem C9_cleanup_exactly_once (d : Driver) (fuel synchType : Nat) (stack : ContinuousAI.Vars)
    (hd : HandleDiscipline d) :
    ((Acq_IntClk.main d).ret = some 0 ∧ CleanRun (Acq_IntClk.main d).final.trace) ∧
    ((ContinuousAI.main d fuel synchType stack).ret ≠ none →
      (ContinuousAI.main d fuel synchType stack).ret = some 0 ∧
      CleanRun (ContinuousAI.main d fuel synchType stack).final.trace) ∧
    (BoundedDevices d fuel → (ContinuousAI.main d fuel synchType stack).ret = some 0) :=
  ⟨AcqIntClk_clean d hd, CAI_clean_returning d fuel synchType stack hd,
    fun hb => (CAI_clean d fuel synchType stack hd hb).1⟩

/-- Witness of C9: the tenth call of `main` (inside the `switch`) fails. -/
theorem C9_cleanup_exactly_once_witness :
    HandleDiscipline (simDriver exampleDevices (some 9)) ∧
    ((Acq_IntClk.main (simDriver exampleDevices (some 9))).ret = some 0 ∧
      CleanRun (Acq_IntClk.main (simDriver exampleDevices (some 9))).final.trace) ∧
    (ContinuousAI.main (simDriver exampleDevices (some 9)) 5 0 ContinuousAI.exampleStack).ret = some 0 ∧
    CleanRun (ContinuousAI.main (simDriver exampleDevices (some 9)) 5 0
      ContinuousAI.exampleStack).final.trace := by
  have h := C9_cleanup_exactly_once (simDriver exampleDevices (some 9)) 5 0 ContinuousAI.exampleStack
    (simDriver_handleDiscipline _ _)
  have hr := h.2.2 (simDriver_bounded _ _ 5 (by decide) (by decide))
  exact ⟨simDriver_handleDiscipline _ _, h.1, hr, (h.2.1 (by rw [hr]; simp)).2⟩

theorem run_nil_next {V : Type} (s s1 : St V) : run ([] : List (Stmt V)) s = .next s1 ↔ s1 = s := by
  simp only [run, Flow.next.injEq]
  exact eq_comm

theorem run_cons_next {V : Type} (stmt : Stmt V) (rest : List (Stmt V)) (s s2 : St V) :
    run (stmt :: rest) s = .next s2 ↔ ∃ s1, stmt s = .next s1 ∧ run rest s1 = .next s2 := by
  simp only [run]
  cases stmt s with
  | next s1 => simp
  | Error s1 => simp
  | hang s1 => simp

theorem andThen_next {V : Type} (f : Flow V) (k : St V → Flow V) (s2 : St V) :
    f.andThen k = .next s2 ↔ ∃ s1, f = .next s1 ∧ k s1 = .next s2 := by
  cases f with
  | next s1 => simp [Flow.andThen]
  | Error s1 => simp [Flow.andThen]
  | hang s1 => simp [Flow.andThen]

theorem errChk_next {V : Type} (d : Driver) (c : V → Call) (store : Reply → V → V) (s s1 : St V) :
    DAQmxErrChk d c store s = .next s1 ↔
      DAQmxFailed (d s.trace (c s.vars)).status = false ∧
      s1 = { trace := s.trace ++ [Event.call (c s.vars) (d s.trace (c s.vars))],
             error := (d s.trace (c s.vars)).status, vars := store (d s.trace (c s.vars)) s.vars } := by
  simp only [DAQmxErrChk]
  split
  · rename_i h
    simp [h]
  · rename_i h
    simp only [Bool.not_eq_true] at h
    simp only [Flow.next.injEq, h, true_and]
    exact eq_comm

theorem CAI_helperStmt_next (d : Driver) (fuel : Nat) (terminalName : String)
    (buffer : ContinuousAI.Vars → String) (store : String → ContinuousAI.Vars → ContinuousAI.Vars)
    (s s1 : St ContinuousAI.Vars) :
    ContinuousAI.DAQmxErrChk_GetTerminalNameWithDevPrefix d fuel terminalName buffer store s = .next s1 ↔
      ∃ err name, (ContinuousAI.GetTerminalNameWithDevPrefix d fuel s.vars.masterTaskHandle terminalName
          (buffer s.vars) s.trace).ret = some (err, name) ∧ DAQmxFailed err = false ∧
        s1 = { trace := (ContinuousAI.GetTerminalNameWithDevPrefix d fuel s.vars.masterTaskHandle
                  terminalName (buffer s.vars) s.trace).trace,
               error := err, vars := store name s.vars } := by
  simp only [ContinuousAI.DAQmxErrChk_GetTerminalNameWithDevPrefix]
  split
  · rename_i h
    simp [h]
  · rename_i err name h
    split
    · rename_i hf
      simp only [h, Option.some.injEq, Prod.mk.injEq]
      constructor
      · intro h1
        simp at h1
      · rintro ⟨e, n, ⟨rfl, rfl⟩, hf2, _⟩
        simp [hf2] at hf
    · rename_i hf
      simp only [Bool.not_eq_true] at hf
      simp only [h, Option.some.injEq, Prod.mk.injEq, Flow.next.injEq]
      constructor
      · intro h1
        exact ⟨err, name, ⟨rfl, rfl⟩, hf, h1.symm⟩
      · rintro ⟨e, n, ⟨rfl, rfl⟩, _, h1⟩
        exact h1.symm

theorem clockEvents_append (a b : List Event) : clockEvents (a ++ b) = clockEvents a ++ clockEvents b := by
  simp [clockEvents]

theorem clock_free (new : List Event) (h : ∀ e ∈ new, e.isClock = false) : clockEvents new = [] := by
  simp only [clockEvents, List.filter_eq_nil_iff]
  intro e he
  simp [h e he]

theorem query_not_clock : ∀ e : Event, e.isQuery = true → e.isClock = false := by
  intro e h
  cases e with
  | call c r => cases c <;> first | rfl | simp [Event.isQuery] at h
  | printf t => rfl
  | getchar => rfl

theorem cleanup_not_clock (cl : List Event) (h : ∀ e ∈ cl, e.isTeardown = true ∨ e.isCall = false) :
    ∀ e ∈ cl, e.isClock = false := by
  intro e he
  rcases h e he with h1 | h1
  · cases e with
    | call c r => cases c <;> first | rfl | simp [Event.isTeardown] at h1
    | printf t => rfl
    | getchar => rfl
  · cases e with
    | call c r => simp [Event.isCall] at h1
    | printf t => rfl
    | getchar => rfl

theorem CAI_create_noclock (d : Driver) :
    ∀ stmt ∈ ContinuousAI.main.create d, Frame (fun _ : ContinuousAI.Vars => ()) Event.isClock stmt := by
  simp only [ContinuousAI.main.create, List.forall_mem_cons, List.not_mem_nil,
    false_implies, implies_true, and_true]
  repeat' apply And.intro
  all_goals exact frame_errChk _ _ _ _ _ (fun _ _ => rfl) (fun _ _ => rfl)

theorem CAI_tail_noclock (d : Driver) (fuel : Nat) :
    ∀ stmt ∈ ContinuousAI.main.trigger d fuel ++ ContinuousAI.main.start d,
      Frame (fun v : ContinuousAI.Vars => (v.masterTaskHandle, v.slaveTaskHandle, v.str1, v.str2))
        Event.isClock stmt := by
  simp only [ContinuousAI.main.trigger, ContinuousAI.main.start,
    List.forall_mem_append, List.forall_mem_cons, List.not_mem_nil,
    false_implies, implies_true, and_true]
  repeat' apply And.intro
  all_goals first
    | exact frame_errChk _ _ _ _ _ (fun _ _ => rfl) (fun _ _ => rfl)
    | exact frame_printf _ _ _ (fun _ => rfl)
    | exact frame_getchar _ _ rfl
    | exact CAI_frame_helperStmt _ _ query_not_clock _ _ _ _ _ (fun _ _ => rfl)

theorem CAI_clock_events (d : Driver) (fuel synchType : Nat) (stack : ContinuousAI.Vars)
    (s : St ContinuousAI.Vars) (h : ContinuousAI.main.config d fuel synchType stack = .next s) :
    ∃ s1 s2 sw, run (ContinuousAI.main.create d) (ContinuousAI.main.entry stack) = .next s1 ∧
      run (ContinuousAI.main.switch d fuel synchType) s1 = .next s2 ∧
      run (ContinuousAI.main.trigger d fuel ++ ContinuousAI.main.start d) s2 = .next s ∧
      s2.trace = s1.trace ++ sw ∧
      clockEvents (ContinuousAI.main d fuel synchType stack).final.trace = clockEvents sw ∧
      s1.vars.masterTaskHandle = s.vars.masterTaskHandle ∧
      s1.vars.slaveTaskHandle = s.vars.slaveTaskHandle ∧
      s2.vars.str1 = s.vars.str1 ∧ s2.vars.str2 = s.vars.str2 := by
  have hbody : ContinuousAI.main.body d fuel synchType = ContinuousAI.main.create d ++
      ([run (ContinuousAI.main.switch d fuel synchType)] ++
        (ContinuousAI.main.trigger d fuel ++ ContinuousAI.main.start d)) := by
    simp [ContinuousAI.main.body]
  have h' := h
  simp only [ContinuousAI.main.config] at h'
  rw [hbody, run_append, andThen_next] at h'
  obtain ⟨s1, hs1, h2⟩ := h'
  rw [run_append, andThen_next, run_singleton] at h2
  obtain ⟨s2, hs2, hs3⟩ := h2
  -- create part
  obtain ⟨_, new1, ht1, hk1⟩ := frame_run _ _ _ (CAI_create_noclock d) (ContinuousAI.main.entry stack)
  rw [hs1] at ht1
  simp only [Flow.state, ContinuousAI.main.entry, List.nil_append] at ht1
  -- switch part
  obtain ⟨hg2, sw, ht2, _⟩ := CAI_rest_frame d fuel synchType (run (ContinuousAI.main.switch d fuel synchType))
    (by simp) s1
  rw [hs2] at hg2 ht2
  simp only [Flow.state, Prod.mk.injEq] at hg2 ht2
  -- trigger and start part
  obtain ⟨hg3, new3, ht3, hk3⟩ := frame_run _ _ _ (CAI_tail_noclock d fuel) s2
  rw [hs3] at hg3 ht3
  simp only [Flow.state, Prod.mk.injEq] at hg3 ht3
  -- cleanup
  obtain ⟨cl, hcl, hcl2⟩ := CAI_cleanup_tail d s
  refine ⟨s1, s2, sw, hs1, hs2, hs3, ht2, ?_, ?_, ?_, hg3.2.2.1.symm, hg3.2.2.2.symm⟩
  · simp only [ContinuousAI.main, h, atError, hcl, ht3, ht2, ht1, clockEvents_append,
      clock_free new1 hk1, clock_free new3 hk3, clock_free cl (cleanup_not_clock cl hcl2),
      List.nil_append, List.append_nil]
  · rw [hg3.1, hg2.1]
  · rw [hg3.2.1, hg2.2]

theorem errChk_step {V : Type} (d : Driver) (c : V → Call) (store : Reply → V → V) (s s1 : St V)
    (h : DAQmxErrChk d c store s = .next s1) :
    ∃ r, DAQmxFailed r.status = false ∧ s1.trace = s.trace ++ [Event.call (c s.vars) r] ∧
      s1.vars = store r s.vars := by
  rw [errChk_next] at h
  obtain ⟨hf, rfl⟩ := h
  exact ⟨_, hf, rfl, rfl⟩

theorem CAI_helperStmt_step (d : Driver) (fuel : Nat) (terminalName : String)
    (buffer : ContinuousAI.Vars → String) (store : String → ContinuousAI.Vars → ContinuousAI.Vars)
    (s s1 : St ContinuousAI.Vars)
    (h : ContinuousAI.DAQmxErrChk_GetTerminalNameWithDevPrefix d fuel terminalName buffer store s = .next s1) :
    ∃ q name, s1.trace = s.trace ++ q ∧ (∀ e ∈ q, e.isQuery = true) ∧ s1.vars = store name s.vars := by
  rw [CAI_helperStmt_next] at h
  obtain ⟨err, name, _, _, rfl⟩ := h
  obtain ⟨q1, ht1, hq1, _⟩ := helper_tail d fuel s.vars.masterTaskHandle terminalName (buffer s.vars) s.trace
  refine ⟨_ :: q1, name, ht1, ?_, rfl⟩
  intro e he
  rcases List.mem_cons.mp he with rfl | he
  · rfl
  · exact hq1 e he

theorem CAI_switch0 (d : Driver) (fuel : Nat) (s1 s2 : St ContinuousAI.Vars)
    (h : run (ContinuousAI.main.switch d fuel 0) s1 = .next s2) :
    ∃ r1 r2 r3 r4, s2.trace = s1.trace ++
      [Event.call (.DAQmxGetMasterTimebaseSrc s1.vars.masterTaskHandle 256) r1,
       Event.call (.DAQmxGetMasterTimebaseRate s1.vars.masterTaskHandle) r2,
       Event.call (.DAQmxSetMasterTimebaseSrc s1.vars.slaveTaskHandle r1.str) r3,
       Event.call (.DAQmxSetMasterTimebaseRate s1.vars.slaveTaskHandle r2.f64) r4] := by
  simp only [ContinuousAI.main.switch] at h
  rw [run_cons_next] at h; obtain ⟨sa, ha, h⟩ := h
  obtain ⟨r1, -, hta, hva⟩ := errChk_step _ _ _ _ _ ha
  rw [run_cons_next] at h; obtain ⟨sb, hb, h⟩ := h
  obtain ⟨r2, -, htb, hvb⟩ := errChk_step _ _ _ _ _ hb
  rw [run_cons_next] at h; obtain ⟨sc, hc, h⟩ := h
  obtain ⟨r3, -, htc, hvc⟩ := errChk_step _ _ _ _ _ hc
  rw [run_cons_next] at h; obtain ⟨sd, hd, h⟩ := h
  obtain ⟨r4, -, htd, hvd⟩ := errChk_step _ _ _ _ _ hd
  rw [run_nil_next] at h; subst h
  refine ⟨r1, r2, r3, r4, ?_⟩
  rw [htd, htc, htb, hta]
  simp only [hvc, hvb, hva, keep, List.append_assoc, List.cons_append, List.nil_append]

theorem CAI_switch1 (d : Driver) (fuel : Nat) (s1 s2 : St ContinuousAI.Vars)
    (h : run (ContinuousAI.main.switch d fuel 1) s1 = .next s2) :
    ∃ r1 r2 r3 r4 r5, s2.trace = s1.trace ++
      [Event.call (.DAQmxSetRefClkSrc s1.vars.masterTaskHandle "OnboardClock") r1,
       Event.call (.DAQmxGetRefClkSrc s1.vars.masterTaskHandle 256) r2,
       Event.call (.DAQmxGetRefClkRate s1.vars.masterTaskHandle) r3,
       Event.call (.DAQmxSetRefClkSrc s1.vars.slaveTaskHandle r2.str) r4,
       Event.call (.DAQmxSetRefClkRate s1.vars.slaveTaskHandle r3.f64) r5] := by
  simp only [ContinuousAI.main.switch] at h
  rw [run_cons_next] at h; obtain ⟨sa, ha, h⟩ := h
  obtain ⟨r1, -, hta, hva⟩ := errChk_step _ _ _ _ _ ha
  rw [run_cons_next] at h; obtain ⟨sb, hb, h⟩ := h
  obtain ⟨r2, -, htb, hvb⟩ := errChk_step _ _ _ _ _ hb
  rw [run_cons_next] at h; obtain ⟨sc, hc, h⟩ := h
  obtain ⟨r3, -, htc, hvc⟩ := errChk_step _ _ _ _ _ hc
  rw [run_cons_next] at h; obtain ⟨sd, hd, h⟩ := h
  obtain ⟨r4, -, htd, hvd⟩ := errChk_step _ _ _ _ _ hd
  rw [run_cons_next] at h; obtain ⟨se, he, h⟩ := h
  obtain ⟨r5, -, hte, hve⟩ := errChk_step _ _ _ _ _ he
  rw [run_nil_next] at h; subst h
  refine ⟨r1, r2, r3, r4, r5, ?_⟩
  rw [hte, htd, htc, htb, hta]
  simp only [hvd, hvc, hvb, hva, keep, List.append_assoc, List.cons_append, List.nil_append]

theorem CAI_switch2 (d : Driver) (fuel : Nat) (s1 s2 : St ContinuousAI.Vars)
    (h : run (ContinuousAI.main.switch d fuel 2) s1 = .next s2) :
    ∃ r1 r2 r3 r4, s2.trace = s1.trace ++
      [Event.call (.DAQmxSetRefClkSrc s1.vars.masterTaskHandle "PXI_Clk10") r1,
       Event.call (.DAQmxSetRefClkRate s1.vars.masterTaskHandle f64_10000000) r2,
       Event.call (.DAQmxSetRefClkSrc s1.vars.slaveTaskHandle "PXI_Clk10") r3,
       Event.call (.DAQmxSetRefClkRate s1.vars.slaveTaskHandle f64_10000000) r4] := by
  simp only [ContinuousAI.main.switch] at h
  rw [run_cons_next] at h; obtain ⟨sa, ha, h⟩ := h
  obtain ⟨r1, -, hta, hva⟩ := errChk_step _ _ _ _ _ ha
  rw [run_cons_next] at h; obtain ⟨sb, hb, h⟩ := h
  obtain ⟨r2, -, htb, hvb⟩ := errChk_step _ _ _ _ _ hb
  rw [run_cons_next] at h; obtain ⟨sc, hc, h⟩ := h
  obtain ⟨r3, -, htc, hvc⟩ := errChk_step _ _ _ _ _ hc
  rw [run_cons_next] at h; obtain ⟨sd, hd, h⟩ := h
  obtain ⟨r4, -, htd, hvd⟩ := errChk_step _ _ _ _ _ hd
  rw [run_nil_next] at h; subst h
  refine ⟨r1, r2, r3, r4, ?_⟩
  rw [htd, htc, htb, hta]
  simp only [hvc, hvb, hva, keep, List.append_assoc, List.cons_append, List.nil_append]

theorem CAI_switch3 (d : Driver) (fuel : Nat) (s1 s2 : St ContinuousAI.Vars)
    (h : run (ContinuousAI.main.switch d fuel 3) s1 = .next s2) :
    ∃ q r3 r4, s2.trace = s1.trace ++ q ++
      [Event.call (.DAQmxSetSampClkTimebaseSrc s1.vars.slaveTaskHandle s2.vars.str1) r3,
       Event.call (.DAQmxSetSyncPulseSrc s1.vars.slaveTaskHandle s2.vars.str2) r4] ∧
      (∀ e ∈ q, e.isQuery = true) := by
  simp only [ContinuousAI.main.switch] at h
  rw [run_cons_next] at h; obtain ⟨sa, ha, h⟩ := h
  obtain ⟨q1, n1, hta, hqa, hva⟩ := CAI_helperStmt_step _ _ _ _ _ _ _ ha
  rw [run_cons_next] at h; obtain ⟨sb, hb, h⟩ := h
  obtain ⟨q2, n2, htb, hqb, hvb⟩ := CAI_helperStmt_step _ _ _ _ _ _ _ hb
  rw [run_cons_next] at h; obtain ⟨sc, hc, h⟩ := h
  obtain ⟨r3, -, htc, hvc⟩ := errChk_step _ _ _ _ _ hc
  rw [run_cons_next] at h; obtain ⟨sd, hd, h⟩ := h
  obtain ⟨r4, -, htd, hvd⟩ := errChk_step _ _ _ _ _ hd
  rw [run_nil_next] at h; subst h
  refine ⟨q1 ++ q2, r3, r4, ?_, ?_⟩
  · rw [htd, htc, htb, hta]
    simp only [hvd, hvc, hvb, hva, keep, List.append_assoc, List.cons_append, List.nil_append]
  · intro e he
    rcases List.mem_append.mp he with he | he
    · exact hqa e he
    · exact hqb e he

theorem CAI_switch4 (d : Driver) (fuel : Nat) (s1 s2 : St ContinuousAI.Vars)
    (h : run (ContinuousAI.main.switch d fuel 4) s1 = .next s2) :
    ∃ r1 q r3 r4, s2.trace = s1.trace ++
      Event.call (.DAQmxSetRefClkSrc s1.vars.masterTaskHandle "PXI_Clk10") r1 :: q ++
      [Event.call (.DAQmxSetSyncPulseSrc s1.vars.slaveTaskHandle s2.vars.str1) r3,
       Event.call (.DAQmxSetRefClkSrc s1.vars.slaveTaskHandle "PXI_Clk10") r4] ∧
      (∀ e ∈ q, e.isQuery = true) := by
  simp only [ContinuousAI.main.switch] at h
  rw [run_cons_next] at h; obtain ⟨sa, ha, h⟩ := h
  obtain ⟨r1, -, hta, hva⟩ := errChk_step _ _ _ _ _ ha
  rw [run_cons_next] at h; obtain ⟨sb, hb, h⟩ := h
  obtain ⟨q2, n2, htb, hqb, hvb⟩ := CAI_helperStmt_step _ _ _ _ _ _ _ hb
  rw [run_cons_next] at h; obtain ⟨sc, hc, h⟩ := h
  obtain ⟨r3, -, htc, hvc⟩ := errChk_step _ _ _ _ _ hc
  rw [run_cons_next] at h; obtain ⟨sd, hd, h⟩ := h
  obtain ⟨r4, -, htd, hvd⟩ := errChk_step _ _ _ _ _ hd
  rw [run_nil_next] at h; subst h
  refine ⟨r1, q2, r3, r4, ?_, hqb⟩
  rw [htd, htc, htb, hta]
  simp only [hvd, hvc, hvb, hva, keep, List.append_assoc, List.cons_append, List.nil_append]

theorem CAI_helperStmt_ret (d : Driver) (fuel : Nat) (terminalName : String)
    (buffer : ContinuousAI.Vars → String) (store : String → ContinuousAI.Vars → ContinuousAI.Vars)
    (s s1 : St ContinuousAI.Vars)
    (h : ContinuousAI.DAQmxErrChk_GetTerminalNameWithDevPrefix d fuel terminalName buffer store s = .next s1) :
    ∃ err name, (ContinuousAI.GetTerminalNameWithDevPrefix d fuel s.vars.masterTaskHandle terminalName
        (buffer s.vars) s.trace).ret = some (err, name) ∧
      s1.trace = (ContinuousAI.GetTerminalNameWithDevPrefix d fuel s.vars.masterTaskHandle terminalName
        (buffer s.vars) s.trace).trace ∧ s1.vars = store name s.vars := by
  rw [CAI_helperStmt_next] at h
  obtain ⟨err, name, hr, _, rfl⟩ := h
  exact ⟨err, name, hr, rfl, rfl⟩

theorem CAI_switch3_names (d : Driver) (fuel : Nat) (s1 s2 : St ContinuousAI.Vars)
    (h : run (ContinuousAI.main.switch d fuel 3) s1 = .next s2) :
    ∃ e1 e2,
      (ContinuousAI.GetTerminalNameWithDevPrefix d fuel s1.vars.masterTaskHandle "SampleClockTimebase"
        s1.vars.str1 s1.trace).ret = some (e1, s2.vars.str1) ∧
      (ContinuousAI.GetTerminalNameWithDevPrefix d fuel s1.vars.masterTaskHandle "SyncPulse"
        s1.vars.str2 (ContinuousAI.GetTerminalNameWithDevPrefix d fuel s1.vars.masterTaskHandle
          "SampleClockTimebase" s1.vars.str1 s1.trace).trace).ret = some (e2, s2.vars.str2) := by
  simp only [ContinuousAI.main.switch] at h
  rw [run_cons_next] at h; obtain ⟨sa, ha, h⟩ := h
  obtain ⟨e1, n1, hra, hta, hva⟩ := CAI_helperStmt_ret _ _ _ _ _ _ _ ha
  rw [run_cons_next] at h; obtain ⟨sb, hb, h⟩ := h
  obtain ⟨e2, n2, hrb, htb, hvb⟩ := CAI_helperStmt_ret _ _ _ _ _ _ _ hb
  rw [run_cons_next] at h; obtain ⟨sc, hc, h⟩ := h
  obtain ⟨r3, -, htc, hvc⟩ := errChk_step _ _ _ _ _ hc
  rw [run_cons_next] at h; obtain ⟨sd, hd, h⟩ := h
  obtain ⟨r4, -, htd, hvd⟩ := errChk_step _ _ _ _ _ hd
  rw [run_nil_next] at h; subst h
  simp only [hva, hta] at hrb
  refine ⟨e1, e2, ?_, ?_⟩
  · simp only [hvd, hvc, hvb, hva, keep]
    exact hra
  · simp only [hvd, hvc, hvb, hva, keep]
    exact hrb

theorem CAI_switch4_names (d : Driver) (fuel : Nat) (s1 s2 : St ContinuousAI.Vars)
    (h : run (ContinuousAI.main.switch d fuel 4) s1 = .next s2) :
    ∃ r1 e1,
      (ContinuousAI.GetTerminalNameWithDevPrefix d fuel s1.vars.masterTaskHandle "SyncPulse"
        s1.vars.str1 (s1.trace ++
          [Event.call (.DAQmxSetRefClkSrc s1.vars.masterTaskHandle "PXI_Clk10") r1])).ret
        = some (e1, s2.vars.str1) := by
  simp only [ContinuousAI.main.switch] at h
  rw [run_cons_next] at h; obtain ⟨sa, ha, h⟩ := h
  obtain ⟨r1, -, hta, hva⟩ := errChk_step _ _ _ _ _ ha
  rw [run_cons_next] at h; obtain ⟨sb, hb, h⟩ := h
  obtain ⟨e2, n2, hrb, htb, hvb⟩ := CAI_helperStmt_ret _ _ _ _ _ _ _ hb
  rw [run_cons_next] at h; obtain ⟨sc, hc, h⟩ := h
  obtain ⟨r3, -, htc, hvc⟩ := errChk_step _ _ _ _ _ hc
  rw [run_cons_next] at h; obtain ⟨sd, hd, h⟩ := h
  obtain ⟨r4, -, htd, hvd⟩ := errChk_step _ _ _ _ _ hd
  rw [run_nil_next] at h; subst h
  simp only [hva, hta, keep] at hrb
  refine ⟨r1, e2, ?_⟩
  simp only [hvd, hvc, hvb, hva, keep]
  exact hrb

theorem succeeds_run {V : Type} (stmts : List (Stmt V)) (h : ∀ stmt ∈ stmts, Succeeds stmt) :
    Succeeds (run stmts) := by
  intro s
  exact run_induct (fun f => ∃ s1, f = .next s1) stmts s ⟨s, rfl⟩ (fun stmt hm s1 _ => h stmt hm s1)

theorem succeeds_errChk {V : Type} (d : Driver) (ha : AllSucceed d) (c : V → Call)
    (store : Reply → V → V) : Succeeds (DAQmxErrChk d c store) := by
  intro s
  simp only [DAQmxErrChk, ha s.trace (c s.vars), Bool.false_eq_true, if_false]
  exact ⟨_, rfl⟩

theorem succeeds_printf {V : Type} (text : V → String) : Succeeds (printf text) :=
  fun _ => ⟨_, rfl⟩

theorem succeeds_getchar {V : Type} : Succeeds (getchar : Stmt V) :=
  fun _ => ⟨_, rfl⟩

theorem loop_success (d : Driver) (ha : AllSucceed d) (taskHandle : TaskHandle) (terminalName : String)
    (n : Nat) :
    ∀ (fuel i : Nat) (error : Int) (buf : String) (tr : List Event), DAQmxFailed error = false →
      ∀ err name, (ContinuousAI.GetTerminalNameWithDevPrefix.loop d taskHandle terminalName n fuel i
        error buf tr).ret = some (err, name) → DAQmxFailed err = false := by
  intro fuel
  induction fuel with
  | zero =>
    intro i error buf tr he err name h
    rw [ContinuousAI.GetTerminalNameWithDevPrefix.loop] at h
    by_cases hi : i ≤ n
    · simp [hi] at h
    · simp only [hi, if_false, Option.some.injEq, Prod.mk.injEq] at h
      rw [← h.1]; exact he
  | succ f ih =>
    intro i error buf tr he err name h
    rw [ContinuousAI.GetTerminalNameWithDevPrefix.loop] at h
    by_cases hi : i ≤ n
    · simp only [hi, if_true, ha _ _, Bool.false_eq_true, if_false] at h
      split at h
      · simp only [Option.some.injEq, Prod.mk.injEq] at h
        rw [← h.1]; exact ha _ _
      · exact ih _ _ _ _ (ha _ _) err name h
    · simp only [hi, if_false, Option.some.injEq, Prod.mk.injEq] at h
      rw [← h.1]; exact he

theorem helper_success (d : Driver) (ha : AllSucceed d) (fuel : Nat) (hb : BoundedDevices d fuel)
    (taskHandle : TaskHandle) (terminalName buf : String) (tr : List Event) :
    ∃ err name, (ContinuousAI.GetTerminalNameWithDevPrefix d fuel taskHandle terminalName buf tr).ret
      = some (err, name) ∧ DAQmxFailed err = false := by
  have ht := helper_terminates d fuel taskHandle terminalName buf tr hb
  cases hr : (ContinuousAI.GetTerminalNameWithDevPrefix d fuel taskHandle terminalName buf tr).ret with
  | none => exact absurd hr ht
  | some p =>
    obtain ⟨err, name⟩ := p
    refine ⟨err, name, rfl, ?_⟩
    simp only [ContinuousAI.GetTerminalNameWithDevPrefix, ha _ _, Bool.false_eq_true, if_false] at hr
    exact loop_success d ha taskHandle terminalName _ fuel 1 _ buf _ (ha _ _) err name hr

theorem CAI_succeeds_helperStmt (d : Driver) (ha : AllSucceed d) (fuel : Nat)
    (hb : BoundedDevices d fuel) (terminalName : String)
    (buffer : ContinuousAI.Vars → String) (store : String → ContinuousAI.Vars → ContinuousAI.Vars) :
    Succeeds (ContinuousAI.DAQmxErrChk_GetTerminalNameWithDevPrefix d fuel terminalName buffer store) := by
  intro s
  obtain ⟨err, name, hr, hf⟩ := helper_success d ha fuel hb s.vars.masterTaskHandle terminalName
    (buffer s.vars) s.trace
  exact ⟨_, (CAI_helperStmt_next d fuel terminalName buffer store s _).mpr ⟨err, name, hr, hf, rfl⟩⟩

theorem CAI_config_next (d : Driver) (ha : AllSucceed d) (fuel synchType : Nat)
    (hb : BoundedDevices d fuel) (stack : ContinuousAI.Vars) :
    ∃ s, ContinuousAI.main.config d fuel synchType stack = .next s := by
  have hsw : ∀ stmt ∈ ContinuousAI.main.switch d fuel synchType, Succeeds stmt := by
    unfold ContinuousAI.main.switch
    split <;> simp only [List.forall_mem_cons, List.not_mem_nil, false_implies, implies_true, and_true] <;>
      (try repeat' apply And.intro) <;>
      first
        | exact succeeds_errChk _ ha _ _
        | exact CAI_succeeds_helperStmt _ ha _ hb _ _ _
  refine succeeds_run _ ?_ _
  simp only [ContinuousAI.main.body, ContinuousAI.main.create, ContinuousAI.main.trigger,
    ContinuousAI.main.start, List.forall_mem_append, List.forall_mem_cons, List.not_mem_nil,
    false_implies, implies_true, and_true]
  repeat' apply And.intro
  all_goals first
    | exact succeeds_errChk _ ha _ _
    | exact succeeds_printf _
    | exact succeeds_getchar
    | exact CAI_succeeds_helperStmt _ ha _ hb _ _ _
    | exact succeeds_run _ hsw

theorem simDriver_allSucceed (devs : List (String × Int)) : AllSucceed (simDriver devs none) := by
  intro tr c
  simp only [simDriver]
  cases c <;> simp [DAQmxFailed]

theorem CAI_variant0_clock (d : Driver) (fuel : Nat) (stack : ContinuousAI.Vars)
    (s : St ContinuousAI.Vars) (h : ContinuousAI.main.config d fuel 0 stack = .next s) :
    ∃ r1 r2 r3 r4, clockEvents (ContinuousAI.main d fuel 0 stack).final.trace =
      [Event.call (.DAQmxGetMasterTimebaseSrc s.vars.masterTaskHandle 256) r1,
       Event.call (.DAQmxGetMasterTimebaseRate s.vars.masterTaskHandle) r2,
       Event.call (.DAQmxSetMasterTimebaseSrc s.vars.slaveTaskHandle r1.str) r3,
       Event.call (.DAQmxSetMasterTimebaseRate s.vars.slaveTaskHandle r2.f64) r4] := by
  obtain ⟨s1, s2, sw, _, hs2, _, ht, hc, hm, hsl, _, _⟩ := CAI_clock_events d fuel 0 stack s h
  obtain ⟨r1, r2, r3, r4, hx⟩ := CAI_switch0 d fuel s1 s2 hs2
  have hsw := List.append_cancel_left (ht.symm.trans hx)
  refine ⟨r1, r2, r3, r4, ?_⟩
  rw [hc, hsw, ← hm, ← hsl]
  simp [clockEvents, Event.isClock]

theorem CAI_variant1_clock (d : Driver) (fuel : Nat) (stack : ContinuousAI.Vars)
    (s : St ContinuousAI.Vars) (h : ContinuousAI.main.config d fuel 1 stack = .next s) :
    ∃ r1 r2 r3 r4 r5, clockEvents (ContinuousAI.main d fuel 1 stack).final.trace =
      [Event.call (.DAQmxSetRefClkSrc s.vars.masterTaskHandle "OnboardClock") r1,
       Event.call (.DAQmxGetRefClkSrc s.vars.masterTaskHandle 256) r2,
       Event.call (.DAQmxGetRefClkRate s.vars.masterTaskHandle) r3,
       Event.call (.DAQmxSetRefClkSrc s.vars.slaveTaskHandle r2.str) r4,
       Event.call (.DAQmxSetRefClkRate s.vars.slaveTaskHandle r3.f64) r5] := by
  obtain ⟨s1, s2, sw, _, hs2, _, ht, hc, hm, hsl, _, _⟩ := CAI_clock_events d fuel 1 stack s h
  obtain ⟨r1, r2, r3, r4, r5, hx⟩ := CAI_switch1 d fuel s1 s2 hs2
  have hsw := List.append_cancel_left (ht.symm.trans hx)
  refine ⟨r1, r2, r3, r4, r5, ?_⟩
  rw [hc, hsw, ← hm, ← hsl]
  simp [clockEvents, Event.isClock]

theorem CAI_variant2_clock (d : Driver) (fuel : Nat) (stack : ContinuousAI.Vars)
    (s : St ContinuousAI.Vars) (h : ContinuousAI.main.config d fuel 2 stack = .next s) :
    ∃ r1 r2 r3 r4, clockEvents (ContinuousAI.main d fuel 2 stack).final.trace =
      [Event.call (.DAQmxSetRefClkSrc s.vars.masterTaskHandle "PXI_Clk10") r1,
       Event.call (.DAQmxSetRefClkRate s.vars.masterTaskHandle f64_10000000) r2,
       Event.call (.DAQmxSetRefClkSrc s.vars.slaveTaskHandle "PXI_Clk10") r3,
       Event.call (.DAQmxSetRefClkRate s.vars.slaveTaskHandle f64_10000000) r4] := by
  obtain ⟨s1, s2, sw, _, hs2, _, ht, hc, hm, hsl, _, _⟩ := CAI_clock_events d fuel 2 stack s h
  obtain ⟨r1, r2, r3, r4, hx⟩ := CAI_switch2 d fuel s1 s2 hs2
  have hsw := List.append_cancel_left (ht.symm.trans hx)
  refine ⟨r1, r2, r3, r4, ?_⟩
  rw [hc, hsw, ← hm, ← hsl]
  simp [clockEvents, Event.isClock]

theorem CAI_variant3_clock (d : Driver) (fuel : Nat) (stack : ContinuousAI.Vars)
    (s : St ContinuousAI.Vars) (h : ContinuousAI.main.config d fuel 3 stack = .next s) :
    (∃ r3 r4, clockEvents (ContinuousAI.main d fuel 3 stack).final.trace =
      [Event.call (.DAQmxSetSampClkTimebaseSrc s.vars.slaveTaskHandle s.vars.str1) r3,
       Event.call (.DAQmxSetSyncPulseSrc s.vars.slaveTaskHandle s.vars.str2) r4]) ∧
    ∃ s1 e1 e2, run (ContinuousAI.main.create d) (ContinuousAI.main.entry stack) = .next s1 ∧
      (ContinuousAI.GetTerminalNameWithDevPrefix d fuel s.vars.masterTaskHandle "SampleClockTimebase"
        s1.vars.str1 s1.trace).ret = some (e1, s.vars.str1) ∧
      (ContinuousAI.GetTerminalNameWithDevPrefix d fuel s.vars.masterTaskHandle "SyncPulse"
        s1.vars.str2 (ContinuousAI.GetTerminalNameWithDevPrefix d fuel s.vars.masterTaskHandle
          "SampleClockTimebase" s1.vars.str1 s1.trace).trace).ret = some (e2, s.vars.str2) := by
  obtain ⟨s1, s2, sw, hs1, hs2, _, ht, hc, hm, hsl, h1, h2⟩ := CAI_clock_events d fuel 3 stack s h
  obtain ⟨q, r3, r4, hx, hq⟩ := CAI_switch3 d fuel s1 s2 hs2
  obtain ⟨e1, e2, hn1, hn2⟩ := CAI_switch3_names d fuel s1 s2 hs2
  have hsw := List.append_cancel_left (ht.symm.trans (by rw [hx, List.append_assoc]))
  refine ⟨⟨r3, r4, ?_⟩, s1, e1, e2, hs1, ?_, ?_⟩
  · rw [hc, hsw, clockEvents_append, clock_free q (fun e he => query_not_clock e (hq e he)),
      ← hsl, ← h1, ← h2]
    simp [clockEvents, Event.isClock]
  · rw [← hm, ← h1]; exact hn1
  · rw [← hm, ← h2]; exact hn2

theorem CAI_variant4_clock (d : Driver) (fuel : Nat) (stack : ContinuousAI.Vars)
    (s : St ContinuousAI.Vars) (h : ContinuousAI.main.config d fuel 4 stack = .next s) :
    (∃ r1 r3 r4, clockEvents (ContinuousAI.main d fuel 4 stack).final.trace =
      [Event.call (.DAQmxSetRefClkSrc s.vars.masterTaskHandle "PXI_Clk10") r1,
       Event.call (.DAQmxSetSyncPulseSrc s.vars.slaveTaskHandle s.vars.str1) r3,
       Event.call (.DAQmxSetRefClkSrc s.vars.slaveTaskHandle "PXI_Clk10") r4]) ∧
    ∃ s1 r1 e1, run (ContinuousAI.main.create d) (ContinuousAI.main.entry stack) = .next s1 ∧
      (ContinuousAI.GetTerminalNameWithDevPrefix d fuel s.vars.masterTaskHandle "SyncPulse"
        s1.vars.str1 (s1.trace ++
          [Event.call (.DAQmxSetRefClkSrc s.vars.masterTaskHandle "PXI_Clk10") r1])).ret
        = some (e1, s.vars.str1) := by
  obtain ⟨s1, s2, sw, hs1, hs2, _, ht, hc, hm, hsl, h1, h2⟩ := CAI_clock_events d fuel 4 stack s h
  obtain ⟨r1, q, r3, r4, hx, hq⟩ := CAI_switch4 d fuel s1 s2 hs2
  obtain ⟨r1', e1, hn1⟩ := CAI_switch4_names d fuel s1 s2 hs2
  have hsw := List.append_cancel_left (ht.symm.trans (by rw [hx, List.append_assoc]))
  refine ⟨⟨r1, r3, r4, ?_⟩, s1, r1', e1, hs1, ?_⟩
  · rw [hc, hsw, List.cons_append, ← List.singleton_append, clockEvents_append, clockEvents_append,
      clock_free q (fun e he => query_not_clock e (hq e he)), ← hsl, ← h1, ← hm]
    simp [clockEvents, Event.isClock]
  · rw [← hm, ← h1]; exact hn1

/-- C6: in `main` of `ContinuousAI.c`, when every call of the run succeeds, the
clock-sharing property calls of the whole run are, for `synchType = 1`: the reference
clock source of the master is set to `"OnboardClock"`, read back with
`DAQmxGetRefClkSrc`, its rate read with `DAQmxGetRefClkRate`, and the slave's source
and rate are set to exactly the values read; for `synchType = 0`: the master timebase
source and rate are read from the master and set on the slave.  Nothing else among
master timebase, reference clock, sample clock timebase and sync pulse is touched. -/
theorem C6_reference_clock_copy (d : Driver) (fuel : Nat) (stack : ContinuousAI.Vars)
    (s : St ContinuousAI.Vars) :
    (ContinuousAI.main.config d fuel 1 stack = .next s →
      ∃ r1 r2 r3 r4 r5, clockEvents (ContinuousAI.main d fuel 1 stack).final.trace =
        [Event.call (.DAQmxSetRefClkSrc s.vars.masterTaskHandle "OnboardClock") r1,
         Event.call (.DAQmxGetRefClkSrc s.vars.masterTaskHandle 256) r2,
         Event.call (.DAQmxGetRefClkRate s.vars.masterTaskHandle) r3,
         Event.call (.DAQmxSetRefClkSrc s.vars.slaveTaskHandle r2.str) r4,
         Event.call (.DAQmxSetRefClkRate s.vars.slaveTaskHandle r3.f64) r5]) ∧
    (ContinuousAI.main.config d fuel 0 stack = .next s →
      ∃ r1 r2 r3 r4, clockEvents (ContinuousAI.main d fuel 0 stack).final.trace =
        [Event.call (.DAQmxGetMasterTimebaseSrc s.vars.masterTaskHandle 256) r1,
         Event.call (.DAQmxGetMasterTimebaseRate s.vars.masterTaskHandle) r2,
         Event.call (.DAQmxSetMasterTimebaseSrc s.vars.slaveTaskHandle r1.str) r3,
         Event.call (.DAQmxSetMasterTimebaseRate s.vars.slaveTaskHandle r2.f64) r4]) :=
  ⟨CAI_variant1_clock d fuel stack s, CAI_variant0_clock d fuel stack s⟩

/-- Witness of C6: both variants on the test driver, where every call succeeds. -/
theorem C6_reference_clock_copy_witness :
    (∃ s, ContinuousAI.main.config exampleDriver 5 1 ContinuousAI.exampleStack = .next s ∧
      ∃ r1 r2 r3 r4 r5, clockEvents (ContinuousAI.main exampleDriver 5 1
          ContinuousAI.exampleStack).final.trace =
        [Event.call (.DAQmxSetRefClkSrc s.vars.masterTaskHandle "OnboardClock") r1,
         Event.call (.DAQmxGetRefClkSrc s.vars.masterTaskHandle 256) r2,
         Event.call (.DAQmxGetRefClkRate s.vars.masterTaskHandle) r3,
         Event.call (.DAQmxSetRefClkSrc s.vars.slaveTaskHandle r2.str) r4,
         Event.call (.DAQmxSetRefClkRate s.vars.slaveTaskHandle r3.f64) r5]) ∧
    (∃ s, ContinuousAI.main.config exampleDriver 5 0 ContinuousAI.exampleStack = .next s ∧
      ∃ r1 r2 r3 r4, clockEvents (ContinuousAI.main exampleDriver 5 0
          ContinuousAI.exampleStack).final.trace =
        [Event.call (.DAQmxGetMasterTimebaseSrc s.vars.masterTaskHandle 256) r1,
         Event.call (.DAQmxGetMasterTimebaseRate s.vars.masterTaskHandle) r2,
         Event.call (.DAQmxSetMasterTimebaseSrc s.vars.slaveTaskHandle r1.str) r3,
         Event.call (.DAQmxSetMasterTimebaseRate s.vars.slaveTaskHandle r2.f64) r4]) := by
  have hb : BoundedDevices exampleDriver 5 := simDriver_bounded _ _ 5 (by decide) (by decide)
  obtain ⟨s1, h1⟩ := CAI_config_next exampleDriver (simDriver_allSucceed _) 5 1 hb
    ContinuousAI.exampleStack
  obtain ⟨s0, h0⟩ := CAI_config_next exampleDriver (simDriver_allSucceed _) 5 0 hb
    ContinuousAI.exampleStack
  exact ⟨⟨s1, h1, (C6_reference_clock_copy exampleDriver 5 ContinuousAI.exampleStack s1).1 h1⟩,
    ⟨s0, h0, (C6_reference_clock_copy exampleDriver 5 ContinuousAI.exampleStack s0).2 h0⟩⟩

theorem CAI_example_handles (synchType : Nat) (s : St ContinuousAI.Vars)
    (h : ContinuousAI.main.config exampleDriver 5 synchType ContinuousAI.exampleStack = .next s) :
    s.vars.masterTaskHandle = 1 ∧ s.vars.slaveTaskHandle = 4 := by
  obtain ⟨s1, s2, sw, hs1, _, _, _, _, hm, hsl, _, _⟩ := CAI_clock_events _ _ _ _ s h
  have e : run (ContinuousAI.main.create exampleDriver) (ContinuousAI.main.entry ContinuousAI.exampleStack)
      = .next s1 → s1.vars.masterTaskHandle = 1 ∧ s1.vars.slaveTaskHandle = 4 := by
    intro h1
    simp [ContinuousAI.main.create, run, DAQmxErrChk, exampleDriver, simDriver, ContinuousAI.main.entry,
      DAQmxFailed, keep] at h1
    subst h1
    exact ⟨rfl, rfl⟩
  rw [← hm, ← hsl]
  exact e hs1

/-- C7, counterexample: with `synchType = 1` and a driver none of whose calls fails, the
tasks get the handles `1` (master) and `4` (slave), and the log of `main` holds a
property-set call on the master task: `DAQmxSetRefClkSrc(masterTaskHandle,"OnboardClock")`.
The value is a literal, not one obtained from the master. -/
theorem C7_master_is_written :
    ∃ s r, ContinuousAI.main.config exampleDriver 5 1 ContinuousAI.exampleStack = .next s ∧
      s.vars.masterTaskHandle = 1 ∧ s.vars.slaveTaskHandle = 4 ∧
      Event.call (.DAQmxSetRefClkSrc 1 "OnboardClock") r ∈
        (ContinuousAI.main exampleDriver 5 1 ContinuousAI.exampleStack).final.trace := by
  have hb : BoundedDevices exampleDriver 5 := simDriver_bounded _ _ 5 (by decide) (by decide)
  obtain ⟨s, h⟩ := CAI_config_next exampleDriver (simDriver_allSucceed _) 5 1 hb
    ContinuousAI.exampleStack
  obtain ⟨hm, hsl⟩ := CAI_example_handles 1 s h
  obtain ⟨r1, r2, r3, r4, r5, hc⟩ := CAI_variant1_clock exampleDriver 5 ContinuousAI.exampleStack s h
  refine ⟨s, r1, h, hm, hsl, ?_⟩
  have hmem : Event.call (.DAQmxSetRefClkSrc 1 "OnboardClock") r1 ∈
      clockEvents (ContinuousAI.main exampleDriver 5 1 ContinuousAI.exampleStack).final.trace := by
    rw [hc, hm]
    exact List.mem_cons_self _ _
  exact (List.mem_filter.mp hmem).1

/-- C7, amended: in a run of `main` of `ContinuousAI.c` that reaches the label `Error`
by falling through, the clock-sharing property calls of the log are exactly, per
variant: 0 - master timebase source and rate read from the master and set on the slave;
1 - the master's reference clock source set to `"OnboardClock"`, then source and rate
read from the master and set on the slave; 2 - reference clock source `"PXI_Clk10"`
and rate `10000000.0` set on the master and then on the slave, nothing read;
3 - the slave's sample clock timebase source and sync pulse source set to the names
`GetTerminalNameWithDevPrefix` returned for the master with `"SampleClockTimebase"`
and `"SyncPulse"`; 4 - `"PXI_Clk10"` set as reference clock source of the master, the
slave's sync pulse source set to the helper's `"SyncPulse"` name for the master, and
`"PXI_Clk10"` set as reference clock source of the slave. -/
theorem C7_variant_calls (d : Driver) (fuel : Nat) (stack : ContinuousAI.Vars)
    (s : St ContinuousAI.Vars) :
    (ContinuousAI.main.config d fuel 0 stack = .next s →
      ∃ r1 r2 r3 r4, clockEvents (ContinuousAI.main d fuel 0 stack).final.trace =
        [Event.call (.DAQmxGetMasterTimebaseSrc s.vars.masterTaskHandle 256) r1,
         Event.call (.DAQmxGetMasterTimebaseRate s.vars.masterTaskHandle) r2,
         Event.call (.DAQmxSetMasterTimebaseSrc s.vars.slaveTaskHandle r1.str) r3,
         Event.call (.DAQmxSetMasterTimebaseRate s.vars.slaveTaskHandle r2.f64) r4]) ∧
    (ContinuousAI.main.config d fuel 1 stack = .next s →
      ∃ r1 r2 r3 r4 r5, clockEvents (ContinuousAI.main d fuel 1 stack).final.trace =
        [Event.call (.DAQmxSetRefClkSrc s.vars.masterTaskHandle "OnboardClock") r1,
         Event.call (.DAQmxGetRefClkSrc s.vars.masterTaskHandle 256) r2,
         Event.call (.DAQmxGetRefClkRate s.vars.masterTaskHandle) r3,
         Event.call (.DAQmxSetRefClkSrc s.vars.slaveTaskHandle r2.str) r4,
         Event.call (.DAQmxSetRefClkRate s.vars.slaveTaskHandle r3.f64) r5]) ∧
    (ContinuousAI.main.config d fuel 2 stack = .next s →
      ∃ r1 r2 r3 r4, clockEvents (ContinuousAI.main d fuel 2 stack).final.trace =
        [Event.call (.DAQmxSetRefClkSrc s.vars.masterTaskHandle "PXI_Clk10") r1,
         Event.call (.DAQmxSetRefClkRate s.vars.masterTaskHandle f64_10000000) r2,
         Event.call (.DAQmxSetRefClkSrc s.vars.slaveTaskHandle "PXI_Clk10") r3,
         Event.call (.DAQmxSetRefClkRate s.vars.slaveTaskHandle f64_10000000) r4]) ∧
    (ContinuousAI.main.config d fuel 3 stack = .next s →
      (∃ r3 r4, clockEvents (ContinuousAI.main d fuel 3 stack).final.trace =
        [Event.call (.DAQmxSetSampClkTimebaseSrc s.vars.slaveTaskHandle s.vars.str1) r3,
         Event.call (.DAQmxSetSyncPulseSrc s.vars.slaveTaskHandle s.vars.str2) r4]) ∧
      ∃ s1 e1 e2, run (ContinuousAI.main.create d) (ContinuousAI.main.entry stack) = .next s1 ∧
        (ContinuousAI.GetTerminalNameWithDevPrefix d fuel s.vars.masterTaskHandle "SampleClockTimebase"
          s1.vars.str1 s1.trace).ret = some (e1, s.vars.str1) ∧
        (ContinuousAI.GetTerminalNameWithDevPrefix d fuel s.vars.masterTaskHandle "SyncPulse"
          s1.vars.str2 (ContinuousAI.GetTerminalNameWithDevPrefix d fuel s.vars.masterTaskHandle
            "SampleClockTimebase" s1.vars.str1 s1.trace).trace).ret = some (e2, s.vars.str2)) ∧
    (ContinuousAI.main.config d fuel 4 stack = .next s →
      (∃ r1 r3 r4, clockEvents (ContinuousAI.main d fuel 4 stack).final.trace =
        [Event.call (.DAQmxSetRefClkSrc s.vars.masterTaskHandle "PXI_Clk10") r1,
         Event.call (.DAQmxSetSyncPulseSrc s.vars.slaveTaskHandle s.vars.str1) r3,
         Event.call (.DAQmxSetRefClkSrc s.vars.slaveTaskHandle "PXI_Clk10") r4]) ∧
      ∃ s1 r1 e1, run (ContinuousAI.main.create d) (ContinuousAI.main.entry stack) = .next s1 ∧
        (ContinuousAI.GetTerminalNameWithDevPrefix d fuel s.vars.masterTaskHandle "SyncPulse"
          s1.vars.str1 (s1.trace ++
            [Event.call (.DAQmxSetRefClkSrc s.vars.masterTaskHandle "PXI_Clk10") r1])).ret
          = some (e1, s.vars.str1)) :=
  ⟨CAI_variant0_clock d fuel stack s, CAI_variant1_clock d fuel stack s,
    CAI_variant2_clock d fuel stack s, CAI_variant3_clock d fuel stack s,
    CAI_variant4_clock d fuel stack s⟩

/-- Witness of the amended C7: variants 2 and 4 on the test driver, where every call
succeeds. -/
theorem C7_variant_calls_witness :
    (∃ s, ContinuousAI.main.config exampleDriver 5 2 ContinuousAI.exampleStack = .next s ∧
      ∃ r1 r2 r3 r4, clockEvents (ContinuousAI.main exampleDriver 5 2
          ContinuousAI.exampleStack).final.trace =
        [Event.call (.DAQmxSetRefClkSrc s.vars.masterTaskHandle "PXI_Clk10") r1,
         Event.call (.DAQmxSetRefClkRate s.vars.masterTaskHandle f64_10000000) r2,
         Event.call (.DAQmxSetRefClkSrc s.vars.slaveTaskHandle "PXI_Clk10") r3,
         Event.call (.DAQmxSetRefClkRate s.vars.slaveTaskHandle f64_10000000) r4]) ∧
    (∃ s, ContinuousAI.main.config exampleDriver 5 4 ContinuousAI.exampleStack = .next s ∧
      ∃ r1 r3 r4, clockEvents (ContinuousAI.main exampleDriver 5 4
          ContinuousAI.exampleStack).final.trace =
        [Event.call (.DAQmxSetRefClkSrc s.vars.masterTaskHandle "PXI_Clk10") r1,
         Event.call (.DAQmxSetSyncPulseSrc s.vars.slaveTaskHandle s.vars.str1) r3,
         Event.call (.DAQmxSetRefClkSrc s.vars.slaveTaskHandle "PXI_Clk10") r4]) := by
  have hb : BoundedDevices exampleDriver 5 := simDriver_bounded _ _ 5 (by decide) (by decide)
  obtain ⟨s2, h2⟩ := CAI_config_next exampleDriver (simDriver_allSucceed _) 5 2 hb
    ContinuousAI.exampleStack
  obtain ⟨s4, h4⟩ := CAI_config_next exampleDriver (simDriver_allSucceed _) 5 4 hb
    ContinuousAI.exampleStack
  exact ⟨⟨s2, h2, (C7_variant_calls exampleDriver 5 ContinuousAI.exampleStack s2).2.2.1 h2⟩,
    ⟨s4, h4, ((C7_variant_calls exampleDriver 5 ContinuousAI.exampleStack s4).2.2.2.2 h4).1⟩⟩

theorem frame_weaken {V α : Type} (g : V → α) (K : Event → Bool) (stmt : Stmt V)
    (h : Frame g K stmt) : Frame (fun _ : V => ()) K stmt :=
  fun s => ⟨rfl, (h s).2⟩

theorem printf_step {V : Type} (text : V → String) (s s1 : St V) (h : printf text s = .next s1) :
    s1.trace = s.trace ++ [Event.printf (text s.vars)] ∧ s1.vars = s.vars := by
  simp only [printf, emit, Flow.next.injEq] at h
  subst h
  exact ⟨rfl, rfl⟩

theorem getchar_step {V : Type} (s s1 : St V) (h : (getchar : Stmt V) s = .next s1) :
    s1.trace = s.trace ++ [Event.getchar] ∧ s1.vars = s.vars := by
  simp only [getchar, emit, Flow.next.injEq] at h
  subst h
  exact ⟨rfl, rfl⟩

theorem CAI_tail_spec (d : Driver) (fuel : Nat) (s2 s : St ContinuousAI.Vars)
    (h : run (ContinuousAI.main.trigger d fuel ++ ContinuousAI.main.start d) s2 = .next s) :
    ∃ err r1 r2 r3 r4 r5,
      (ContinuousAI.GetTerminalNameWithDevPrefix d fuel s2.vars.masterTaskHandle "ai/StartTrigger"
        s2.vars.trigName s2.trace).ret = some (err, s.vars.trigName) ∧
      s.trace = (ContinuousAI.GetTerminalNameWithDevPrefix d fuel s2.vars.masterTaskHandle
          "ai/StartTrigger" s2.vars.trigName s2.trace).trace ++
        [Event.call (.DAQmxCfgDigEdgeStartTrig s2.vars.slaveTaskHandle s.vars.trigName DAQmx_Val_Rising) r1,
         Event.call (.DAQmxRegisterEveryNSamplesEvent s2.vars.masterTaskHandle
           DAQmx_Val_Acquired_Into_Buffer 1000 0) r2,
         Event.call (.DAQmxRegisterDoneEvent s2.vars.masterTaskHandle 0) r3,
         Event.call (.DAQmxStartTask s2.vars.slaveTaskHandle) r4,
         Event.call (.DAQmxStartTask s2.vars.masterTaskHandle) r5,
         Event.printf "Acquiring samples continuously. Press Enter to interrupt\n",
         Event.printf "\nRead:\tMaster\tSlave\tTotal:\tMaster\tSlave\n",
         Event.getchar] ∧
      s.vars = { s2.vars with trigName := s.vars.trigName } := by
  simp only [ContinuousAI.main.trigger, ContinuousAI.main.start, List.cons_append, List.nil_append] at h
  rw [run_cons_next] at h; obtain ⟨sa, ha, h⟩ := h
  obtain ⟨e0, n0, hra, hta, hva⟩ := CAI_helperStmt_ret _ _ _ _ _ _ _ ha
  rw [run_cons_next] at h; obtain ⟨sb, hb, h⟩ := h
  obtain ⟨r1, -, htb, hvb⟩ := errChk_step _ _ _ _ _ hb
  rw [run_cons_next] at h; obtain ⟨sc, hc, h⟩ := h
  obtain ⟨r2, -, htc, hvc⟩ := errChk_step _ _ _ _ _ hc
  rw [run_cons_next] at h; obtain ⟨sd, hd, h⟩ := h
  obtain ⟨r3, -, htd, hvd⟩ := errChk_step _ _ _ _ _ hd
  rw [run_cons_next] at h; obtain ⟨se, he, h⟩ := h
  obtain ⟨r4, -, hte, hve⟩ := errChk_step _ _ _ _ _ he
  rw [run_cons_next] at h; obtain ⟨sf, hf, h⟩ := h
  obtain ⟨r5, -, htf, hvf⟩ := errChk_step _ _ _ _ _ hf
  rw [run_cons_next] at h; obtain ⟨sg, hg, h⟩ := h
  obtain ⟨htg, hvg⟩ := printf_step _ _ _ hg
  rw [run_cons_next] at h; obtain ⟨sh, hh, h⟩ := h
  obtain ⟨hth, hvh⟩ := printf_step _ _ _ hh
  rw [run_cons_next] at h; obtain ⟨si, hi, h⟩ := h
  obtain ⟨hti, hvi⟩ := getchar_step _ _ hi
  rw [run_nil_next] at h; subst h
  have hv : s.vars = { s2.vars with trigName := n0 } := by
    rw [hvi, hvh, hvg, hvf, hve, hvd, hvc, hvb, hva]; rfl
  have hn : s.vars.trigName = n0 := by rw [hv]
  refine ⟨e0, r1, r2, r3, r4, r5, ?_, ?_, ?_⟩
  · rw [hn]; exact hra
  · rw [hti, hth, htg, htf, hte, htd, htc, htb, hta, hn]
    simp only [hvh, hvg, hvf, hve, hvd, hvc, hvb, hva, keep, List.append_assoc, List.cons_append,
      List.nil_append]
  · rw [hn]; exact hv

theorem CAI_noswitch_noclock (d : Driver) (fuel n : Nat) (hn : 4 < n) (stack : ContinuousAI.Vars) :
    ContinuousAI.main.switch d fuel n = [] ∧
    clockEvents (ContinuousAI.main d fuel n stack).final.trace = [] := by
  have hsw : ContinuousAI.main.switch d fuel n = [] := by
    unfold ContinuousAI.main.switch
    split <;> first | omega | rfl
  refine ⟨hsw, ?_⟩
  have hall : ∀ stmt ∈ ContinuousAI.main.body d fuel n,
      Frame (fun _ : ContinuousAI.Vars => ()) Event.isClock stmt := by
    simp only [ContinuousAI.main.body, hsw, List.forall_mem_append, List.forall_mem_cons,
      List.not_mem_nil, false_implies, implies_true, and_true]
    refine ⟨⟨⟨CAI_create_noclock d, ?_⟩, ?_⟩, ?_⟩
    · exact frame_run _ _ _ (by simp)
    · intro stmt hm
      exact frame_weaken _ _ _ (CAI_tail_noclock d fuel stmt (List.mem_append_left _ hm))
    · intro stmt hm
      exact frame_weaken _ _ _ (CAI_tail_noclock d fuel stmt (List.mem_append_right _ hm))
  obtain ⟨_, new, ht, hk⟩ := frame_run _ _ _ hall (ContinuousAI.main.entry stack)
  simp only [ContinuousAI.main.entry, List.nil_append] at ht
  have hcfg : clockEvents (ContinuousAI.main.config d fuel n stack).state.trace = [] := by
    simp only [ContinuousAI.main.config, ContinuousAI.main.entry]
    rw [ht]; exact clock_free new hk
  simp only [ContinuousAI.main]
  cases hc : ContinuousAI.main.config d fuel n stack with
  | hang s => rw [hc] at hcfg; exact hcfg
  | next s =>
    rw [hc] at hcfg
    obtain ⟨cl, hcl, hcl2⟩ := CAI_cleanup_tail d s
    simp only [atError, hcl, clockEvents_append, clock_free cl (cleanup_not_clock cl hcl2),
      List.append_nil]
    exact hcfg
  | Error s =>
    rw [hc] at hcfg
    obtain ⟨cl, hcl, hcl2⟩ := CAI_cleanup_tail d s
    simp only [atError, hcl, clockEvents_append, clock_free cl (cleanup_not_clock cl hcl2),
      List.append_nil]
    exact hcfg

theorem CAI_noswitch_proceeds (d : Driver) (fuel n : Nat) (hn : 4 < n) (stack : ContinuousAI.Vars)
    (ha : AllSucceed d) (hb : BoundedDevices d fuel) :
    ∃ s1 s err r1 r2 r3 r4 r5,
      run (ContinuousAI.main.create d) (ContinuousAI.main.entry stack) = .next s1 ∧
      ContinuousAI.main.config d fuel n stack = .next s ∧
      (ContinuousAI.GetTerminalNameWithDevPrefix d fuel s.vars.masterTaskHandle "ai/StartTrigger"
        s1.vars.trigName s1.trace).ret = some (err, s.vars.trigName) ∧
      s.trace = (ContinuousAI.GetTerminalNameWithDevPrefix d fuel s.vars.masterTaskHandle
          "ai/StartTrigger" s1.vars.trigName s1.trace).trace ++
        [Event.call (.DAQmxCfgDigEdgeStartTrig s.vars.slaveTaskHandle s.vars.trigName DAQmx_Val_Rising) r1,
         Event.call (.DAQmxRegisterEveryNSamplesEvent s.vars.masterTaskHandle
           DAQmx_Val_Acquired_Into_Buffer 1000 0) r2,
         Event.call (.DAQmxRegisterDoneEvent s.vars.masterTaskHandle 0) r3,
         Event.call (.DAQmxStartTask s.vars.slaveTaskHandle) r4,
         Event.call (.DAQmxStartTask s.vars.masterTaskHandle) r5,
         Event.printf "Acquiring samples continuously. Press Enter to interrupt\n",
         Event.printf "\nRead:\tMaster\tSlave\tTotal:\tMaster\tSlave\n",
         Event.getchar] := by
  obtain ⟨s, h⟩ := CAI_config_next d ha fuel n hb stack
  obtain ⟨s1, s2, sw, hs1, hs2, hs3, _, _, hm, hsl, _, _⟩ := CAI_clock_events d fuel n stack s h
  rw [(CAI_noswitch_noclock d fuel n hn stack).1, run_nil_next] at hs2
  subst hs2
  obtain ⟨err, r1, r2, r3, r4, r5, hr, ht, _⟩ := CAI_tail_spec d fuel s2 s hs3
  rw [hm, hsl] at ht
  rw [hm] at hr
  exact ⟨s2, s, err, r1, r2, r3, r4, r5, hs1, h, hr, ht⟩

/-- C21: for every `synchType` above `4` (the selector is a `uInt32`) the `switch` of
`main` in `ContinuousAI.c` has no statement to run and the log of the whole run holds
no call that reads or writes a master timebase, reference clock, sample clock timebase
or sync pulse property; and when no call fails (fewer devices than fuel), `main`
goes on right after the task creation with the helper call for `"ai/StartTrigger"`,
the slave's start trigger, the two event registrations, the start of the slave, the
start of the master, and reaches its wait for Enter. -/
theorem C21_out_of_range_selector (d : Driver) (fuel n : Nat) (stack : ContinuousAI.Vars)
    (hn : 4 < n) :
    ContinuousAI.main.switch d fuel n = [] ∧
    clockEvents (ContinuousAI.main d fuel n stack).final.trace = [] ∧
    (AllSucceed d → BoundedDevices d fuel →
      ∃ s1 s err r1 r2 r3 r4 r5,
        run (ContinuousAI.main.create d) (ContinuousAI.main.entry stack) = .next s1 ∧
        ContinuousAI.main.config d fuel n stack = .next s ∧
        (ContinuousAI.GetTerminalNameWithDevPrefix d fuel s.vars.masterTaskHandle "ai/StartTrigger"
          s1.vars.trigName s1.trace).ret = some (err, s.vars.trigName) ∧
        s.trace = (ContinuousAI.GetTerminalNameWithDevPrefix d fuel s.vars.masterTaskHandle
            "ai/StartTrigger" s1.vars.trigName s1.trace).trace ++
          [Event.call (.DAQmxCfgDigEdgeStartTrig s.vars.slaveTaskHandle s.vars.trigName DAQmx_Val_Rising) r1,
           Event.call (.DAQmxRegisterEveryNSamplesEvent s.vars.masterTaskHandle
             DAQmx_Val_Acquired_Into_Buffer 1000 0) r2,
           Event.call (.DAQmxRegisterDoneEvent s.vars.masterTaskHandle 0) r3,
           Event.call (.DAQmxStartTask s.vars.slaveTaskHandle) r4,
           Event.call (.DAQmxStartTask s.vars.masterTaskHandle) r5,
           Event.printf "Acquiring samples continuously. Press Enter to interrupt\n",
           Event.printf "\nRead:\tMaster\tSlave\tTotal:\tMaster\tSlave\n",
           Event.getchar]) :=
  ⟨(CAI_noswitch_noclock d fuel n hn stack).1, (CAI_noswitch_noclock d fuel n hn stack).2,
    CAI_noswitch_proceeds d fuel n hn stack⟩

/-- Witness of C21: `synchType = 7` on the test driver. -/
theorem C21_out_of_range_selector_witness :
    4 < 7 ∧ AllSucceed exampleDriver ∧ BoundedDevices exampleDriver 5 ∧
    ContinuousAI.main.switch exampleDriver 5 7 = [] ∧
    clockEvents (ContinuousAI.main exampleDriver 5 7 ContinuousAI.exampleStack).final.trace = [] ∧
    ∃ s1 s err r1 r2 r3 r4 r5,
      run (ContinuousAI.main.create exampleDriver) (ContinuousAI.main.entry ContinuousAI.exampleStack)
        = .next s1 ∧
      ContinuousAI.main.config exampleDriver 5 7 ContinuousAI.exampleStack = .next s ∧
      (ContinuousAI.GetTerminalNameWithDevPrefix exampleDriver 5 s.vars.masterTaskHandle
        "ai/StartTrigger" s1.vars.trigName s1.trace).ret = some (err, s.vars.trigName) ∧
      s.trace = (ContinuousAI.GetTerminalNameWithDevPrefix exampleDriver 5 s.vars.masterTaskHandle
          "ai/StartTrigger" s1.vars.trigName s1.trace).trace ++
        [Event.call (.DAQmxCfgDigEdgeStartTrig s.vars.slaveTaskHandle s.vars.trigName DAQmx_Val_Rising) r1,
         Event.call (.DAQmxRegisterEveryNSamplesEvent s.vars.masterTaskHandle
           DAQmx_Val_Acquired_Into_Buffer 1000 0) r2,
         Event.call (.DAQmxRegisterDoneEvent s.vars.masterTaskHandle 0) r3,
         Event.call (.DAQmxStartTask s.vars.slaveTaskHandle) r4,
         Event.call (.DAQmxStartTask s.vars.masterTaskHandle) r5,
         Event.printf "Acquiring samples continuously. Press Enter to interrupt\n",
         Event.printf "\nRead:\tMaster\tSlave\tTotal:\tMaster\tSlave\n",
         Event.getchar] :=
  ⟨by decide, simDriver_allSucceed _, simDriver_bounded _ _ 5 (by decide) (by decide),
    (C21_out_of_range_selector exampleDriver 5 7 ContinuousAI.exampleStack (by decide)).1,
    (C21_out_of_range_selector exampleDriver 5 7 ContinuousAI.exampleStack (by decide)).2.1,
    (C21_out_of_range_selector exampleDriver 5 7 ContinuousAI.exampleStack (by decide)).2.2
      (simDriver_allSucceed _) (simDriver_bounded _ _ 5 (by decide) (by decide))⟩

theorem errChk_state {V : Type} (d : Driver) (c : V → Call) (store : Reply → V → V) (s : St V) :
    (DAQmxErrChk d c store s).state =
      { trace := s.trace ++ [Event.call (c s.vars) (d s.trace (c s.vars))],
        error := (d s.trace (c s.vars)).status, vars := store (d s.trace (c s.vars)) s.vars } := by
  simp only [DAQmxErrChk]
  split <;> rfl

theorem SAO_succeeds_helperStmt (d : Driver) (ha : AllSucceed d) (fuel : Nat)
    (hb : BoundedDevices d fuel) (terminalName : String) :
    Succeeds (SynchAI_AO.DAQmxErrChk_GetTerminalNameWithDevPrefix d fuel terminalName) := by
  intro s
  obtain ⟨err, name, hr, hf⟩ := helper_success d ha fuel hb s.vars.AItaskHandle terminalName
    s.vars.trigName s.trace
  simp only [SynchAI_AO.DAQmxErrChk_GetTerminalNameWithDevPrefix, helper_copies_eq, hr, hf,
    Bool.false_eq_true, if_false]
  exact ⟨_, rfl⟩

theorem SAO_config_next (d : Driver) (ha : AllSucceed d) (fuel : Nat)
    (hb : BoundedDevices d fuel) (stack : SynchAI_AO.Vars) :
    ∃ s, SynchAI_AO.main.config d fuel stack = .next s := by
  refine succeeds_run _ ?_ _
  simp only [SynchAI_AO.main.body, SynchAI_AO.main.configure, SynchAI_AO.main.start,
    List.forall_mem_append, List.forall_mem_cons, List.not_mem_nil,
    false_implies, implies_true, and_true]
  repeat' apply And.intro
  all_goals first
    | exact succeeds_errChk _ ha _ _
    | exact succeeds_printf _
    | exact succeeds_getchar
    | exact SAO_succeeds_helperStmt _ ha _ hb _

theorem singleTaskCleanup_report (d : Driver) (s : St TaskVars) :
    ∃ td, (singleTaskCleanup d s).trace =
        s.trace ++ reportTail d s.trace s.error td "End of program, press Enter key to quit\n" ∧
      ∀ e ∈ td, e.isStopClear = true := by
  simp only [singleTaskCleanup, call, emit, keep, reportTail, errorLine]
  split_ifs <;> simp only [List.append_assoc, List.cons_append, List.nil_append] <;> first
    | exact ⟨[], rfl, by simp⟩
    | exact ⟨[Event.call _ _, Event.call _ _], rfl, by simp [Event.isStopClear]⟩

theorem CAI_cleanup_report (d : Driver) (s : St ContinuousAI.Vars) :
    ∃ td, (ContinuousAI.main.cleanup d s).trace =
        s.trace ++ reportTail d s.trace s.error td "End of program, press Enter key to quit" ∧
      ∀ e ∈ td, e.isStopClear = true := by
  simp only [ContinuousAI.main.cleanup, call, emit, keep, reportTail, errorLine]
  split_ifs <;> simp only [List.append_assoc, List.cons_append, List.nil_append] <;> first
    | exact ⟨[], rfl, by simp⟩
    | exact ⟨[Event.call _ _, Event.call _ _], rfl, by simp [Event.isStopClear]⟩
    | exact ⟨[Event.call _ _, Event.call _ _, Event.call _ _, Event.call _ _], rfl,
        by simp [Event.isStopClear]⟩

theorem SAO_cleanup_report (d : Driver) (s : St SynchAI_AO.Vars) :
    ∃ td, (SynchAI_AO.main.cleanup d s).trace =
        s.trace ++ reportTail d s.trace s.error td "End of program, press Enter key to quit\n" ∧
      ∀ e ∈ td, e.isStopClear = true := by
  simp only [SynchAI_AO.main.cleanup, call, emit, keep, reportTail, errorLine]
  split_ifs <;> simp only [List.append_assoc, List.cons_append, List.nil_append] <;> first
    | exact ⟨[], rfl, by simp⟩
    | exact ⟨[Event.call _ _, Event.call _ _], rfl, by simp [Event.isStopClear]⟩
    | exact ⟨[Event.call _ _, Event.call _ _, Event.call _ _, Event.call _ _], rfl,
        by simp [Event.isStopClear]⟩

theorem reportedRun_of {V : Type} (d : Driver) (endText : String) (cleanup : St V → St V)
    (stmts : List (Stmt V)) (s0 : St V)
    (h0 : s0.trace = []) (he : DAQmxFailed s0.error = false)
    (hk : ∀ stmt ∈ stmts, KeepsFailFast stmt)
    (hc : ∀ s, ∃ td, (cleanup s).trace = s.trace ++ reportTail d s.trace s.error td endText ∧
      ∀ e ∈ td, e.isStopClear = true) :
    ReportedRun d endText (run stmts s0) (atError cleanup (run stmts s0)) := by
  have hff : (run stmts s0).failFast := keeps_run stmts hk s0 ⟨by simp [h0], he⟩
  cases hr : run stmts s0 with
  | next s =>
    rw [hr] at hff
    refine ⟨?_, ?_, fun _ => hc s⟩
    · intro s1 h1
      cases h1
      exact hff.2
    · intro s1 h1
      cases h1
  | Error s =>
    rw [hr] at hff
    refine ⟨?_, ?_, fun _ => hc s⟩
    · intro s1 h1
      cases h1
    · intro s1 h1
      cases h1
      exact hff.2
  | hang s =>
    refine ⟨?_, ?_, fun h => absurd rfl (h s)⟩
    · intro s1 h1
      cases h1
    · intro s1 h1
      cases h1

theorem failuresReported_of {V : Type} (d : Driver) (endText : String) (cleanup : St V → St V)
    (stmts : List (Stmt V)) (s0 : St V)
    (h0 : s0.trace = []) (he : DAQmxFailed s0.error = false)
    (hk : ∀ stmt ∈ stmts, KeepsFailFast stmt)
    (hc : ∀ s, ∃ td, (cleanup s).trace = s.trace ++ reportTail d s.trace s.error td endText ∧
      ∀ e ∈ td, e.isStopClear = true) :
    FailuresReported d (run stmts s0) (atError cleanup (run stmts s0)) := by
  have hff : (run stmts s0).failFast := keeps_run stmts hk s0 ⟨by simp [h0], he⟩
  intro e he2 hbad
  cases hr : run stmts s0 with
  | next s =>
    rw [hr] at hff he2
    rw [hff.1 e he2] at hbad
    cases hbad
  | hang s =>
    rw [hr] at hff he2
    rw [hff e he2] at hbad
    cases hbad
  | Error s =>
    rw [hr] at hff
    obtain ⟨td, htd, _⟩ := hc s
    simp only [atError, Flow.state, htd, reportTail, hff.2, if_true]
    simp

/-- C18: in every example's `main`, `error` is non-failing when control falls through
to the label `Error` and failing when a `DAQmxErrChk` jumped there; the code from the
label on then appends to the log: with a failing `error`, exactly one
`DAQmxGetExtendedErrorInfo`, then stop and clear calls only, then the line
`"DAQmx Error: "` with the text just retrieved; with a non-failing `error`, stop and
clear calls only and no error line; in both cases followed by the closing prompt and
the wait for Enter. -/
theorem C18_report_ordering (d : Driver) (fuel synchType : Nat) (stackC : ContinuousAI.Vars)
    (stackS : SynchAI_AO.Vars) (data : List float64) :
    ReportedRun d "End of program, press Enter key to quit"
      (ContinuousAI.main.config d fuel synchType stackC) (ContinuousAI.main d fuel synchType stackC) ∧
    ReportedRun d "End of program, press Enter key to quit\n"
      (SynchAI_AO.main.config d fuel stackS) (SynchAI_AO.main d fuel stackS) ∧
    ReportedRun d "End of program, press Enter key to quit\n"
      (Acq_IntClk.main.config d) (Acq_IntClk.main d) ∧
    ReportedRun d "End of program, press Enter key to quit\n"
      (WriteDigChan.main.config d) (WriteDigChan.main d) ∧
    ReportedRun d "End of program, press Enter key to quit\n"
      (DigPulse.main.config d) (DigPulse.main d) ∧
    ReportedRun d "End of program, press Enter key to quit\n"
      (ContGen_ExtClk_DigStart.main.config d data) (ContGen_ExtClk_DigStart.main d data) ∧
    ReportedRun d "End of program, press Enter key to quit\n"
      (MultVoltUpdates_IntClk_Retrig.main.config d data) (MultVoltUpdates_IntClk_Retrig.main d data) ∧
    ReportedRun d "End of program, press Enter key to quit\n"
      (MultVoltUpdates_SWTimed.main.config d fuel data) (MultVoltUpdates_SWTimed.main d fuel data) := by
  obtain ⟨k1, k2, k3, k4, k5, k6⟩ := singleTask_bodies_keep d fuel data
  exact ⟨reportedRun_of d _ _ _ _ rfl rfl (CAI_body_keeps d fuel synchType) (CAI_cleanup_report d),
    reportedRun_of d _ _ _ _ rfl rfl (SAO_body_keeps d fuel) (SAO_cleanup_report d),
    reportedRun_of d _ _ _ _ rfl rfl k1 (singleTaskCleanup_report d),
    reportedRun_of d _ _ _ _ rfl rfl k2 (singleTaskCleanup_report d),
    reportedRun_of d _ _ _ _ rfl rfl k3 (singleTaskCleanup_report d),
    reportedRun_of d _ _ _ _ rfl rfl k4 (singleTaskCleanup_report d),
    reportedRun_of d _ _ _ _ rfl rfl k5 (singleTaskCleanup_report d),
    reportedRun_of d _ _ _ _ rfl rfl k6 (singleTaskCleanup_report d)⟩

theorem CAI_everyN_reports (d : Driver) (taskHandle : TaskHandle) (everyNsamplesEventType : Int)
    (nSamples : Nat) (s : St ContinuousAI.Vars) :
    CallbackReports d s.trace
      (ContinuousAI.EveryNCallback d taskHandle everyNsamplesEventType nSamples s).2.trace := by
  simp only [CallbackReports, Reported, appended, errorLine, ContinuousAI.EveryNCallback,
    ContinuousAI.EveryNCallback.Error, call, emit, keep]
  split_ifs <;>
    simp only [List.append_assoc, List.cons_append, List.nil_append, List.drop_left] <;>
    first
      | (intro _; exact ⟨[_], _, rfl, by simp⟩)
      | (intro _; exact ⟨[_, _], _, rfl, by simp⟩)
      | simp_all [Event.ok]

theorem SAO_everyN_reports (d : Driver) (taskHandle : TaskHandle) (everyNsamplesEventType : Int)
    (nSamples : Nat) (s : St SynchAI_AO.Vars) :
    CallbackReports d s.trace
      (SynchAI_AO.EveryNCallback d taskHandle everyNsamplesEventType nSamples s).2.trace := by
  simp only [CallbackReports, Reported, appended, errorLine, SynchAI_AO.EveryNCallback,
    SynchAI_AO.EveryNCallback.Error, call, emit, keep]
  split_ifs <;>
    simp only [List.append_assoc, List.cons_append, List.nil_append, List.drop_left] <;>
    first
      | (intro _; exact ⟨[_], _, rfl, by simp⟩)
      | simp_all [Event.ok]

theorem CAI_done_reports (d : Driver) (taskHandle : TaskHandle) (status : Int)
    (s : St ContinuousAI.Vars) :
    CallbackReports d s.trace (ContinuousAI.DoneCallback d taskHandle status s).2.trace ∧
    (DAQmxFailed status = true →
      Reported d s.trace (ContinuousAI.DoneCallback d taskHandle status s).2.trace) := by
  have h2 : DAQmxFailed status = true →
      Reported d s.trace (ContinuousAI.DoneCallback d taskHandle status s).2.trace := by
    intro h
    refine ⟨[], ?_⟩
    simp only [appended, errorLine, ContinuousAI.DoneCallback, h, if_true, call, emit, keep,
      List.append_nil]
    split_ifs <;>
      simp only [List.append_assoc, List.cons_append, List.nil_append, List.drop_left] <;>
      exact ⟨_, rfl, by simp⟩
  refine ⟨?_, h2⟩
  by_cases h : DAQmxFailed status = true
  · exact fun _ => h2 h
  · rintro ⟨e, he, _⟩
    simp [appended, ContinuousAI.DoneCallback, h] at he

theorem SAO_done_reports (d : Driver) (taskHandle : TaskHandle) (status : Int)
    (s : St SynchAI_AO.Vars) :
    CallbackReports d s.trace (SynchAI_AO.DoneCallback d taskHandle status s).2.trace ∧
    (DAQmxFailed status = true →
      Reported d s.trace (SynchAI_AO.DoneCallback d taskHandle status s).2.trace) := by
  have h2 : DAQmxFailed status = true →
      Reported d s.trace (SynchAI_AO.DoneCallback d taskHandle status s).2.trace := by
    intro h
    refine ⟨[], ?_⟩
    simp only [appended, errorLine, SynchAI_AO.DoneCallback, h, if_true, call, emit, keep,
      List.append_nil]
    split_ifs <;>
      simp only [List.append_assoc, List.cons_append, List.nil_append, List.drop_left] <;>
      exact ⟨_, rfl, by simp⟩
  refine ⟨?_, h2⟩
  by_cases h : DAQmxFailed status = true
  · exact fun _ => h2 h
  · rintro ⟨e, he, _⟩
    simp [appended, SynchAI_AO.DoneCallback, h] at he

theorem ContGen_done_reports (d : Driver) (taskHandle : TaskHandle) (status : Int)
    (s : St TaskVars) :
    CallbackReports d s.trace (ContGen_ExtClk_DigStart.DoneCallback d taskHandle status s).2.trace ∧
    (DAQmxFailed status = true →
      Reported d s.trace (ContGen_ExtClk_DigStart.DoneCallback d taskHandle status s).2.trace) := by
  have h2 : DAQmxFailed status = true →
      Reported d s.trace (ContGen_ExtClk_DigStart.DoneCallback d taskHandle status s).2.trace := by
    intro h
    refine ⟨[], ?_⟩
    simp only [appended, errorLine, ContGen_ExtClk_DigStart.DoneCallback, h, if_true, call, emit, keep,
      List.append_nil, List.append_assoc, List.cons_append, List.nil_append, List.drop_left]
    exact ⟨_, rfl, by simp⟩
  refine ⟨?_, h2⟩
  by_cases h : DAQmxFailed status = true
  · exact fun _ => h2 h
  · rintro ⟨e, he, _⟩
    simp [appended, ContGen_ExtClk_DigStart.DoneCallback, h] at he

theorem Retrig_done_reports (d : Driver) (taskHandle : TaskHandle) (status : Int)
    (s : St TaskVars) :
    CallbackReports d s.trace
      (MultVoltUpdates_IntClk_Retrig.DoneCallback d taskHandle status s).2.trace ∧
    (DAQmxFailed status = true →
      Reported d s.trace (MultVoltUpdates_IntClk_Retrig.DoneCallback d taskHandle status s).2.trace) := by
  have h2 : DAQmxFailed status = true →
      Reported d s.trace (MultVoltUpdates_IntClk_Retrig.DoneCallback d taskHandle status s).2.trace := by
    intro h
    refine ⟨[], ?_⟩
    simp only [appended, errorLine, MultVoltUpdates_IntClk_Retrig.DoneCallback, h, if_true, call, emit,
      keep, List.append_nil, List.append_assoc, List.cons_append, List.nil_append, List.drop_left]
    exact ⟨_, rfl, by simp⟩
  refine ⟨?_, h2⟩
  by_cases h : DAQmxFailed status = true
  · exact fun _ => h2 h
  · rintro ⟨e, he, _⟩
    simp [appended, MultVoltUpdates_IntClk_Retrig.DoneCallback, h] at he

/-- C11, counterexample: `main` of `Acq-IntClk.c` on a driver whose seventh logged step,
the `DAQmxStopTask` of the cleanup path, returns `-1`: the call fails and the run
prints no `"DAQmx Error: ..."` line. -/
theorem C11_cleanup_failure_not_printed :
    (Acq_IntClk.main (failingAt 6)).final.trace =
      [Event.call (.DAQmxCreateTask "") { status := 0, taskHandle := 1 },
       Event.call (.DAQmxCreateAIVoltageChan 1 "Dev1/ai0" "" DAQmx_Val_Cfg_Default f64_neg10 f64_10
         DAQmx_Val_Volts) { status := 0 },
       Event.call (.DAQmxCfgSampClkTiming 1 "" f64_10000 DAQmx_Val_Rising DAQmx_Val_FiniteSamps 1000)
         { status := 0 },
       Event.call (.DAQmxStartTask 1) { status := 0 },
       Event.call (.DAQmxReadAnalogF64 1 1000 f64_10 DAQmx_Val_GroupByChannel 1000) { status := 0 },
       Event.printf "Acquired 0 points\n",
       Event.call (.DAQmxStopTask 1) { status := -1 },
       Event.call (.DAQmxClearTask 1) { status := 0 },
       Event.printf "End of program, press Enter key to quit\n",
       Event.getchar] := by
  decide

/-- C11, amended: in every example's `main`, a failing driver call made before the
label `Error` (a call wrapped in `DAQmxErrChk` or a query of the helper) makes the run
print the line `"DAQmx Error: "` with the text `DAQmxGetExtendedErrorInfo` hands out;
and every callback of the examples (`EveryNCallback` and `DoneCallback` of the two
Sync examples, `DoneCallback` of `ContGen-ExtClk-DigStart.c` and of
`MultVoltUpdates-IntClk-Retrig.c`) in which a driver call failed, or to which a failing
status was delivered, calls `DAQmxGetExtendedErrorInfo` and afterwards prints the line
`"DAQmx Error: "` with the text that call returned. -/
theorem C11_checked_failures_reported (d : Driver) (fuel synchType : Nat)
    (stackC : ContinuousAI.Vars) (stackS : SynchAI_AO.Vars) (data : List float64) :
    (FailuresReported d (ContinuousAI.main.config d fuel synchType stackC)
        (ContinuousAI.main d fuel synchType stackC) ∧
      FailuresReported d (SynchAI_AO.main.config d fuel stackS) (SynchAI_AO.main d fuel stackS) ∧
      FailuresReported d (Acq_IntClk.main.config d) (Acq_IntClk.main d) ∧
      FailuresReported d (WriteDigChan.main.config d) (WriteDigChan.main d) ∧
      FailuresReported d (DigPulse.main.config d) (DigPulse.main d) ∧
      FailuresReported d (ContGen_ExtClk_DigStart.main.config d data)
        (ContGen_ExtClk_DigStart.main d data) ∧
      FailuresReported d (MultVoltUpdates_IntClk_Retrig.main.config d data)
        (MultVoltUpdates_IntClk_Retrig.main d data) ∧
      FailuresReported d (MultVoltUpdates_SWTimed.main.config d fuel data)
        (MultVoltUpdates_SWTimed.main d fuel data)) ∧
    (∀ taskHandle everyNsamplesEventType nSamples s, CallbackReports d s.trace
      (ContinuousAI.EveryNCallback d taskHandle everyNsamplesEventType nSamples s).2.trace) ∧
    (∀ taskHandle everyNsamplesEventType nSamples s, CallbackReports d s.trace
      (SynchAI_AO.EveryNCallback d taskHandle everyNsamplesEventType nSamples s).2.trace) ∧
    (∀ taskHandle status s,
      CallbackReports d s.trace (ContinuousAI.DoneCallback d taskHandle status s).2.trace ∧
      (DAQmxFailed status = true →
        Reported d s.trace (ContinuousAI.DoneCallback d taskHandle status s).2.trace)) ∧
    (∀ taskHandle status s,
      CallbackReports d s.trace (SynchAI_AO.DoneCallback d taskHandle status s).2.trace ∧
      (DAQmxFailed status = true →
        Reported d s.trace (SynchAI_AO.DoneCallback d taskHandle status s).2.trace)) ∧
    (∀ taskHandle status s,
      CallbackReports d s.trace (ContGen_ExtClk_DigStart.DoneCallback d taskHandle status s).2.trace ∧
      (DAQmxFailed status = true →
        Reported d s.trace (ContGen_ExtClk_DigStart.DoneCallback d taskHandle status s).2.trace)) ∧
    (∀ taskHandle status s,
      CallbackReports d s.trace
        (MultVoltUpdates_IntClk_Retrig.DoneCallback d taskHandle status s).2.trace ∧
      (DAQmxFailed status = true →
        Reported d s.trace
          (MultVoltUpdates_IntClk_Retrig.DoneCallback d taskHandle status s).2.trace)) := by
  obtain ⟨k1, k2, k3, k4, k5, k6⟩ := singleTask_bodies_keep d fuel data
  exact ⟨⟨failuresReported_of d _ _ _ _ rfl rfl (CAI_body_keeps d fuel synchType) (CAI_cleanup_report d),
      failuresReported_of d _ _ _ _ rfl rfl (SAO_body_keeps d fuel) (SAO_cleanup_report d),
      failuresReported_of d _ _ _ _ rfl rfl k1 (singleTaskCleanup_report d),
      failuresReported_of d _ _ _ _ rfl rfl k2 (singleTaskCleanup_report d),
      failuresReported_of d _ _ _ _ rfl rfl k3 (singleTaskCleanup_report d),
      failuresReported_of d _ _ _ _ rfl rfl k4 (singleTaskCleanup_report d),
      failuresReported_of d _ _ _ _ rfl rfl k5 (singleTaskCleanup_report d),
      failuresReported_of d _ _ _ _ rfl rfl k6 (singleTaskCleanup_report d)⟩,
    CAI_everyN_reports d, SAO_everyN_reports d, CAI_done_reports d, SAO_done_reports d,
    ContGen_done_reports d, Retrig_done_reports d⟩

/-- Witness of the amended C11: `main` of `Acq-IntClk.c` on a driver whose third call,
`DAQmxCfgSampClkTiming`, returns `-1`; and `DoneCallback` of
`MultVoltUpdates-IntClk-Retrig.c` with status `-1`. -/
theorem C11_checked_failures_reported_witness :
    (Event.call (.DAQmxCfgSampClkTiming 1 "" f64_10000 DAQmx_Val_Rising DAQmx_Val_FiniteSamps 1000)
        { status := -1 } ∈ (Acq_IntClk.main.config (failingAt 2)).state.trace ∧
      errorLine (failingAt 2) (Acq_IntClk.main.config (failingAt 2)).state.trace
        = .printf "DAQmx Error: \n" ∧
      errorLine (failingAt 2) (Acq_IntClk.main.config (failingAt 2)).state.trace
        ∈ (Acq_IntClk.main (failingAt 2)).final.trace) ∧
    (DAQmxFailed (-1) = true ∧
      Reported exampleDriver []
        (MultVoltUpdates_IntClk_Retrig.DoneCallback exampleDriver 1 (-1) singleTaskEntry).2.trace) :=
  ⟨⟨by decide, by decide,
      (C11_checked_failures_reported (failingAt 2) 0 0 ContinuousAI.exampleStack
        SynchAI_AO.exampleStack []).1.2.2.1
        (Event.call (.DAQmxCfgSampClkTiming 1 "" f64_10000 DAQmx_Val_Rising DAQmx_Val_FiniteSamps 1000)
          { status := -1 }) (by decide) (by decide)⟩,
    ⟨by decide,
      ((C11_checked_failures_reported exampleDriver 0 0 ContinuousAI.exampleStack
        SynchAI_AO.exampleStack []).2.2.2.2.2.2 1 (-1) singleTaskEntry).2 (by decide)⟩⟩

theorem atError_ret {V : Type} (cleanup : St V → St V) (f : Flow V) :
    (∀ r, (atError cleanup f).ret = some r → r = 0) ∧
    ((∀ s, f ≠ .hang s) → (atError cleanup f).ret = some 0) := by
  cases f with
  | next s => exact ⟨fun r h => by simp only [atError, Option.some.injEq] at h; exact h.symm, fun _ => rfl⟩
  | Error s => exact ⟨fun r h => by simp only [atError, Option.some.injEq] at h; exact h.symm, fun _ => rfl⟩
  | hang s => exact ⟨fun r h => by simp [atError] at h, fun h => absurd rfl (h s)⟩

theorem singleTask_bodies_nohang (d : Driver) (data : List float64) :
    (∀ stmt ∈ Acq_IntClk.main.body d, NoHang stmt) ∧
    (∀ stmt ∈ WriteDigChan.main.body d, NoHang stmt) ∧
    (∀ stmt ∈ DigPulse.main.body d, NoHang stmt) ∧
    (∀ stmt ∈ ContGen_ExtClk_DigStart.main.body d data, NoHang stmt) ∧
    (∀ stmt ∈ MultVoltUpdates_IntClk_Retrig.main.body d data, NoHang stmt) := by
  simp only [Acq_IntClk.main.body, WriteDigChan.main.body, DigPulse.main.body,
    ContGen_ExtClk_DigStart.main.body, MultVoltUpdates_IntClk_Retrig.main.body,
    List.forall_mem_cons, List.not_mem_nil, false_implies, implies_true, and_true]
  repeat' apply And.intro
  all_goals first
    | exact nohang_errChk _ _ _
    | exact nohang_printf _
    | exact nohang_getchar

theorem SAO_body_nohang (d : Driver) (fuel : Nat) (hb : BoundedDevices d fuel) :
    ∀ stmt ∈ SynchAI_AO.main.body d fuel, NoHang stmt := by
  simp only [SynchAI_AO.main.body, SynchAI_AO.main.configure, SynchAI_AO.main.start,
    List.forall_mem_append, List.forall_mem_cons, List.not_mem_nil,
    false_implies, implies_true, and_true]
  repeat' apply And.intro
  all_goals first
    | exact nohang_errChk _ _ _
    | exact nohang_printf _
    | exact nohang_getchar
    | exact SAO_nohang_helperStmt _ _ hb _

/-- C12: `main` of the five examples without a loop returns `0` for every driver;
`main` of the two Sync examples returns `0` for every driver that reports fewer than
`UINT32_MAX` devices (the helper's loop then ends); and in all eight examples, the
software-timed one included, whenever `main` returns, it returns `0`. -/
theorem C12_exit_status (d : Driver) (fuel synchType : Nat) (stackC : ContinuousAI.Vars)
    (stackS : SynchAI_AO.Vars) (data : List float64) :
    (Acq_IntClk.main d).ret = some 0 ∧
    (WriteDigChan.main d).ret = some 0 ∧
    (DigPulse.main d).ret = some 0 ∧
    (ContGen_ExtClk_DigStart.main d data).ret = some 0 ∧
    (MultVoltUpdates_IntClk_Retrig.main d data).ret = some 0 ∧
    (BoundedDevices d fuel → (ContinuousAI.main d fuel synchType stackC).ret = some 0 ∧
      (SynchAI_AO.main d fuel stackS).ret = some 0) ∧
    (∀ r, (ContinuousAI.main d fuel synchType stackC).ret = some r → r = 0) ∧
    (∀ r, (SynchAI_AO.main d fuel stackS).ret = some r → r = 0) ∧
    (∀ r, (MultVoltUpdates_SWTimed.main d fuel data).ret = some r → r = 0) ∧
    ((MultVoltUpdates_SWTimed.main.config d fuel data).isHang = false →
      (MultVoltUpdates_SWTimed.main d fuel data).ret = some 0) := by
  obtain ⟨n1, n2, n3, n4, n5⟩ := singleTask_bodies_nohang d data
  refine ⟨(atError_ret _ _).2 (nohang_run _ n1 _), (atError_ret _ _).2 (nohang_run _ n2 _),
    (atError_ret _ _).2 (nohang_run _ n3 _), (atError_ret _ _).2 (nohang_run _ n4 _),
    (atError_ret _ _).2 (nohang_run _ n5 _), ?_, (atError_ret _ _).1, (atError_ret _ _).1,
    (atError_ret _ _).1, ?_⟩
  · intro hb
    exact ⟨(atError_ret _ _).2 (nohang_run _ (CAI_body_nohang d fuel synchType hb) _),
      (atError_ret _ _).2 (nohang_run _ (SAO_body_nohang d fuel hb) _)⟩
  · intro hh
    refine (atError_ret _ _).2 ?_
    intro s hs
    rw [hs] at hh
    cases hh

/-- Witness of C12: the Sync examples on the test driver return `0`, and so does the
software-timed example when its second write fails. -/
theorem C12_exit_status_witness :
    BoundedDevices exampleDriver 5 ∧
    (ContinuousAI.main exampleDriver 5 0 ContinuousAI.exampleStack).ret = some 0 ∧
    (SynchAI_AO.main exampleDriver 5 SynchAI_AO.exampleStack).ret = some 0 ∧
    (MultVoltUpdates_SWTimed.main.config (failingAt 5) 3 []).isHang = false ∧
    (MultVoltUpdates_SWTimed.main (failingAt 5) 3 []).ret = some 0 :=
  ⟨simDriver_bounded _ _ 5 (by decide) (by decide),
    ((C12_exit_status exampleDriver 5 0 ContinuousAI.exampleStack SynchAI_AO.exampleStack []).2.2.2.2.2.1
      (simDriver_bounded _ _ 5 (by decide) (by decide))).1,
    ((C12_exit_status exampleDriver 5 0 ContinuousAI.exampleStack SynchAI_AO.exampleStack []).2.2.2.2.2.1
      (simDriver_bounded _ _ 5 (by decide) (by decide))).2,
    by decide,
    (C12_exit_status (failingAt 5) 3 0 ContinuousAI.exampleStack SynchAI_AO.exampleStack
      []).2.2.2.2.2.2.2.2.2 (by decide)⟩

/-- C13: `DoneCallback` of `ContinuousAI.c` and of `SynchAI-AO.c` returns `0`; with a
non-failing `status` it leaves the log and all variables as they are; with a failing
`status` it retrieves the error text, calls `DAQmxClearTask(taskHandle)`, then for each
dependent task whose global handle is non-zero (the slave task; the AI and the AO
task) calls `DAQmxStopTask` and then `DAQmxClearTask` on it and zeroes the handle,
and prints the error line. -/
theorem C13_done_callback (d : Driver) (taskHandle : TaskHandle) (status : Int)
    (sC : St ContinuousAI.Vars) (sS : St SynchAI_AO.Vars) :
    (ContinuousAI.DoneCallback d taskHandle status sC).1 = 0 ∧
    (SynchAI_AO.DoneCallback d taskHandle status sS).1 = 0 ∧
    (DAQmxFailed status = false →
      (ContinuousAI.DoneCallback d taskHandle status sC).2 = sC ∧
      (SynchAI_AO.DoneCallback d taskHandle status sS).2 = sS) ∧
    (DAQmxFailed status = true →
      (∃ r0 r1 rs rc,
        (ContinuousAI.DoneCallback d taskHandle status sC).2.trace = sC.trace ++
          [Event.call (.DAQmxGetExtendedErrorInfo 2048) r0, Event.call (.DAQmxClearTask taskHandle) r1] ++
          (if sC.vars.slaveTaskHandle ≠ 0 then
            [Event.call (.DAQmxStopTask sC.vars.slaveTaskHandle) rs,
             Event.call (.DAQmxClearTask sC.vars.slaveTaskHandle) rc] else []) ++
          [Event.printf ("DAQmx Error: " ++ r0.str ++ "\n")]) ∧
      (ContinuousAI.DoneCallback d taskHandle status sC).2.vars.slaveTaskHandle = 0 ∧
      (ContinuousAI.DoneCallback d taskHandle status sC).2.vars.masterTaskHandle
        = sC.vars.masterTaskHandle ∧
      (∃ r0 r1 rs rc rs2 rc2,
        (SynchAI_AO.DoneCallback d taskHandle status sS).2.trace = sS.trace ++
          [Event.call (.DAQmxGetExtendedErrorInfo 2048) r0, Event.call (.DAQmxClearTask taskHandle) r1] ++
          (if sS.vars.AItaskHandle ≠ 0 then
            [Event.call (.DAQmxStopTask sS.vars.AItaskHandle) rs,
             Event.call (.DAQmxClearTask sS.vars.AItaskHandle) rc] else []) ++
          (if sS.vars.AOtaskHandle ≠ 0 then
            [Event.call (.DAQmxStopTask sS.vars.AOtaskHandle) rs2,
             Event.call (.DAQmxClearTask sS.vars.AOtaskHandle) rc2] else []) ++
          [Event.printf ("DAQmx Error: " ++ r0.str ++ "\n")]) ∧
      (SynchAI_AO.DoneCallback d taskHandle status sS).2.vars.AItaskHandle = 0 ∧
      (SynchAI_AO.DoneCallback d taskHandle status sS).2.vars.AOtaskHandle = 0) := by
  refine ⟨?_, ?_, ?_, ?_⟩
  · simp only [ContinuousAI.DoneCallback]; split_ifs <;> rfl
  · simp only [SynchAI_AO.DoneCallback]; split_ifs <;> rfl
  · intro h
    simp [ContinuousAI.DoneCallback, SynchAI_AO.DoneCallback, h]
  · intro h
    refine ⟨?_, ?_, ?_, ?_, ?_, ?_⟩
    · simp only [ContinuousAI.DoneCallback, h, if_true, call, emit, keep]
      by_cases h1 : sC.vars.slaveTaskHandle = 0
      · simp only [h1, bne_self_eq_false, Bool.false_eq_true, if_false, ne_eq, not_true_eq_false,
          List.append_nil, List.append_assoc, List.cons_append, List.nil_append]
        exact ⟨_, _, ⟨0, 0, 0, 0, "", ⟨0⟩⟩, ⟨0, 0, 0, 0, "", ⟨0⟩⟩, rfl⟩
      · simp only [bne_iff_ne, ne_eq, h1, not_false_eq_true, if_true,
          List.append_assoc, List.cons_append, List.nil_append]
        exact ⟨_, _, _, _, rfl⟩
    · simp only [ContinuousAI.DoneCallback, h, if_true, call, emit, keep]
      split_ifs with h1
      · rfl
      · simpa using h1
    · simp only [ContinuousAI.DoneCallback, h, if_true, call, emit, keep]
      split_ifs <;> rfl
    · simp only [SynchAI_AO.DoneCallback, h, if_true, call, emit, keep]
      by_cases h1 : sS.vars.AItaskHandle = 0 <;> by_cases h2 : sS.vars.AOtaskHandle = 0
      · simp only [h1, h2, bne_self_eq_false, Bool.false_eq_true, if_false, ne_eq, not_true_eq_false,
          List.append_nil, List.append_assoc, List.cons_append, List.nil_append]
        exact ⟨_, _, ⟨0, 0, 0, 0, "", ⟨0⟩⟩, ⟨0, 0, 0, 0, "", ⟨0⟩⟩, ⟨0, 0, 0, 0, "", ⟨0⟩⟩,
          ⟨0, 0, 0, 0, "", ⟨0⟩⟩, rfl⟩
      · simp only [h1, bne_self_eq_false, Bool.false_eq_true, if_false, ne_eq, not_true_eq_false,
          bne_iff_ne, h2, not_false_eq_true, if_true,
          List.append_nil, List.append_assoc, List.cons_append, List.nil_append]
        exact ⟨_, _, ⟨0, 0, 0, 0, "", ⟨0⟩⟩, ⟨0, 0, 0, 0, "", ⟨0⟩⟩, _, _, rfl⟩
      · simp only [h2, bne_self_eq_false, Bool.false_eq_true, if_false, ne_eq, not_true_eq_false,
          bne_iff_ne, h1, not_false_eq_true, if_true,
          List.append_nil, List.append_assoc, List.cons_append, List.nil_append]
        exact ⟨_, _, _, _, ⟨0, 0, 0, 0, "", ⟨0⟩⟩, ⟨0, 0, 0, 0, "", ⟨0⟩⟩, rfl⟩
      · simp only [bne_iff_ne, ne_eq, h1, h2, not_false_eq_true, if_true,
          List.append_assoc, List.cons_append, List.nil_append]
        exact ⟨_, _, _, _, _, _, rfl⟩
    · simp only [SynchAI_AO.DoneCallback, h, if_true, call, emit, keep]
      split_ifs with h1 h2 h2 <;> first | rfl | simpa using h1
    · simp only [SynchAI_AO.DoneCallback, h, if_true, call, emit, keep]
      split_ifs with h1 h2 h2 <;> first | rfl | simpa using h2

/-- Witness of C13: a failing status delivered while the slave handle is `4`. -/
theorem C13_done_callback_witness :
    DAQmxFailed (-1) = true ∧
    (ContinuousAI.DoneCallback exampleDriver 1 (-1)
      ⟨[], 0, { ContinuousAI.exampleStack with masterTaskHandle := 1, slaveTaskHandle := 4 }⟩).2.vars.slaveTaskHandle
      = 0 :=
  ⟨by decide, ((C13_done_callback exampleDriver 1 (-1)
    ⟨[], 0, { ContinuousAI.exampleStack with masterTaskHandle := 1, slaveTaskHandle := 4 }⟩
    ⟨[], 0, SynchAI_AO.exampleStack⟩).2.2.2 (by decide)).2.1⟩

/-- C19: the copy of `GetTerminalNameWithDevPrefix` in `SynchAI-AO.c` and the one in
`ContinuousAI.c` behave alike for every driver, task, terminal name, initial content
of `triggerName`, log so far and amount of fuel: the same driver calls with the same
replies are logged, and the same status is returned with the same content of
`triggerName` (or both are still in the loop when the fuel runs out). -/
theorem C19_copies_agree (d : Driver) (fuel : Nat) (taskHandle : TaskHandle)
    (terminalName triggerName : String) (trace : List Event) :
    (SynchAI_AO.GetTerminalNameWithDevPrefix d fuel taskHandle terminalName triggerName trace).trace
      = (ContinuousAI.GetTerminalNameWithDevPrefix d fuel taskHandle terminalName triggerName trace).trace ∧
    (SynchAI_AO.GetTerminalNameWithDevPrefix d fuel taskHandle terminalName triggerName trace).ret
      = (ContinuousAI.GetTerminalNameWithDevPrefix d fuel taskHandle terminalName triggerName trace).ret := by
  rw [helper_copies_eq]
  exact ⟨rfl, rfl⟩

theorem loop_written (d : Driver) (taskHandle : TaskHandle) (terminalName : String) (n : Nat) :
    ∀ (fuel i : Nat) (error : Int) (buf : String) (tr : List Event) (err : Int) (name : String),
      (ContinuousAI.GetTerminalNameWithDevPrefix.loop d taskHandle terminalName n fuel i error buf
        tr).ret = some (err, name) →
      name = buf ∨ ∃ j r, Event.call (.DAQmxGetNthTaskDevice taskHandle j 256) r ∈
          (ContinuousAI.GetTerminalNameWithDevPrefix.loop d taskHandle terminalName n fuel i error buf
            tr).trace ∧ name = "/" ++ r.str ++ "/" ++ terminalName := by
  intro fuel
  induction fuel with
  | zero =>
    intro i error buf tr err name h
    rw [ContinuousAI.GetTerminalNameWithDevPrefix.loop] at h
    by_cases hi : i ≤ n
    · simp [hi] at h
    · simp only [hi, if_false, Option.some.injEq, Prod.mk.injEq] at h
      exact Or.inl h.2.symm
  | succ f ih =>
    intro i error buf tr err name h
    rw [ContinuousAI.GetTerminalNameWithDevPrefix.loop] at h ⊢
    by_cases hi : i ≤ n
    · simp only [hi, if_true] at h ⊢
      split at h
      · simp only [Option.some.injEq, Prod.mk.injEq] at h
        exact Or.inl h.2.symm
      · rename_i h1
        split at h
        · simp only [Option.some.injEq, Prod.mk.injEq] at h
          exact Or.inl h.2.symm
        · rename_i h2
          split at h
          · rename_i h3
            simp only [Option.some.injEq, Prod.mk.injEq] at h
            right
            refine ⟨i, d tr (Call.DAQmxGetNthTaskDevice taskHandle i 256), ?_, ?_⟩
            · simp [h1, h2, h3]
            · rw [← h.2]
              simp [strcat, strcpy, String.append_assoc]
          · rename_i h3
            rcases ih _ _ _ _ err name h with hb | ⟨j, r, hm, hn⟩
            · exact Or.inl hb
            · right
              refine ⟨j, r, ?_, hn⟩
              simp only [h1, h2, h3, Bool.false_eq_true, if_false]
              exact hm
    · simp only [hi, if_false, Option.some.injEq, Prod.mk.injEq] at h
      exact Or.inl h.2.symm

theorem helper_written (d : Driver) (fuel : Nat) (taskHandle : TaskHandle)
    (terminalName buf : String) (tr : List Event) (err : Int) (name : String)
    (h : (ContinuousAI.GetTerminalNameWithDevPrefix d fuel taskHandle terminalName buf tr).ret
      = some (err, name)) :
    name = buf ∨ ∃ j r, Event.call (.DAQmxGetNthTaskDevice taskHandle j 256) r ∈
        (ContinuousAI.GetTerminalNameWithDevPrefix d fuel taskHandle terminalName buf tr).trace ∧
      name = "/" ++ r.str ++ "/" ++ terminalName := by
  simp only [ContinuousAI.GetTerminalNameWithDevPrefix] at h ⊢
  split at h
  · simp only [Option.some.injEq, Prod.mk.injEq] at h
    exact Or.inl h.2.symm
  · rename_i h0
    simp only [h0, if_false]
    exact loop_written d taskHandle terminalName _ fuel 1 _ buf _ err name h

theorem utf8ByteSize_append (a b : String) :
    (a ++ b).utf8ByteSize = a.utf8ByteSize + b.utf8ByteSize := by
  cases a with
  | mk as =>
    cases b with
    | mk bs =>
      show String.utf8ByteSize ⟨as ++ bs⟩ = _
      simp only [String.utf8ByteSize_mk, String.utf8Len_append]

theorem qualified_size (device terminalName : String) :
    ("/" ++ device ++ "/" ++ terminalName).length = device.length + terminalName.length + 2 ∧
    ("/" ++ device ++ "/" ++ terminalName).utf8ByteSize
      = device.utf8ByteSize + terminalName.utf8ByteSize + 2 := by
  constructor
  · simp only [String.length_append]
    have : "/".length = 1 := rfl
    omega
  · simp only [utf8ByteSize_append]
    have : "/".utf8ByteSize = 1 := rfl
    omega

/-- C22: whenever `GetTerminalNameWithDevPrefix` (either copy) returns, `triggerName`
either still holds what it held on entry (nothing was written) or holds
`"/" ++ device ++ "/" ++ terminalName` for a device name the driver returned to one of
the `DAQmxGetNthTaskDevice` calls of the run; the written name then has exactly
`length(device) + length(terminalName) + 2` bytes (and characters), so with its
terminating NUL it fits in a 256-byte buffer exactly when
`length(device) + length(terminalName) ≤ 253`: for `"ai/StartTrigger"`,
`"SampleClockTimebase"` and `"SyncPulse"` exactly when the device name has at most
`238`, `234` and `244` bytes. -/
theorem C22_name_length (d : Driver) (fuel : Nat) (taskHandle : TaskHandle)
    (terminalName triggerName : String) (trace : List Event) (err : Int) (name : String)
    (h : (ContinuousAI.GetTerminalNameWithDevPrefix d fuel taskHandle terminalName triggerName
      trace).ret = some (err, name)) :
    (SynchAI_AO.GetTerminalNameWithDevPrefix d fuel taskHandle terminalName triggerName trace).ret
      = some (err, name) ∧
    (name = triggerName ∨
      ∃ j r, Event.call (.DAQmxGetNthTaskDevice taskHandle j 256) r ∈
          (ContinuousAI.GetTerminalNameWithDevPrefix d fuel taskHandle terminalName triggerName
            trace).trace ∧
        name = "/" ++ r.str ++ "/" ++ terminalName ∧
        name.utf8ByteSize = r.str.utf8ByteSize + terminalName.utf8ByteSize + 2 ∧
        name.length = r.str.length + terminalName.length + 2 ∧
        (name.utf8ByteSize + 1 ≤ 256 ↔ r.str.utf8ByteSize + terminalName.utf8ByteSize ≤ 253) ∧
        (terminalName = "ai/StartTrigger" →
          (name.utf8ByteSize + 1 ≤ 256 ↔ r.str.utf8ByteSize ≤ 238)) ∧
        (terminalName = "SampleClockTimebase" →
          (name.utf8ByteSize + 1 ≤ 256 ↔ r.str.utf8ByteSize ≤ 234)) ∧
        (terminalName = "SyncPulse" →
          (name.utf8ByteSize + 1 ≤ 256 ↔ r.str.utf8ByteSize ≤ 244))) := by
  refine ⟨by rw [helper_copies_eq]; exact h, ?_⟩
  rcases helper_written d fuel taskHandle terminalName triggerName trace err name h with hb | ⟨j, r, hm, hn⟩
  · exact Or.inl hb
  · right
    obtain ⟨hl, hs⟩ := qualified_size r.str terminalName
    rw [← hn] at hl hs
    refine ⟨j, r, hm, hn, hs, hl, by omega, ?_, ?_, ?_⟩
    · intro ht
      have : terminalName.utf8ByteSize = 15 := by rw [ht]; rfl
      omega
    · intro ht
      have : terminalName.utf8ByteSize = 19 := by rw [ht]; rfl
      omega
    · intro ht
      have : terminalName.utf8ByteSize = 9 := by rw [ht]; rfl
      omega

/-- Witness of C22: with devices `[mod1 (module), dev2, dev3]` the name written for
`"ai/StartTrigger"` is `"/dev2/ai/StartTrigger"`, of `4 + 15 + 2 = 21` bytes. -/
theorem C22_name_length_witness :
    (ContinuousAI.GetTerminalNameWithDevPrefix exampleDriver 5 1 "ai/StartTrigger" "junk" []).ret
      = some (0, "/dev2/ai/StartTrigger") ∧
    "/dev2/ai/StartTrigger".utf8ByteSize = 21 ∧
    ("/dev2/ai/StartTrigger" = "junk" ∨
      ∃ j r, Event.call (.DAQmxGetNthTaskDevice 1 j 256) r ∈
          (ContinuousAI.GetTerminalNameWithDevPrefix exampleDriver 5 1 "ai/StartTrigger" "junk"
            []).trace ∧
        "/dev2/ai/StartTrigger" = "/" ++ r.str ++ "/" ++ "ai/StartTrigger" ∧
        "/dev2/ai/StartTrigger".utf8ByteSize = r.str.utf8ByteSize + "ai/StartTrigger".utf8ByteSize + 2 ∧
        "/dev2/ai/StartTrigger".length = r.str.length + "ai/StartTrigger".length + 2 ∧
        ("/dev2/ai/StartTrigger".utf8ByteSize + 1 ≤ 256 ↔
          r.str.utf8ByteSize + "ai/StartTrigger".utf8ByteSize ≤ 253) ∧
        ("ai/StartTrigger" = "ai/StartTrigger" →
          ("/dev2/ai/StartTrigger".utf8ByteSize + 1 ≤ 256 ↔ r.str.utf8ByteSize ≤ 238)) ∧
        ("ai/StartTrigger" = "SampleClockTimebase" →
          ("/dev2/ai/StartTrigger".utf8ByteSize + 1 ≤ 256 ↔ r.str.utf8ByteSize ≤ 234)) ∧
        ("ai/StartTrigger" = "SyncPulse" →
          ("/dev2/ai/StartTrigger".utf8ByteSize + 1 ≤ 256 ↔ r.str.utf8ByteSize ≤ 244))) :=
  ⟨by decide, by decide,
    (C22_name_length exampleDriver 5 1 "ai/StartTrigger" "junk" [] 0 "/dev2/ai/StartTrigger"
      (by decide)).2⟩

theorem SWTimed_loop_never_next (d : Driver) (data : List float64) :
    ∀ (fuel i : Nat) (s s1 : St TaskVars),
      MultVoltUpdates_SWTimed.main.loop d data fuel i s ≠ .next s1 := by
  intro fuel
  induction fuel with
  | zero =>
    intro i s s1 h
    simp [MultVoltUpdates_SWTimed.main.loop] at h
  | succ f ih =>
    intro i s s1 h
    rw [MultVoltUpdates_SWTimed.main.loop] at h
    split at h
    · exact ih _ _ _ h
    · simp at h
    · simp at h

theorem SWTimed_loop_extends (d : Driver) (data : List float64) :
    ∀ (fuel i : Nat) (s : St TaskVars),
      ∃ rest, (MultVoltUpdates_SWTimed.main.loop d data fuel i s).state.trace = s.trace ++ rest := by
  intro fuel
  induction fuel with
  | zero =>
    intro i s
    exact ⟨[], by simp [MultVoltUpdates_SWTimed.main.loop, Flow.state]⟩
  | succ f ih =>
    intro i s
    rw [MultVoltUpdates_SWTimed.main.loop]
    have hst := congrArg St.trace (errChk_state d (fun v : TaskVars =>
      Call.DAQmxWriteAnalogScalarF64 v.taskHandle 1 f64_10 (data.getD i ⟨0⟩)) keep s)
    simp only at hst
    split
    · rename_i s1 h1
      rw [h1] at hst
      simp only [Flow.state] at hst
      obtain ⟨rest, hr⟩ := ih (if (i + 1) % (UINT32_MAX + 1) ≥ 1000 then 0 else (i + 1) % (UINT32_MAX + 1)) s1
      rw [hr, hst, List.append_assoc]
      exact ⟨_, rfl⟩
    · rename_i s1 h1
      rw [h1] at hst
      simp only [Flow.state] at hst ⊢
      rw [hst]
      exact ⟨_, rfl⟩
    · rename_i s1 h1
      rw [h1] at hst
      simp only [Flow.state] at hst ⊢
      rw [hst]
      exact ⟨_, rfl⟩

theorem errChk_Error {V : Type} (d : Driver) (c : V → Call) (store : Reply → V → V) (s s1 : St V)
    (h : DAQmxErrChk d c store s = .Error s1) :
    DAQmxFailed (d s.trace (c s.vars)).status = true ∧
    s1 = { trace := s.trace ++ [Event.call (c s.vars) (d s.trace (c s.vars))],
           error := (d s.trace (c s.vars)).status, vars := store (d s.trace (c s.vars)) s.vars } := by
  simp only [DAQmxErrChk] at h
  split at h
  · rename_i hf
    simp only [Flow.Error.injEq] at h
    exact ⟨hf, h.symm⟩
  · simp at h

theorem SWTimed_index_step (k : Nat) :
    (if (k % 1000 + 1) % (UINT32_MAX + 1) ≥ 1000 then 0 else (k % 1000 + 1) % (UINT32_MAX + 1))
      = (k + 1) % 1000 := by
  simp only [UINT32_MAX]
  split_ifs <;> omega

theorem SWTimed_loop_writes (d : Driver) (data : List float64) (t0 : List Event) :
    ∀ (n fuel k : Nat) (s : St TaskVars), n < fuel →
      s.trace = swLog d data s.vars.taskHandle t0 k →
      (∀ j, k ≤ j → j < k + n → DAQmxFailed (d (swLog d data s.vars.taskHandle t0 j)
        (swWrite data s.vars.taskHandle j)).status = false) →
      ∃ rest, (MultVoltUpdates_SWTimed.main.loop d data fuel (k % 1000) s).state.trace
        = swLog d data s.vars.taskHandle t0 (k + n + 1) ++ rest := by
  intro n
  induction n with
  | zero =>
    intro fuel k s hf ht _
    obtain ⟨f, rfl⟩ : ∃ f, fuel = f + 1 := ⟨fuel - 1, by omega⟩
    rw [MultVoltUpdates_SWTimed.main.loop]
    have hst := congrArg St.trace (errChk_state d (fun v : TaskVars =>
      Call.DAQmxWriteAnalogScalarF64 v.taskHandle 1 f64_10 (data.getD (k % 1000) ⟨0⟩)) keep s)
    simp only at hst
    have hlog : swLog d data s.vars.taskHandle t0 (k + 0 + 1) = s.trace ++
        [Event.call (Call.DAQmxWriteAnalogScalarF64 s.vars.taskHandle 1 f64_10 (data.getD (k % 1000) ⟨0⟩))
          (d s.trace (Call.DAQmxWriteAnalogScalarF64 s.vars.taskHandle 1 f64_10
            (data.getD (k % 1000) ⟨0⟩)))] := by
      simp only [Nat.add_zero, swLog, swWrite, ← ht]
    rw [hlog]
    split
    · rename_i s1 h1
      rw [h1] at hst
      simp only [Flow.state] at hst
      obtain ⟨rest, hr⟩ := SWTimed_loop_extends d data f
        (if (k % 1000 + 1) % (UINT32_MAX + 1) ≥ 1000 then 0 else (k % 1000 + 1) % (UINT32_MAX + 1)) s1
      rw [hr, hst]
      exact ⟨rest, rfl⟩
    · rename_i s1 h1
      rw [h1] at hst
      simp only [Flow.state] at hst ⊢
      rw [hst]
      exact ⟨[], by simp⟩
    · rename_i s1 h1
      rw [h1] at hst
      simp only [Flow.state] at hst ⊢
      rw [hst]
      exact ⟨[], by simp⟩
  | succ n ih =>
    intro fuel k s hf ht hok
    obtain ⟨f, rfl⟩ : ∃ f, fuel = f + 1 := ⟨fuel - 1, by omega⟩
    rw [MultVoltUpdates_SWTimed.main.loop]
    have hk := hok k (Nat.le_refl k) (by omega)
    rw [← ht] at hk
    simp only [swWrite] at hk
    have hnext : DAQmxErrChk d (fun v : TaskVars =>
        Call.DAQmxWriteAnalogScalarF64 v.taskHandle 1 f64_10 (data.getD (k % 1000) ⟨0⟩)) keep s
        = .next { trace := s.trace ++ [Event.call (Call.DAQmxWriteAnalogScalarF64 s.vars.taskHandle 1
                    f64_10 (data.getD (k % 1000) ⟨0⟩)) (d s.trace (Call.DAQmxWriteAnalogScalarF64
                    s.vars.taskHandle 1 f64_10 (data.getD (k % 1000) ⟨0⟩)))],
                  error := (d s.trace (Call.DAQmxWriteAnalogScalarF64 s.vars.taskHandle 1 f64_10
                    (data.getD (k % 1000) ⟨0⟩))).status,
                  vars := s.vars } := by
      simp only [DAQmxErrChk, hk, Bool.false_eq_true, if_false, keep]
    rw [hnext]
    simp only [SWTimed_index_step]
    obtain ⟨rest, hr⟩ := ih f (k + 1)
      { trace := s.trace ++ [Event.call (Call.DAQmxWriteAnalogScalarF64 s.vars.taskHandle 1
                    f64_10 (data.getD (k % 1000) ⟨0⟩)) (d s.trace (Call.DAQmxWriteAnalogScalarF64
                    s.vars.taskHandle 1 f64_10 (data.getD (k % 1000) ⟨0⟩)))],
        error := (d s.trace (Call.DAQmxWriteAnalogScalarF64 s.vars.taskHandle 1 f64_10
                    (data.getD (k % 1000) ⟨0⟩))).status,
        vars := s.vars } (by omega)
      (by simp only [swLog, swWrite, ← ht])
      (fun j h1 h2 => hok j (by omega) (by omega))
    have e : k + (n + 1) + 1 = k + 1 + n + 1 := by omega
    rw [e]
    exact ⟨rest, hr⟩

theorem SWTimed_loop_Error (d : Driver) (data : List float64) :
    ∀ (fuel i : Nat) (s s1 : St TaskVars),
      MultVoltUpdates_SWTimed.main.loop d data fuel i s = .Error s1 →
      DAQmxFailed s1.error = true ∧
      ∃ v r, s1.trace.getLast? = some (Event.call
        (.DAQmxWriteAnalogScalarF64 s.vars.taskHandle 1 f64_10 v) r) ∧ r.status = s1.error := by
  intro fuel
  induction fuel with
  | zero =>
    intro i s s1 h
    simp [MultVoltUpdates_SWTimed.main.loop] at h
  | succ f ih =>
    intro i s s1 h
    rw [MultVoltUpdates_SWTimed.main.loop] at h
    split at h
    · rename_i s2 h2
      obtain ⟨r, _, _, hv⟩ := errChk_step _ _ _ _ _ h2
      obtain ⟨hf, v, r2, hl, hs⟩ := ih _ _ _ h
      have hh : s2.vars.taskHandle = s.vars.taskHandle := by rw [hv]; rfl
      rw [hh] at hl
      exact ⟨hf, v, r2, hl, hs⟩
    · rename_i s2 h2
      simp only [Flow.Error.injEq] at h
      subst h
      obtain ⟨hf, hs⟩ := errChk_Error _ _ _ _ _ h2
      subst hs
      exact ⟨hf, data.getD i ⟨0⟩, _, List.getLast?_concat _, rfl⟩
    · simp at h

theorem SWTimed_config_loop (d : Driver) (fuel : Nat) (data : List float64) (s0 : St TaskVars)
    (h0 : run ((MultVoltUpdates_SWTimed.main.body d fuel data).take 4) singleTaskEntry = .next s0) :
    MultVoltUpdates_SWTimed.main.config d fuel data
      = MultVoltUpdates_SWTimed.main.loop d data fuel 0 s0 := by
  have hbody : MultVoltUpdates_SWTimed.main.body d fuel data =
      (MultVoltUpdates_SWTimed.main.body d fuel data).take 4 ++
        [MultVoltUpdates_SWTimed.main.loop d data fuel 0] := rfl
  simp only [MultVoltUpdates_SWTimed.main.config]
  rw [hbody, run_append, h0]
  exact run_singleton _ _

theorem swWrite_inBounds (data : List float64) (taskHandle : TaskHandle) (j : Nat)
    (hlen : data.length = 1000) :
    ∃ v, data[j % 1000]? = some v ∧
      swWrite data taskHandle j = .DAQmxWriteAnalogScalarF64 taskHandle 1 f64_10 v := by
  have hj : j % 1000 < data.length := by rw [hlen]; exact Nat.mod_lt _ (by decide)
  refine ⟨data[j % 1000], List.getElem?_eq_getElem hj, ?_⟩
  simp only [swWrite, List.getD_eq_getElem?_getD, List.getElem?_eq_getElem hj, Option.getD_some]

/-- C16: in `main` of `MultVoltUpdates-SWTimed.c`, once the three calls before the
`while(1)` loop have succeeded, the run is the loop started with `i = 0`; if the writes
number `1 .. n` succeed (and the fuel allows `n+1` rounds), the log continues with
`n+1` calls `DAQmxWriteAnalogScalarF64(taskHandle,1,10.0,data[j mod 1000],NULL)` for
`j = 0 .. n`, so write number `n+1` writes `data[n mod 1000]`; with a table of 1000
samples every such index is inside the table; control never falls out of the loop,
and when it jumps to `Error` the last call logged is a scalar write whose failing
status is in `error`. -/
theorem C16_software_timed_writes (d : Driver) (fuel n : Nat) (data : List float64)
    (s0 : St TaskVars)
    (h0 : run ((MultVoltUpdates_SWTimed.main.body d fuel data).take 4) singleTaskEntry = .next s0)
    (hfuel : n < fuel)
    (hok : ∀ j, j < n → DAQmxFailed (d (swLog d data s0.vars.taskHandle s0.trace j)
      (swWrite data s0.vars.taskHandle j)).status = false) :
    MultVoltUpdates_SWTimed.main.config d fuel data
      = MultVoltUpdates_SWTimed.main.loop d data fuel 0 s0 ∧
    (∃ rest, (MultVoltUpdates_SWTimed.main.config d fuel data).state.trace
      = swLog d data s0.vars.taskHandle s0.trace (n + 1) ++ rest) ∧
    (∀ j, data.length = 1000 → ∃ v, data[j % 1000]? = some v ∧
      swWrite data s0.vars.taskHandle j
        = .DAQmxWriteAnalogScalarF64 s0.vars.taskHandle 1 f64_10 v) ∧
    (∀ s1, MultVoltUpdates_SWTimed.main.config d fuel data ≠ .next s1) ∧
    (∀ s1, MultVoltUpdates_SWTimed.main.config d fuel data = .Error s1 →
      DAQmxFailed s1.error = true ∧
      ∃ v r, s1.trace.getLast? = some (Event.call
        (.DAQmxWriteAnalogScalarF64 s0.vars.taskHandle 1 f64_10 v) r) ∧ r.status = s1.error) := by
  have hc := SWTimed_config_loop d fuel data s0 h0
  rw [hc]
  refine ⟨rfl, ?_, fun j hlen => swWrite_inBounds data _ j hlen,
    fun s1 => SWTimed_loop_never_next d data fuel 0 s0 s1,
    fun s1 h => SWTimed_loop_Error d data fuel 0 s0 s1 h⟩
  have h := SWTimed_loop_writes d data s0.trace n fuel 0 s0 hfuel rfl
    (fun j _ h2 => hok j (by omega))
  simpa using h

/-- Witness of C16: no call fails, three rounds of fuel, `n = 2`. -/
theorem C16_software_timed_writes_witness :
    ∃ s0, run ((MultVoltUpdates_SWTimed.main.body exampleDriver 3 []).take 4) singleTaskEntry
        = .next s0 ∧
      ∃ rest, (MultVoltUpdates_SWTimed.main.config exampleDriver 3 []).state.trace
        = swLog exampleDriver [] s0.vars.taskHandle s0.trace (2 + 1) ++ rest := by
  obtain ⟨s0, h0⟩ : ∃ s0, run ((MultVoltUpdates_SWTimed.main.body exampleDriver 3 []).take 4)
      singleTaskEntry = .next s0 := by
    refine succeeds_run _ ?_ _
    simp only [MultVoltUpdates_SWTimed.main.body, List.take, List.forall_mem_cons, List.not_mem_nil,
      false_implies, implies_true, and_true]
    repeat' apply And.intro
    all_goals first
      | exact succeeds_errChk _ (simDriver_allSucceed _) _ _
      | exact succeeds_printf _
  exact ⟨s0, h0, (C16_software_timed_writes exampleDriver 3 2 [] s0 h0 (by decide)
    (fun j _ => simDriver_allSucceed _ _ _)).2.1⟩

theorem CAI_everyN_fail1 (d : Driver) (taskHandle : TaskHandle) (everyNsamplesEventType : Int)
    (nSamples : Nat) (s : St ContinuousAI.Vars)
    (h : DAQmxFailed (d s.trace (everyNRead s.vars.masterTaskHandle)).status = true) :
    ∃ post, appended s.trace
        (ContinuousAI.EveryNCallback d taskHandle everyNsamplesEventType nSamples s).2.trace =
      Event.call (everyNRead s.vars.masterTaskHandle) (d s.trace (everyNRead s.vars.masterTaskHandle))
        :: post ∧ ∀ e ∈ post, e.isRead = false := by
  simp only [everyNRead] at h
  simp only [appended, ContinuousAI.EveryNCallback, ContinuousAI.EveryNCallback.Error, call, emit,
    keep, everyNRead, h, if_true]
  split_ifs <;>
    simp only [List.append_assoc, List.cons_append, List.nil_append, List.drop_left] <;>
    exact ⟨_, rfl, by simp [Event.isRead]⟩

theorem CAI_everyN_fail2 (d : Driver) (taskHandle : TaskHandle) (everyNsamplesEventType : Int)
    (nSamples : Nat) (s : St ContinuousAI.Vars)
    (h1 : DAQmxFailed (d s.trace (everyNRead s.vars.masterTaskHandle)).status = false)
    (h2 : DAQmxFailed (d (s.trace ++ [Event.call (everyNRead s.vars.masterTaskHandle)
      (d s.trace (everyNRead s.vars.masterTaskHandle))])
      (everyNRead s.vars.slaveTaskHandle)).status = true) :
    ∃ post, appended s.trace
        (ContinuousAI.EveryNCallback d taskHandle everyNsamplesEventType nSamples s).2.trace =
      Event.call (everyNRead s.vars.masterTaskHandle) (d s.trace (everyNRead s.vars.masterTaskHandle))
        :: Event.call (everyNRead s.vars.slaveTaskHandle)
          (d (s.trace ++ [Event.call (everyNRead s.vars.masterTaskHandle)
            (d s.trace (everyNRead s.vars.masterTaskHandle))]) (everyNRead s.vars.slaveTaskHandle))
        :: post ∧ ∀ e ∈ post, e.isRead = false := by
  simp only [everyNRead] at h1 h2
  simp only [appended, ContinuousAI.EveryNCallback, ContinuousAI.EveryNCallback.Error, call, emit,
    keep, everyNRead, h1, h2, if_true, Bool.false_eq_true, if_false]
  split_ifs <;>
    simp only [List.append_assoc, List.cons_append, List.nil_append, List.drop_left] <;>
    exact ⟨_, rfl, by simp [Event.isRead]⟩

theorem CAI_everyN_ok (d : Driver) (taskHandle : TaskHandle) (everyNsamplesEventType : Int)
    (nSamples : Nat) (s : St ContinuousAI.Vars)
    (h1 : DAQmxFailed (d s.trace (everyNRead s.vars.masterTaskHandle)).status = false)
    (h2 : DAQmxFailed (d (s.trace ++ [Event.call (everyNRead s.vars.masterTaskHandle)
      (d s.trace (everyNRead s.vars.masterTaskHandle))])
      (everyNRead s.vars.slaveTaskHandle)).status = false) :
    ∃ text, appended s.trace
        (ContinuousAI.EveryNCallback d taskHandle everyNsamplesEventType nSamples s).2.trace =
      [Event.call (everyNRead s.vars.masterTaskHandle) (d s.trace (everyNRead s.vars.masterTaskHandle)),
       Event.call (everyNRead s.vars.slaveTaskHandle)
          (d (s.trace ++ [Event.call (everyNRead s.vars.masterTaskHandle)
            (d s.trace (everyNRead s.vars.masterTaskHandle))]) (everyNRead s.vars.slaveTaskHandle)),
       Event.printf text] := by
  simp only [everyNRead] at h1 h2
  simp only [appended, ContinuousAI.EveryNCallback, ContinuousAI.EveryNCallback.Error, call, emit,
    keep, everyNRead, h1, h2, Bool.false_eq_true, if_false]
  split_ifs <;>
    simp only [List.append_assoc, List.cons_append, List.nil_append, List.drop_left] <;>
    exact ⟨_, rfl⟩

theorem SAO_everyN_fail (d : Driver) (taskHandle : TaskHandle) (everyNsamplesEventType : Int)
    (nSamples : Nat) (s : St SynchAI_AO.Vars)
    (h : DAQmxFailed (d s.trace (everyNRead s.vars.AItaskHandle)).status = true) :
    ∃ post, appended s.trace
        (SynchAI_AO.EveryNCallback d taskHandle everyNsamplesEventType nSamples s).2.trace =
      Event.call (everyNRead s.vars.AItaskHandle) (d s.trace (everyNRead s.vars.AItaskHandle))
        :: post ∧ ∀ e ∈ post, e.isRead = false := by
  simp only [everyNRead] at h
  simp only [appended, SynchAI_AO.EveryNCallback, SynchAI_AO.EveryNCallback.Error, call, emit,
    keep, everyNRead, h, if_true]
  split_ifs <;>
    simp only [List.append_assoc, List.cons_append, List.nil_append, List.drop_left] <;>
    exact ⟨_, rfl, by simp [Event.isRead]⟩

theorem SAO_everyN_ok (d : Driver) (taskHandle : TaskHandle) (everyNsamplesEventType : Int)
    (nSamples : Nat) (s : St SynchAI_AO.Vars)
    (h : DAQmxFailed (d s.trace (everyNRead s.vars.AItaskHandle)).status = false) :
    ∃ text, appended s.trace
        (SynchAI_AO.EveryNCallback d taskHandle everyNsamplesEventType nSamples s).2.trace =
      [Event.call (everyNRead s.vars.AItaskHandle) (d s.trace (everyNRead s.vars.AItaskHandle)),
       Event.printf text] := by
  simp only [everyNRead] at h
  simp only [appended, SynchAI_AO.EveryNCallback, SynchAI_AO.EveryNCallback.Error, call, emit,
    keep, everyNRead, h, Bool.false_eq_true, if_false]
  simp only [List.append_assoc, List.cons_append, List.nil_append, List.drop_left]
  exact ⟨_, rfl⟩

theorem reported_of_first {d : Driver} {before after : List Event} {e : Event} {post : List Event}
    (hrep : CallbackReports d before after) (ha : appended before after = e :: post)
    (he : e.ok = false) : Reported d before after :=
  hrep ⟨e, by rw [ha]; exact List.mem_cons_self _ _, he⟩

theorem reported_of_second {d : Driver} {before after : List Event} {e1 e2 : Event}
    {post : List Event} (hrep : CallbackReports d before after)
    (ha : appended before after = e1 :: e2 :: post) (he : e2.ok = false) :
    Reported d before after :=
  hrep ⟨e2, by rw [ha]; simp, he⟩

/-- C15: whatever its arguments, `EveryNCallback` of `ContinuousAI.c` first reads from
the master task 1000 samples per channel with a timeout of 10.0 seconds into a buffer
of 1000 samples; if that read fails it issues no other read and takes the error path
(the error text is retrieved and printed); otherwise it issues the same read on the
slave task, and if that one fails takes the error path; if both succeed it only
prints a line.  `EveryNCallback` of `SynchAI-AO.c` issues that read on the AI task and
takes the error path if it fails.  The quantity 1000 is the one both `main`s pass to
`DAQmxRegisterEveryNSamplesEvent`. -/
theorem C15_everyN_reads (d : Driver) (fuel : Nat) (taskHandle : TaskHandle)
    (everyNsamplesEventType : Int) (nSamples : Nat)
    (sC : St ContinuousAI.Vars) (sS : St SynchAI_AO.Vars) :
    (DAQmxFailed (d sC.trace (everyNRead sC.vars.masterTaskHandle)).status = true →
      (∃ post, appended sC.trace
          (ContinuousAI.EveryNCallback d taskHandle everyNsamplesEventType nSamples sC).2.trace =
        Event.call (everyNRead sC.vars.masterTaskHandle)
          (d sC.trace (everyNRead sC.vars.masterTaskHandle)) :: post ∧
        ∀ e ∈ post, e.isRead = false) ∧
      Reported d sC.trace
        (ContinuousAI.EveryNCallback d taskHandle everyNsamplesEventType nSamples sC).2.trace) ∧
    (DAQmxFailed (d sC.trace (everyNRead sC.vars.masterTaskHandle)).status = false →
      DAQmxFailed (d (sC.trace ++ [Event.call (everyNRead sC.vars.masterTaskHandle)
        (d sC.trace (everyNRead sC.vars.masterTaskHandle))])
        (everyNRead sC.vars.slaveTaskHandle)).status = true →
      (∃ post, appended sC.trace
          (ContinuousAI.EveryNCallback d taskHandle everyNsamplesEventType nSamples sC).2.trace =
        Event.call (everyNRead sC.vars.masterTaskHandle)
          (d sC.trace (everyNRead sC.vars.masterTaskHandle))
        :: Event.call (everyNRead sC.vars.slaveTaskHandle)
          (d (sC.trace ++ [Event.call (everyNRead sC.vars.masterTaskHandle)
            (d sC.trace (everyNRead sC.vars.masterTaskHandle))]) (everyNRead sC.vars.slaveTaskHandle))
        :: post ∧ ∀ e ∈ post, e.isRead = false) ∧
      Reported d sC.trace
        (ContinuousAI.EveryNCallback d taskHandle everyNsamplesEventType nSamples sC).2.trace) ∧
    (DAQmxFailed (d sC.trace (everyNRead sC.vars.masterTaskHandle)).status = false →
      DAQmxFailed (d (sC.trace ++ [Event.call (everyNRead sC.vars.masterTaskHandle)
        (d sC.trace (everyNRead sC.vars.masterTaskHandle))])
        (everyNRead sC.vars.slaveTaskHandle)).status = false →
      ∃ text, appended sC.trace
          (ContinuousAI.EveryNCallback d taskHandle everyNsamplesEventType nSamples sC).2.trace =
        [Event.call (everyNRead sC.vars.masterTaskHandle)
          (d sC.trace (everyNRead sC.vars.masterTaskHandle)),
         Event.call (everyNRead sC.vars.slaveTaskHandle)
          (d (sC.trace ++ [Event.call (everyNRead sC.vars.masterTaskHandle)
            (d sC.trace (everyNRead sC.vars.masterTaskHandle))]) (everyNRead sC.vars.slaveTaskHandle)),
         Event.printf text]) ∧
    (DAQmxFailed (d sS.trace (everyNRead sS.vars.AItaskHandle)).status = true →
      (∃ post, appended sS.trace
          (SynchAI_AO.EveryNCallback d taskHandle everyNsamplesEventType nSamples sS).2.trace =
        Event.call (everyNRead sS.vars.AItaskHandle) (d sS.trace (everyNRead sS.vars.AItaskHandle))
          :: post ∧ ∀ e ∈ post, e.isRead = false) ∧
      Reported d sS.trace
        (SynchAI_AO.EveryNCallback d taskHandle everyNsamplesEventType nSamples sS).2.trace) ∧
    (DAQmxFailed (d sS.trace (everyNRead sS.vars.AItaskHandle)).status = false →
      ∃ text, appended sS.trace
          (SynchAI_AO.EveryNCallback d taskHandle everyNsamplesEventType nSamples sS).2.trace =
        [Event.call (everyNRead sS.vars.AItaskHandle) (d sS.trace (everyNRead sS.vars.AItaskHandle)),
         Event.printf text]) ∧
    DAQmxErrChk d (fun v : ContinuousAI.Vars => .DAQmxRegisterEveryNSamplesEvent v.masterTaskHandle
        DAQmx_Val_Acquired_Into_Buffer 1000 0) keep ∈ ContinuousAI.main.trigger d fuel ∧
    DAQmxErrChk d (fun v : SynchAI_AO.Vars => .DAQmxRegisterEveryNSamplesEvent v.AItaskHandle
        DAQmx_Val_Acquired_Into_Buffer 1000 0) keep ∈ SynchAI_AO.main.configure d fuel := by
  refine ⟨?_, ?_, ?_, ?_, ?_, ?_, ?_⟩
  · intro h
    obtain ⟨post, hp, hr⟩ := CAI_everyN_fail1 d taskHandle everyNsamplesEventType nSamples sC h
    exact ⟨⟨post, hp, hr⟩, reported_of_first (CAI_everyN_reports d _ _ _ sC) hp
      (by simp [Event.ok, h])⟩
  · intro h1 h2
    obtain ⟨post, hp, hr⟩ := CAI_everyN_fail2 d taskHandle everyNsamplesEventType nSamples sC h1 h2
    exact ⟨⟨post, hp, hr⟩, reported_of_second (CAI_everyN_reports d _ _ _ sC) hp
      (by simp [Event.ok, h2])⟩
  · exact CAI_everyN_ok d taskHandle everyNsamplesEventType nSamples sC
  · intro h
    obtain ⟨post, hp, hr⟩ := SAO_everyN_fail d taskHandle everyNsamplesEventType nSamples sS h
    exact ⟨⟨post, hp, hr⟩, reported_of_first (SAO_everyN_reports d _ _ _ sS) hp
      (by simp [Event.ok, h])⟩
  · exact SAO_everyN_ok d taskHandle everyNsamplesEventType nSamples sS
  · simp [ContinuousAI.main.trigger]
  · simp [SynchAI_AO.main.configure]

/-- Witness of C15: the master read fails on a driver whose first call fails; the
slave is not read. -/
theorem C15_everyN_reads_witness :
    DAQmxFailed (failingAt 0 [] (everyNRead 1)).status = true ∧
    (∃ post, appended []
        (ContinuousAI.EveryNCallback (failingAt 0) 1 0 1000
          ⟨[], 0, { ContinuousAI.exampleStack with masterTaskHandle := 1, slaveTaskHandle := 4 }⟩).2.trace =
      Event.call (everyNRead 1) (failingAt 0 [] (everyNRead 1)) :: post ∧
      ∀ e ∈ post, e.isRead = false) :=
  ⟨by decide, ((C15_everyN_reads (failingAt 0) 5 1 0 1000
    ⟨[], 0, { ContinuousAI.exampleStack with masterTaskHandle := 1, slaveTaskHandle := 4 }⟩
    ⟨[], 0, SynchAI_AO.exampleStack⟩).1 (by decide)).1⟩

theorem clears_append (a b : List Event) : clears (a ++ b) = clears a ++ clears b := by
  simp [clears, List.filterMap_append]

theorem CAI_cleanup_clears (d : Driver) (s : St ContinuousAI.Vars) :
    clears (ContinuousAI.main.cleanup d s).trace = clears s.trace ++
      [s.vars.masterTaskHandle, s.vars.slaveTaskHandle].filter (fun h => h != 0) ∧
    (ContinuousAI.main.cleanup d s).vars.masterTaskHandle = 0 ∧
    (ContinuousAI.main.cleanup d s).vars.slaveTaskHandle = 0 := by
  simp only [ContinuousAI.main.cleanup, call, emit, keep]
  split_ifs <;>
    simp_all [clears, clearOf, List.filterMap_append, List.filter_cons, bne_iff_ne]

theorem SAO_cleanup_clears (d : Driver) (s : St SynchAI_AO.Vars) :
    clears (SynchAI_AO.main.cleanup d s).trace = clears s.trace ++
      [s.vars.AItaskHandle, s.vars.AOtaskHandle].filter (fun h => h != 0) ∧
    (SynchAI_AO.main.cleanup d s).vars.AItaskHandle = 0 ∧
    (SynchAI_AO.main.cleanup d s).vars.AOtaskHandle = 0 := by
  simp only [SynchAI_AO.main.cleanup, call, emit, keep]
  split_ifs <;>
    simp_all [clears, clearOf, List.filterMap_append, List.filter_cons, bne_iff_ne]

theorem CAI_everyN_clears (d : Driver) (taskHandle : TaskHandle) (everyNsamplesEventType : Int)
    (nSamples : Nat) (s : St ContinuousAI.Vars)
    (hf : DAQmxFailed (d s.trace (everyNRead s.vars.masterTaskHandle)).status = true) :
    clears (ContinuousAI.EveryNCallback d taskHandle everyNsamplesEventType nSamples s).2.trace
      = clears s.trace ++ [s.vars.masterTaskHandle, s.vars.slaveTaskHandle].filter (fun h => h != 0) ∧
    (ContinuousAI.EveryNCallback d taskHandle everyNsamplesEventType nSamples s).2.vars.masterTaskHandle
      = s.vars.masterTaskHandle ∧
    (ContinuousAI.EveryNCallback d taskHandle everyNsamplesEventType nSamples s).2.vars.slaveTaskHandle
      = s.vars.slaveTaskHandle := by
  simp only [everyNRead] at hf
  simp only [ContinuousAI.EveryNCallback, ContinuousAI.EveryNCallback.Error, call, emit, keep, hf,
    if_true]
  split_ifs <;>
    simp_all [clears, clearOf, List.filterMap_append, List.filter_cons, bne_iff_ne]

theorem SAO_everyN_clears (d : Driver) (taskHandle : TaskHandle) (everyNsamplesEventType : Int)
    (nSamples : Nat) (s : St SynchAI_AO.Vars)
    (hf : DAQmxFailed (d s.trace (everyNRead s.vars.AItaskHandle)).status = true) :
    clears (SynchAI_AO.EveryNCallback d taskHandle everyNsamplesEventType nSamples s).2.trace
      = clears s.trace ++ [s.vars.AItaskHandle, s.vars.AOtaskHandle].filter (fun h => h != 0) ∧
    (SynchAI_AO.EveryNCallback d taskHandle everyNsamplesEventType nSamples s).2.vars.AItaskHandle = 0 ∧
    (SynchAI_AO.EveryNCallback d taskHandle everyNsamplesEventType nSamples s).2.vars.AOtaskHandle = 0 := by
  simp only [everyNRead] at hf
  simp only [SynchAI_AO.EveryNCallback, SynchAI_AO.EveryNCallback.Error, call, emit, keep, hf,
    if_true]
  split_ifs <;>
    simp_all [clears, clearOf, List.filterMap_append, List.filter_cons, bne_iff_ne]

theorem CAI_done_clears (d : Driver) (taskHandle : TaskHandle) (status : Int)
    (s : St ContinuousAI.Vars) (hf : DAQmxFailed status = true) :
    clears (ContinuousAI.DoneCallback d taskHandle status s).2.trace
      = clears s.trace ++ taskHandle :: [s.vars.slaveTaskHandle].filter (fun h => h != 0) ∧
    (ContinuousAI.DoneCallback d taskHandle status s).2.vars.masterTaskHandle
      = s.vars.masterTaskHandle ∧
    (ContinuousAI.DoneCallback d taskHandle status s).2.vars.slaveTaskHandle = 0 := by
  simp only [ContinuousAI.DoneCallback, call, emit, keep, hf, if_true]
  split_ifs <;>
    simp_all [clears, clearOf, List.filterMap_append, List.filter_cons, bne_iff_ne]

theorem SAO_done_clears (d : Driver) (taskHandle : TaskHandle) (status : Int)
    (s : St SynchAI_AO.Vars) (hf : DAQmxFailed status = true) :
    clears (SynchAI_AO.DoneCallback d taskHandle status s).2.trace
      = clears s.trace ++
        taskHandle :: [s.vars.AItaskHandle, s.vars.AOtaskHandle].filter (fun h => h != 0) ∧
    (SynchAI_AO.DoneCallback d taskHandle status s).2.vars.AItaskHandle = 0 ∧
    (SynchAI_AO.DoneCallback d taskHandle status s).2.vars.AOtaskHandle = 0 := by
  simp only [SynchAI_AO.DoneCallback, call, emit, keep, hf, if_true]
  split_ifs <;>
    simp_all [clears, clearOf, List.filterMap_append, List.filter_cons, bne_iff_ne]

/-- C14: the error path of `EveryNCallback` in `ContinuousAI.c` calls `DAQmxClearTask` on
every global handle that is non-zero and leaves both handles as they were, and
`DoneCallback` there clears the handle it is given without zeroing anything but the
slave handle; whereas the error paths of `EveryNCallback` and `DoneCallback` in
`SynchAI-AO.c` and the cleanup paths of both `main`s leave every global handle at
zero. -/
theorem C14_handles_after_teardown (d : Driver) (taskHandle : TaskHandle)
    (everyNsamplesEventType : Int) (nSamples : Nat) (status : Int)
    (sC : St ContinuousAI.Vars) (sS : St SynchAI_AO.Vars)
    (hC : DAQmxFailed (d sC.trace (everyNRead sC.vars.masterTaskHandle)).status = true)
    (hS : DAQmxFailed (d sS.trace (everyNRead sS.vars.AItaskHandle)).status = true)
    (hs : DAQmxFailed status = true) :
    (clears (ContinuousAI.EveryNCallback d taskHandle everyNsamplesEventType nSamples sC).2.trace
        = clears sC.trace ++
          [sC.vars.masterTaskHandle, sC.vars.slaveTaskHandle].filter (fun h => h != 0) ∧
      (ContinuousAI.EveryNCallback d taskHandle everyNsamplesEventType nSamples
        sC).2.vars.masterTaskHandle = sC.vars.masterTaskHandle ∧
      (ContinuousAI.EveryNCallback d taskHandle everyNsamplesEventType nSamples
        sC).2.vars.slaveTaskHandle = sC.vars.slaveTaskHandle) ∧
    (clears (ContinuousAI.DoneCallback d taskHandle status sC).2.trace
        = clears sC.trace ++ taskHandle :: [sC.vars.slaveTaskHandle].filter (fun h => h != 0) ∧
      (ContinuousAI.DoneCallback d taskHandle status sC).2.vars.masterTaskHandle
        = sC.vars.masterTaskHandle ∧
      (ContinuousAI.DoneCallback d taskHandle status sC).2.vars.slaveTaskHandle = 0) ∧
    (clears (SynchAI_AO.EveryNCallback d taskHandle everyNsamplesEventType nSamples sS).2.trace
        = clears sS.trace ++ [sS.vars.AItaskHandle, sS.vars.AOtaskHandle].filter (fun h => h != 0) ∧
      (SynchAI_AO.EveryNCallback d taskHandle everyNsamplesEventType nSamples
        sS).2.vars.AItaskHandle = 0 ∧
      (SynchAI_AO.EveryNCallback d taskHandle everyNsamplesEventType nSamples
        sS).2.vars.AOtaskHandle = 0) ∧
    (clears (SynchAI_AO.DoneCallback d taskHandle status sS).2.trace
        = clears sS.trace ++
          taskHandle :: [sS.vars.AItaskHandle, sS.vars.AOtaskHandle].filter (fun h => h != 0) ∧
      (SynchAI_AO.DoneCallback d taskHandle status sS).2.vars.AItaskHandle = 0 ∧
      (SynchAI_AO.DoneCallback d taskHandle status sS).2.vars.AOtaskHandle = 0) ∧
    (clears (ContinuousAI.main.cleanup d sC).trace = clears sC.trace ++
        [sC.vars.masterTaskHandle, sC.vars.slaveTaskHandle].filter (fun h => h != 0) ∧
      (ContinuousAI.main.cleanup d sC).vars.masterTaskHandle = 0 ∧
      (ContinuousAI.main.cleanup d sC).vars.slaveTaskHandle = 0) ∧
    (clears (SynchAI_AO.main.cleanup d sS).trace = clears sS.trace ++
        [sS.vars.AItaskHandle, sS.vars.AOtaskHandle].filter (fun h => h != 0) ∧
      (SynchAI_AO.main.cleanup d sS).vars.AItaskHandle = 0 ∧
      (SynchAI_AO.main.cleanup d sS).vars.AOtaskHandle = 0) :=
  ⟨CAI_everyN_clears d taskHandle everyNsamplesEventType nSamples sC hC,
    CAI_done_clears d taskHandle status sC hs,
    SAO_everyN_clears d taskHandle everyNsamplesEventType nSamples sS hS,
    SAO_done_clears d taskHandle status sS hs,
    CAI_cleanup_clears d sC, SAO_cleanup_clears d sS⟩

/-- Witness of C14: the master read fails while the handles are `1` and `4`: both
tasks are cleared and both handles still hold `1` and `4`. -/
theorem C14_handles_after_teardown_witness :
    clears (ContinuousAI.EveryNCallback (failingAt 0) 1 0 1000
        ⟨[], 0, ⟨1, 4, "", "", "", "", ⟨0⟩, 0, 0⟩⟩).2.trace = [1, 4] ∧
    (ContinuousAI.EveryNCallback (failingAt 0) 1 0 1000
        ⟨[], 0, ⟨1, 4, "", "", "", "", ⟨0⟩, 0, 0⟩⟩).2.vars.masterTaskHandle = 1 ∧
    (ContinuousAI.EveryNCallback (failingAt 0) 1 0 1000
        ⟨[], 0, ⟨1, 4, "", "", "", "", ⟨0⟩, 0, 0⟩⟩).2.vars.slaveTaskHandle = 4 :=
  (C14_handles_after_teardown (failingAt 0) 1 0 1000 (-1)
    ⟨[], 0, ⟨1, 4, "", "", "", "", ⟨0⟩, 0, 0⟩⟩ ⟨[], 0, ⟨1, 2, "", "", [], 0⟩⟩
    (by decide) (by decide) (by decide)).1

theorem SAO_rest_keeps_AI (d : Driver) (fuel : Nat) :
    ∀ stmt ∈ (SynchAI_AO.main.configure d fuel).drop 1 ++ SynchAI_AO.main.start d,
      Frame (fun v : SynchAI_AO.Vars => v.AItaskHandle) (fun _ => false) stmt := by
  simp only [SynchAI_AO.main.configure, SynchAI_AO.main.start, List.drop,
    List.forall_mem_append, List.forall_mem_cons, List.not_mem_nil,
    false_implies, implies_true, and_true]
  repeat' apply And.intro
  all_goals first
    | exact frame_errChk _ _ _ _ _ (fun _ _ => rfl) (fun _ _ => rfl)
    | exact frame_printf _ _ _ (fun _ => rfl)
    | exact frame_getchar _ _ rfl
    | exact SAO_frame_helperStmt _ _ (fun _ _ => rfl) _ _ _ (fun _ _ => rfl)

theorem SAO_example_handle (s : St SynchAI_AO.Vars)
    (h : SynchAI_AO.main.config exampleDriver 5 SynchAI_AO.exampleStack = .next s) :
    s.vars.AItaskHandle = 1 := by
  have hbody : SynchAI_AO.main.body exampleDriver 5 =
      DAQmxErrChk exampleDriver (fun _ => .DAQmxCreateTask "")
        (fun r (v : SynchAI_AO.Vars) => { v with AItaskHandle := r.taskHandle }) ::
      ((SynchAI_AO.main.configure exampleDriver 5).drop 1 ++ SynchAI_AO.main.start exampleDriver) := rfl
  simp only [SynchAI_AO.main.config] at h
  rw [hbody, run_cons_next] at h
  obtain ⟨sa, ha, h⟩ := h
  obtain ⟨r, _, _, hv⟩ := errChk_step _ _ _ _ _ ha
  have hr : sa.vars.AItaskHandle = 1 := by
    rw [errChk_next] at ha
    rw [ha.2]
    rfl
  have hk := (frame_run _ _ _ (SAO_rest_keeps_AI exampleDriver 5) sa).1
  rw [h] at hk
  simp only [Flow.state] at hk
  rw [hk, hr]

/-- C17: a whole run of `ContinuousAI.c` in which `main` reached its wait for Enter and
then `DoneCallback` is delivered once with a failing status, or `EveryNCallback` is
delivered once and its master read fails, calls `DAQmxClearTask` at least twice on
the master handle: once in the callback and once more in the cleanup path of `main`.
A whole run of `SynchAI-AO.c` in which `DoneCallback` is delivered once with a failing
status calls `DAQmxClearTask` at least twice on the AI handle, both times inside the
callback. -/
theorem C17_double_clear (d : Driver) (fuel synchType : Nat) (stackC : ContinuousAI.Vars)
    (stackS : SynchAI_AO.Vars) (sC : St ContinuousAI.Vars) (sS : St SynchAI_AO.Vars)
    (taskHandle : TaskHandle) (everyNsamplesEventType : Int) (nSamples : Nat) (status : Int)
    (hC : ContinuousAI.main.config d fuel synchType stackC = .next sC)
    (hmC : sC.vars.masterTaskHandle ≠ 0)
    (hS : SynchAI_AO.main.config d fuel stackS = .next sS)
    (hmS : sS.vars.AItaskHandle ≠ 0)
    (hs : DAQmxFailed status = true) :
    2 ≤ (clears (ContinuousAI.mainWithCallbacks d fuel synchType stackC
        [.done status]).final.trace).count sC.vars.masterTaskHandle ∧
    (DAQmxFailed (d sC.trace (everyNRead sC.vars.masterTaskHandle)).status = true →
      2 ≤ (clears (ContinuousAI.mainWithCallbacks d fuel synchType stackC
        [.everyN taskHandle everyNsamplesEventType nSamples]).final.trace).count
          sC.vars.masterTaskHandle) ∧
    2 ≤ (clears (SynchAI_AO.mainWithCallbacks d fuel stackS
        [.done status]).final.trace).count sS.vars.AItaskHandle := by
  refine ⟨?_, ?_, ?_⟩
  · obtain ⟨h1, h2, h3⟩ := CAI_done_clears d sC.vars.masterTaskHandle status sC hs
    obtain ⟨k1, _, _⟩ := CAI_cleanup_clears d
      (ContinuousAI.DoneCallback d sC.vars.masterTaskHandle status sC).2
    simp only [ContinuousAI.mainWithCallbacks, hC, List.foldl, ContinuousAI.deliver]
    rw [k1, h1, h2, h3]
    have hne : (sC.vars.masterTaskHandle != 0) = true := by simpa [bne_iff_ne] using hmC
    simp only [List.filter_cons, hne, if_true]
    simp only [List.cons_append, List.count_append, List.count_cons_self]
    omega
  · intro hf
    obtain ⟨h1, h2, h3⟩ := CAI_everyN_clears d taskHandle everyNsamplesEventType nSamples sC hf
    obtain ⟨k1, _, _⟩ := CAI_cleanup_clears d
      (ContinuousAI.EveryNCallback d taskHandle everyNsamplesEventType nSamples sC).2
    simp only [ContinuousAI.mainWithCallbacks, hC, List.foldl, ContinuousAI.deliver]
    rw [k1, h1, h2, h3]
    have hne : (sC.vars.masterTaskHandle != 0) = true := by simpa [bne_iff_ne] using hmC
    simp only [List.filter_cons, hne, if_true]
    simp only [List.cons_append, List.count_append, List.count_cons_self]
    omega
  · obtain ⟨h1, h2, h3⟩ := SAO_done_clears d sS.vars.AItaskHandle status sS hs
    obtain ⟨k1, _, _⟩ := SAO_cleanup_clears d
      (SynchAI_AO.DoneCallback d sS.vars.AItaskHandle status sS).2
    simp only [SynchAI_AO.mainWithCallbacks, hS, List.foldl, SynchAI_AO.deliver]
    rw [k1, h1]
    have hne : (sS.vars.AItaskHandle != 0) = true := by simpa [bne_iff_ne] using hmS
    simp only [List.filter_cons, hne, if_true]
    simp only [List.cons_append, List.count_append, List.count_cons_self]
    omega

/-- Witness of C17: on the test driver `main` creates the master task with handle `1`
and the AI task with handle `1`; a `DoneCallback` with status `-1` makes handle `1`
be cleared twice in either program. -/
theorem C17_double_clear_witness :
    2 ≤ (clears (ContinuousAI.mainWithCallbacks exampleDriver 5 0 ContinuousAI.exampleStack
        [.done (-1)]).final.trace).count 1 ∧
    2 ≤ (clears (SynchAI_AO.mainWithCallbacks exampleDriver 5 SynchAI_AO.exampleStack
        [.done (-1)]).final.trace).count 1 := by
  have hb : BoundedDevices exampleDriver 5 := simDriver_bounded _ _ 5 (by decide) (by decide)
  obtain ⟨sC, hC⟩ := CAI_config_next exampleDriver (simDriver_allSucceed _) 5 0 hb
    ContinuousAI.exampleStack
  obtain ⟨sS, hS⟩ := SAO_config_next exampleDriver (simDriver_allSucceed _) 5 hb
    SynchAI_AO.exampleStack
  have hm := (CAI_example_handles 0 sC hC).1
  have ha := SAO_example_handle sS hS
  have h := C17_double_clear exampleDriver 5 0 ContinuousAI.exampleStack SynchAI_AO.exampleStack
    sC sS 1 0 1000 (-1) hC (by rw [hm]; decide) hS (by rw [ha]; decide) (by decide)
  rw [hm, ha] at h
  exact ⟨h.1, h.2.2⟩

end DAQmx
